import Mathlib

/-!
# samplify client: session guard and request dispatcher

A shallow embedding of `lib/request.go` (JSON and multipart dispatch) and of
`lib/client.go`: the token operations, the request guard, the configuration
functions and the typed operations that validate their arguments.

Modelling conventions

* The transport (`httpClient.Do`) is an arbitrary deterministic state machine
  over a state type `τ`; every request handed to it is appended to `World.sent`.
* `time.Now()` is the next reading of a clock given as a stream of readings
  (seconds); `World.reads` counts the readings taken so far.
* A Go `(value, error)` return is a pair of options; a Go method with a pointer
  receiver `*Client` returns the updated `Client` next to its results.
* `encoding/json` works on documents: a byte slice is given by the JSON document
  it scans to, or is marked as not scanning to one (`RawMessage`).
-/

namespace Samplify

/-! ## JSON documents and raw bodies -/

/-- A JSON document. `number` is an integer literal other than `-0`,
`fraction` any other number literal (`-0`, or one written with a fraction or an
exponent), kept as its text. -/
inductive JSON where
  | null
  | bool (b : Bool)
  | number (n : Int)
  | fraction (text : String)
  | string (s : String)
  | array (xs : List JSON)
  | object (members : List (String × JSON))

/-- A byte slice as `encoding/json` sees it (`json.RawMessage`, `[]byte`):
either the encoding of a JSON document, or bytes that do not scan as JSON
(the empty slice included). -/
inductive RawMessage where
  | encoded (doc : JSON)
  | invalid (text : String)

/-! ## Errors -/

/-- Sub-error of an `ErrorResponse` (`Error{Path, Message}` in `makeRequest`). -/
structure Error where
  Path : String
  Message : String
deriving DecidableEq, Repr

/-- The `ErrorResponse` built by `makeRequest` for a status code of 400 or more;
the fields are those of the composite literal in `lib/request.go`. -/
structure ErrorResponse where
  Timestamp : Option Nat
  RequestID : String
  HTTPCode : Int
  HTTPPhrase : String
  Path : String
  Errors : List Error
deriving DecidableEq, Repr

/-- Go `error` values that occur in the client. `other` stands for errors made
outside the package (transport, `net/http`, `encoding/json`), `wrapped` for an
error that wraps another one (`Unwrap`). -/
inductive GoError where
  | ErrSessionExpired
  | ErrIncorrectEnvironemt
  | errorResponse (e : ErrorResponse)
  | other (msg : String)
  | wrapped (msg : String) (inner : GoError)
deriving DecidableEq, Repr

/-- Type assertion `err.(*ErrorResponse)` of `Client.request`. -/
def assertErrorResponse : Option GoError → Option ErrorResponse
  | some (.errorResponse e) => some e
  | _ => none

/-- `errors.As(err, &errResp)` with `errResp : *ErrorResponse`: the first
`ErrorResponse` on the unwrap chain. -/
def errorsAs : GoError → Option ErrorResponse
  | .errorResponse e => some e
  | .wrapped _ inner => errorsAs inner
  | _ => none

/-! ## HTTP messages -/

/-- Characters allowed in a header field name (RFC 7230 token). -/
def validHeaderFieldByte (c : Char) : Bool :=
  c.isAlphanum || [33, 35, 36, 37, 38, 39, 42, 43, 45, 46, 94, 95, 96, 124, 126].contains c.toNat

/-- Case pattern of `textproto.CanonicalMIMEHeaderKey`: upper case at the start
and after a hyphen, lower case elsewhere. -/
def canonicalChars : Bool → List Char → List Char
  | _, [] => []
  | upper, c :: cs =>
    (if upper then c.toUpper else c.toLower) :: canonicalChars (c == '-') cs

/-- Go `textproto.CanonicalMIMEHeaderKey`: a key with a character that is not
allowed in a field name is returned unchanged. -/
def CanonicalMIMEHeaderKey (s : String) : String :=
  if s.data.all validHeaderFieldByte then String.mk (canonicalChars true s.data) else s

/-- Go `http.Header`, as the list of its (canonical key, value) entries in the
order they were added. -/
abbrev Header := List (String × String)

/-- Go `Header.Add`. -/
def Header.Add (h : Header) (key value : String) : Header :=
  h ++ [(CanonicalMIMEHeaderKey key, value)]

/-- Go `Header.Get`: the first value stored under the canonical form of `key`,
or the empty string. -/
def Header.Get (h : Header) (key : String) : String :=
  match h.find? (fun p => p.1 == CanonicalMIMEHeaderKey key) with
  | some p => p.2
  | none => ""

/-- Go `context.Context` values, as far as the client tells them apart. -/
inductive Context where
  | Background
  | user (id : Nat)
deriving DecidableEq, Repr

/-- Go `http.Request` as built by the client. `Body = none` is a request
without a payload. -/
structure Request where
  ctx : Context
  Method : String
  URL : String
  Header : Header
  Body : Option RawMessage

/-- Go `http.Response` as read by the client: `Body` is the outcome of
`ioutil.ReadAll(resp.Body)`. -/
structure Response where
  StatusCode : Int
  Status : String
  Header : Header
  Body : Except GoError RawMessage

/-- `APIResponse` of `lib/request.go`. -/
structure APIResponse where
  Body : RawMessage
  RequestID : String

/-! ## Environment and world -/

/-- What the client is run against: the injected transport, the clock and the
request validation of `net/http`. -/
structure Env (τ : Type) where
  /-- `httpClient.Do`. -/
  Do : Request → τ → Except GoError Response × τ
  /-- The `k`-th reading of `time.Now()`, in seconds. -/
  clock : Nat → Nat
  /-- The error, if any, `http.NewRequest` reports for a method and a URL. -/
  checkRequest : String → String → Option GoError

/-- State outside the client. -/
structure World (τ : Type) where
  transport : τ
  reads : Nat
  sent : List Request

/-- `time.Now()`. -/
def timeNow {τ : Type} (env : Env τ) (w : World τ) : Nat × World τ :=
  (env.clock w.reads, { w with reads := w.reads + 1 })

/-- `c.HTTPClient.Do(req)`, recording the request. -/
def httpDo {τ : Type} (env : Env τ) (req : Request) (w : World τ) :
    Except GoError Response × World τ :=
  let r := env.Do req w.transport
  (r.1, { w with transport := r.2, sent := w.sent ++ [req] })

/-- `http.NewRequestWithContext(ctx, method, url, body)`. -/
def NewRequestWithContext {τ : Type} (env : Env τ) (ctx : Context) (method url : String)
    (body : Option RawMessage) : Except GoError Request :=
  match env.checkRequest method url with
  | some err => .error err
  | none => .ok { ctx := ctx, Method := method, URL := url, Header := [], Body := body }

/-- `http.NewRequest(method, url, body)`: the background context. -/
def NewRequest {τ : Type} (env : Env τ) (method url : String)
    (body : Option RawMessage) : Except GoError Request :=
  NewRequestWithContext env Context.Background method url body

/-! ## Session and credentials -/

/-- Modelled from the spec: the `TokenRequest` type (Credentials: clientID,
username, password); its declaration is not among the sources, the field names
are those used by `NewClient`. -/
structure TokenRequest where
  ClientID : String
  Username : String
  Password : String
deriving DecidableEq, Repr

/-- Modelled from the spec: the `TokenResponse` type (Session: accessToken,
refreshToken, the two expiry durations relative to the acquisition, acquiredAt);
its declaration is not among the sources. `AccessToken`, `RefreshToken` and
`Acquired` are the fields the sources read and write; the durations are
unsigned 64-bit numbers of seconds. `Acquired = none` is the nil pointer. -/
structure TokenResponse where
  AccessToken : String
  RefreshToken : String
  ExpiresIn : Nat
  RefreshExpiresIn : Nat
  Acquired : Option Nat
deriving DecidableEq, Repr

/-- Modelled from the spec: the expiry check `AccessTokenExpired` (not among
the sources): expired when `now >= acquiredAt + accessTokenExpiresAt`, and for a
Session that was never acquired. -/
def TokenResponse.AccessTokenExpiredAt (t : TokenResponse) (now : Nat) : Bool :=
  match t.Acquired with
  | none => true
  | some acquired => decide (acquired + t.ExpiresIn ≤ now)

/-- Modelled from the spec: the expiry check `RefreshTokenExpired` (not among
the sources), analogous to the access token check. -/
def TokenResponse.RefreshTokenExpiredAt (t : TokenResponse) (now : Nat) : Bool :=
  match t.Acquired with
  | none => true
  | some acquired => decide (acquired + t.RefreshExpiresIn ≤ now)

/-- `ClientOptions` without the transport, which is part of `Env`. -/
structure ClientOptions where
  APIBaseURL : String
  AuthURL : String
  StatusURL : String
  GatewayURL : String
  Timeout : Option Int
deriving DecidableEq, Repr

/-- `Client` of `lib/client.go`. -/
structure Client where
  Credentials : TokenRequest
  Auth : TokenResponse
  Options : ClientOptions
deriving DecidableEq, Repr

/-! ## encoding/json -/

/-- A request body, the `interface{}` argument of the dispatcher: the values
the client itself passes, any other value given by the document `json.Marshal`
writes for it, and values `json.Marshal` rejects. -/
inductive Body where
  | nil
  | credentials (c : TokenRequest)
  | refreshReq (ClientID RefreshToken : String)
  | logoutReq (ClientID RefreshToken AccessToken : String)
  | value (doc : JSON)
  | unsupported (msg : String)

/-- Go `json.Marshal`. A nil interface encodes as the document `null`; the
anonymous request structs carry their `json` tags; the members of
`TokenRequest` are modelled from the spec (clientId, username, password). -/
def jsonMarshal : Body → Except GoError RawMessage
  | .nil => .ok (.encoded .null)
  | .credentials c =>
    .ok (.encoded (.object [("clientId", .string c.ClientID), ("username", .string c.Username),
      ("password", .string c.Password)]))
  | .refreshReq clientID refreshToken =>
    .ok (.encoded (.object [("clientId", .string clientID), ("refreshToken", .string refreshToken)]))
  | .logoutReq clientID refreshToken accessToken =>
    .ok (.encoded (.object [("clientId", .string clientID), ("refreshToken", .string refreshToken),
      ("accessToken", .string accessToken)]))
  | .value doc => .ok (.encoded doc)
  | .unsupported msg => .error (.other msg)

/-- Folded form of one character of a key: an ASCII letter in lower case, and
the two letters outside ASCII that fold onto ASCII letters, U+017F onto `s` and
U+212A onto `k`. -/
def foldChar (c : Char) : Char :=
  if c = Char.ofNat 383 then Char.ofNat 115
  else if c = Char.ofNat 8490 then Char.ofNat 107
  else c.toLower

/-- Folded form of a key, for the case-insensitive field match of
`encoding/json`. -/
def foldKey (s : String) : String :=
  String.mk (s.data.map foldChar)

/-- The fields of `TokenResponse` that are decoded from JSON (`Acquired` is
not: it is stamped by the client). -/
inductive TokenField where
  | AccessToken
  | RefreshToken
  | ExpiresIn
  | RefreshExpiresIn
deriving DecidableEq, Repr

/-- Modelled from the spec: the JSON member names of `TokenResponse`
(accessToken, refreshToken, expiresIn, refreshExpiresIn), matched without
regard to case as `encoding/json` does. -/
def tokenField (key : String) : Option TokenField :=
  let k := foldKey key
  if k = "accesstoken" then some .AccessToken
  else if k = "refreshtoken" then some .RefreshToken
  else if k = "expiresin" then some .ExpiresIn
  else if k = "refreshexpiresin" then some .RefreshExpiresIn
  else none

/-- The `UnmarshalTypeError` for a member that does not fit its field. -/
def unmarshalTypeError (f : TokenField) : GoError :=
  match f with
  | .AccessToken => .other "json: cannot unmarshal into Go struct field TokenResponse.accessToken"
  | .RefreshToken => .other "json: cannot unmarshal into Go struct field TokenResponse.refreshToken"
  | .ExpiresIn => .other "json: cannot unmarshal into Go struct field TokenResponse.expiresIn"
  | .RefreshExpiresIn =>
    .other "json: cannot unmarshal into Go struct field TokenResponse.refreshExpiresIn"

/-- Decoder `saveError`: only the first error is kept. -/
def saveError (saved : Option GoError) (err : GoError) : Option GoError :=
  match saved with
  | some e => some e
  | none => some err

/-- One object member stored into the struct the decoder was given: an unknown
key is skipped, `null` leaves the field as it is, a value of the field's type
is written to the field, and any other value is skipped with a saved
`UnmarshalTypeError` while decoding goes on. -/
def storeMember (acc : TokenResponse × Option GoError) (m : String × JSON) :
    TokenResponse × Option GoError :=
  match tokenField m.1 with
  | none => acc
  | some f =>
    match f, m.2 with
    | _, .null => acc
    | .AccessToken, .string s => ({ acc.1 with AccessToken := s }, acc.2)
    | .RefreshToken, .string s => ({ acc.1 with RefreshToken := s }, acc.2)
    | .ExpiresIn, .number n =>
      if 0 ≤ n ∧ n < 2 ^ 64 then ({ acc.1 with ExpiresIn := n.toNat }, acc.2)
      else (acc.1, saveError acc.2 (unmarshalTypeError f))
    | .RefreshExpiresIn, .number n =>
      if 0 ≤ n ∧ n < 2 ^ 64 then ({ acc.1 with RefreshExpiresIn := n.toNat }, acc.2)
      else (acc.1, saveError acc.2 (unmarshalTypeError f))
    | f, _ => (acc.1, saveError acc.2 (unmarshalTypeError f))

/-- Go `json.Unmarshal(data, &c.Auth)`: decodes into the existing struct. Bytes
that do not scan are rejected before anything is written; `null` is a no-op; an
object is stored member by member in document order; any other document is a
type error. Returns the struct after the call and the error. -/
def jsonUnmarshalToken (data : RawMessage) (auth : TokenResponse) :
    TokenResponse × Option GoError :=
  match data with
  | .invalid _ => (auth, some (.other "json: invalid character or unexpected end of input"))
  | .encoded .null => (auth, none)
  | .encoded (.object members) => members.foldl storeMember (auth, none)
  | .encoded _ => (auth, some (.other "json: cannot unmarshal into Go value of type TokenResponse"))

/-- A Go value held by an `interface{}`, as far as `encoding/json` tells values
apart: the nil interface, a `bool`, an integer of an integer type, a `float64`
holding an integer of magnitude at most `2 ^ 53`, a `float64` given by a number
literal the model does not evaluate (`-0`, a literal with a fraction or an
exponent, an integer beyond `2 ^ 53`), a `string` (valid UTF-8), a non-nil
`[]interface{}` and a non-nil `map[string]interface{}` given by the entries
assigned to it, in order. -/
inductive GoValue where
  | nil
  | bool (b : Bool)
  | int (n : Int)
  | float64 (n : Int)
  | float64Of (literal : String)
  | string (s : String)
  | slice (xs : List GoValue)
  | map (entries : List (String × GoValue))

/-- Byte-wise order of two strings, on their characters: the order in which
`encoding/json` writes the keys of a map. -/
def keyLess : List Char → List Char → Bool
  | _, [] => false
  | [], _ :: _ => true
  | a :: as, b :: bs => decide (a.toNat < b.toNat) || (a.toNat == b.toNat && keyLess as bs)

/-- The key `a` sorts before the key `b`. -/
def keyBefore (a b : String) : Bool :=
  keyLess a.data b.data

/-- Assignment `m[k] = v` on a map kept as its entries in ascending key order:
an entry under the same key is replaced. -/
def putEntry {α : Type} (k : String) (v : α) : List (String × α) → List (String × α)
  | [] => [(k, v)]
  | e :: rest =>
    if keyBefore k e.1 then (k, v) :: e :: rest
    else if k = e.1 then (k, v) :: rest
    else e :: putEntry k v rest

/-- The map made by assigning the entries in order, as its entries in ascending
key order. -/
def mapOf {α : Type} (entries : List (String × α)) : List (String × α) :=
  entries.foldl (fun m e => putEntry e.1 e.2 m) []

mutual
/-- Go `json.Marshal` on a value held by an `interface{}`, as the document it
writes: an integer and an integral `float64` are written as the same integer
literal, a slice as an array, a map as an object with its keys sorted. A
`float64` the model does not evaluate is written back as its literal. -/
def encodeValue : GoValue → JSON
  | .nil => .null
  | .bool b => .bool b
  | .int n => .number n
  | .float64 n => .number n
  | .float64Of literal => .fraction literal
  | .string s => .string s
  | .slice xs => .array (encodeList xs)
  | .map entries => .object (mapOf (encodeEntries entries))
/-- The elements of a slice, encoded in order. -/
def encodeList : List GoValue → List JSON
  | [] => []
  | x :: xs => encodeValue x :: encodeList xs
/-- The entries of a map, encoded in order. -/
def encodeEntries : List (String × GoValue) → List (String × JSON)
  | [] => []
  | (k, x) :: rest => (k, encodeValue x) :: encodeEntries rest
end

mutual
/-- The value `encoding/json` decodes a document to when the target is an empty
`interface{}`: every number becomes a `float64`, an array a `[]interface{}`, an
object a `map[string]interface{}` in which a repeated key keeps its last value.
Numbers are taken to be in the range of `float64`. -/
def decodeValue : JSON → GoValue
  | .null => .nil
  | .bool b => .bool b
  | .number n =>
    if -(2 ^ 53) ≤ n ∧ n ≤ 2 ^ 53 then .float64 n else .float64Of (toString n)
  | .fraction text => .float64Of text
  | .string s => .string s
  | .array xs => .slice (decodeList xs)
  | .object members => .map (mapOf (decodeMembers members))
/-- The elements of an array, decoded in order. -/
def decodeList : List JSON → List GoValue
  | [] => []
  | x :: xs => decodeValue x :: decodeList xs
/-- The members of an object, decoded in order. -/
def decodeMembers : List (String × JSON) → List (String × GoValue)
  | [] => []
  | (k, x) :: rest => (k, decodeValue x) :: decodeMembers rest
end

/-- Go `json.Unmarshal(data, &v)` for a nil `interface{}` variable `v`: bytes
that do not scan are rejected, a document is decoded to its generic value. -/
def jsonUnmarshalInterface : RawMessage → Except GoError GoValue
  | .encoded doc => .ok (decodeValue doc)
  | .invalid _ => .error (.other "json: invalid character or unexpected end of input")

/-- The request body that is the Go value `v`: the dispatcher sees a body
through `json.Marshal` only. -/
def Body.ofValue (v : GoValue) : Body :=
  Body.value (encodeValue v)

/-- The keys are in strictly ascending order. -/
def ascending : List String → Bool
  | [] => true
  | [_] => true
  | a :: b :: rest => keyBefore a b && ascending (b :: rest)

mutual
/-- The value is of the form the decoder makes for an `interface{}`: built from
nil, booleans, strings, `float64` values holding an integer of magnitude at
most `2 ^ 53`, slices and maps, each map given by its entries in ascending key
order. -/
def GoValue.generic : GoValue → Bool
  | .nil => true
  | .bool _ => true
  | .int _ => false
  | .float64 n => decide (-(2 ^ 53) ≤ n ∧ n ≤ 2 ^ 53)
  | .float64Of _ => false
  | .string _ => true
  | .slice xs => genericList xs
  | .map entries => ascending (entries.map Prod.fst) && genericEntries entries
/-- Every element is of the generic form. -/
def genericList : List GoValue → Bool
  | [] => true
  | x :: xs => x.generic && genericList xs
/-- Every entry holds a value of the generic form. -/
def genericEntries : List (String × GoValue) → Bool
  | [] => true
  | (_, x) :: rest => x.generic && genericEntries rest
end

/-! ## Request dispatcher (`lib/request.go`) -/

/-- A Go `(*APIResponse, error)` pair. -/
abbrev Result := Option APIResponse × Option GoError

/-- `Client.makeRequest`. -/
def makeRequest {τ : Type} (env : Env τ) (path : String)
    (newRequest : Option RawMessage → Except GoError Request)
    (accessToken : String) (body : Body) (w : World τ) : Result × World τ :=
  match jsonMarshal body with
  | .error err => ((none, some err), w)
  | .ok reqData =>
    -- a successful Marshal never yields a nil slice, so `buf` is always set
    let buf : Option RawMessage := some reqData
    match newRequest buf with
    | .error err => ((none, some err), w)
    | .ok req =>
      let req := { req with Header := req.Header.Add "Accept" "application/json" }
      let req := { req with Header := req.Header.Add "Content-type" "application/json" }
      let req :=
        if accessToken ≠ "" then
          { req with Header := req.Header.Add "Authorization" ("Bearer " ++ accessToken) }
        else req
      let d := httpDo env req w
      match d.1 with
      | .error err => ((none, some err), d.2)
      | .ok resp =>
        match resp.Body with
        | .error err => ((none, some err), d.2)
        | .ok respData =>
          let requestID := resp.Header.Get "x-request-id"
          if resp.StatusCode ≥ 400 then
            let t := timeNow env d.2
            let err : ErrorResponse :=
              { Timestamp := some t.1
                RequestID := requestID
                HTTPCode := resp.StatusCode
                HTTPPhrase := resp.Status
                Path := path
                Errors := [{ Path := path, Message := resp.Status }] }
            ((some { Body := respData, RequestID := requestID }, some (.errorResponse err)), t.2)
          else
            ((some { Body := respData, RequestID := requestID }, none), d.2)

/-- `Client.sendRequest`. -/
def sendRequest {τ : Type} (env : Env τ) (host method url accessToken : String) (body : Body)
    (w : World τ) : Result × World τ :=
  let path := host ++ url
  makeRequest env path (NewRequest env method path) accessToken body w

/-- `Client.sendRequestWithContext`. -/
def sendRequestWithContext {τ : Type} (env : Env τ) (ctx : Context)
    (host method url accessToken : String) (body : Body) (w : World τ) : Result × World τ :=
  let path := host ++ url
  makeRequest env path (NewRequestWithContext env ctx method path) accessToken body w

/-! ## Token acquisition and the session guard (`lib/client.go`) -/

/-- Outcome of dereferencing a nil `*APIResponse`. The dispatcher never returns
a nil response together with a nil error (`makeRequest_response_of_no_error`),
so the branches that produce this value are not reached through it. -/
def nilResponsePanic : GoError :=
  .other "panic: nil pointer dereference"

/-- `Client.refreshToken`, with the send function it is given. The expiry check
takes one reading of the clock. -/
def refreshToken {τ : Type} (env : Env τ)
    (send : String → Body → World τ → Result × World τ) (c : Client) (w : World τ) :
    Option GoError × Client × World τ :=
  let now := timeNow env w
  if c.Auth.RefreshTokenExpiredAt now.1 then (some .ErrSessionExpired, c, now.2)
  else
    let req := Body.refreshReq c.Credentials.ClientID c.Auth.RefreshToken
    let r := send c.Options.AuthURL req now.2
    match r.1.2 with
    | some err => (some err, c, r.2)
    | none =>
      match r.1.1 with
      | none => (some nilResponsePanic, c, r.2)
      | some ar =>
        let d := jsonUnmarshalToken ar.Body c.Auth
        match d.2 with
        | some err => (some err, { c with Auth := d.1 }, r.2)
        | none =>
          let t := timeNow env r.2
          (none, { c with Auth := { d.1 with Acquired := some t.1 } }, t.2)

/-- `Client.RefreshToken`. -/
def RefreshToken {τ : Type} (env : Env τ) (c : Client) (w : World τ) :
    Option GoError × Client × World τ :=
  refreshToken env (fun url req => sendRequest env url "POST" "/token/refresh" "" req) c w

/-- `Client.RefreshTokenWithContext`. -/
def RefreshTokenWithContext {τ : Type} (env : Env τ) (ctx : Context) (c : Client)
    (w : World τ) : Option GoError × Client × World τ :=
  refreshToken env
    (fun url req => sendRequestWithContext env ctx url "POST" "/token/refresh" "" req) c w

/-- `Client.requestAndParseToken`: the acquisition time is read before the
request is sent. -/
def requestAndParseToken {τ : Type} (env : Env τ) (c : Client) (w : World τ) :
    Option GoError × Client × World τ :=
  let t := timeNow env w
  let r := sendRequest env c.Options.AuthURL "POST" "/token/password" ""
    (Body.credentials c.Credentials) t.2
  match r.1.2 with
  | some err => (some err, c, r.2)
  | none =>
    match r.1.1 with
    | none => (some nilResponsePanic, c, r.2)
    | some ar =>
      let d := jsonUnmarshalToken ar.Body c.Auth
      match d.2 with
      | some err => (some err, { c with Auth := d.1 }, r.2)
      | none => (none, { c with Auth := { d.1 with Acquired := some t.1 } }, r.2)

/-- `Client.requestAndParseTokenWithContext`: the acquisition time is read
after the response was decoded. -/
def requestAndParseTokenWithContext {τ : Type} (env : Env τ) (ctx : Context) (c : Client)
    (w : World τ) : Option GoError × Client × World τ :=
  let r := sendRequestWithContext env ctx c.Options.AuthURL "POST" "/token/password" ""
    (Body.credentials c.Credentials) w
  match r.1.2 with
  | some err => (some err, c, r.2)
  | none =>
    match r.1.1 with
    | none => (some nilResponsePanic, c, r.2)
    | some ar =>
      let d := jsonUnmarshalToken ar.Body c.Auth
      match d.2 with
      | some err => (some err, { c with Auth := d.1 }, r.2)
      | none =>
        let t := timeNow env r.2
        (none, { c with Auth := { d.1 with Acquired := some t.1 } }, t.2)

/-- The zero value `TokenResponse{}`. -/
def TokenResponse.zero : TokenResponse :=
  { AccessToken := "", RefreshToken := "", ExpiresIn := 0, RefreshExpiresIn := 0,
    Acquired := none }

/-- `Client.GetAuth`. -/
def GetAuth {τ : Type} (env : Env τ) (c : Client) (w : World τ) :
    (TokenResponse × Option GoError) × Client × World τ :=
  let a := requestAndParseToken env c w
  match a.1 with
  | some err => ((TokenResponse.zero, some err), a.2)
  | none => ((a.2.1.Auth, none), a.2)

/-- `Client.GetAuthWithContext`. -/
def GetAuthWithContext {τ : Type} (env : Env τ) (ctx : Context) (c : Client) (w : World τ) :
    (TokenResponse × Option GoError) × Client × World τ :=
  let a := requestAndParseTokenWithContext env ctx c w
  match a.1 with
  | some err => ((TokenResponse.zero, some err), a.2)
  | none => ((a.2.1.Auth, none), a.2)

/-- `Client.validateTokens`. The expiry check takes one reading of the clock. -/
def validateTokens {τ : Type} (env : Env τ) (c : Client) (w : World τ) :
    Option GoError × Client × World τ :=
  let now := timeNow env w
  if c.Auth.AccessTokenExpiredAt now.1 then
    let r := RefreshToken env c now.2
    match r.1 with
    | some _ =>
      let a := requestAndParseToken env r.2.1 r.2.2
      match a.1 with
      | some err => (some err, a.2)
      | none => (none, a.2)
    | none => (none, r.2)
  else (none, c, now.2)

/-- `Client.validateTokensWithContext`. -/
def validateTokensWithContext {τ : Type} (env : Env τ) (ctx : Context) (c : Client)
    (w : World τ) : Option GoError × Client × World τ :=
  let now := timeNow env w
  if c.Auth.AccessTokenExpiredAt now.1 then
    let r := RefreshTokenWithContext env ctx c now.2
    match r.1 with
    | some _ =>
      let a := requestAndParseTokenWithContext env ctx r.2.1 r.2.2
      match a.1 with
      | some err => (some err, a.2)
      | none => (none, a.2)
    | none => (none, r.2)
  else (none, c, now.2)

/-- `http.StatusUnauthorized`. -/
def StatusUnauthorized : Int := 401

/-- `Client.request`. -/
def request {τ : Type} (env : Env τ) (method host url : String) (body : Body) (c : Client)
    (w : World τ) : Result × Client × World τ :=
  let v := validateTokens env c w
  match v.1 with
  | some err => ((none, some err), v.2)
  | none =>
    let c1 := v.2.1
    let r := sendRequest env host method url c1.Auth.AccessToken body v.2.2
    match assertErrorResponse r.1.2 with
    | some errResp =>
      if errResp.HTTPCode = StatusUnauthorized then
        let a := requestAndParseToken env c1 r.2
        match a.1 with
        | some err => ((none, some err), a.2)
        | none =>
          let r2 := sendRequest env host method url a.2.1.Auth.AccessToken body a.2.2
          (r2.1, a.2.1, r2.2)
      else (r.1, c1, r.2)
    | none => (r.1, c1, r.2)

/-- `Client.requestWithContext`. -/
def requestWithContext {τ : Type} (env : Env τ) (ctx : Context) (method host url : String)
    (body : Body) (c : Client) (w : World τ) : Result × Client × World τ :=
  let v := validateTokensWithContext env ctx c w
  match v.1 with
  | some err => ((none, some err), v.2)
  | none =>
    let c1 := v.2.1
    let r := sendRequestWithContext env ctx host method url c1.Auth.AccessToken body v.2.2
    match r.1.2 with
    | some err =>
      match errorsAs err with
      | some errResp =>
        if errResp.HTTPCode = StatusUnauthorized then
          let a := requestAndParseToken env c1 r.2
          match a.1 with
          | some err2 => ((none, some err2), a.2)
          | none =>
            let r2 :=
              sendRequestWithContext env ctx host method url a.2.1.Auth.AccessToken body a.2.2
            (r2.1, a.2.1, r2.2)
        else ((none, some err), c1, r.2)
      | none => ((none, some err), c1, r.2)
    | none => (r.1, c1, r.2)

/-! ## Multipart dispatch (`lib/request.go`) -/

/-- A `multipart.File` as the dispatcher reads it with `io.Copy`: its content,
or the error of the read. -/
abbrev File := Except GoError String

/-- The double quote and the line break of a multipart body. -/
def dquote : String := String.mk [Char.ofNat 34]

/-- The line break of a multipart body. -/
def crlf : String := String.mk [Char.ofNat 13, Char.ofNat 10]

/-- `escapeQuotes` of `mime/multipart`: a backslash and a double quote get a
backslash in front, a carriage return is written `%0D` and a line feed `%0A`. -/
def escapeQuotes (s : String) : String :=
  String.mk (s.data.flatMap fun ch =>
    if ch = Char.ofNat 92 ∨ ch = Char.ofNat 34 then [Char.ofNat 92, ch]
    else if ch = Char.ofNat 13 then "%0D".data
    else if ch = Char.ofNat 10 then "%0A".data
    else [ch])

/-- The bytes `multipart.Writer` has written after `CreateFormFile("file",
fileName)`, the copy of the file, `WriteField("message", message)` and `Close`,
for the boundary the writer drew. -/
def multipartBody (boundary fileName content message : String) : String :=
  "--" ++ boundary ++ crlf ++
    "Content-Disposition: form-data; name=" ++ dquote ++ "file" ++ dquote ++ "; filename=" ++
      dquote ++ escapeQuotes fileName ++ dquote ++ crlf ++
    "Content-Type: application/octet-stream" ++ crlf ++ crlf ++
    content ++ crlf ++
    "--" ++ boundary ++ crlf ++
    "Content-Disposition: form-data; name=" ++ dquote ++ "message" ++ dquote ++ crlf ++ crlf ++
    message ++ crlf ++
    "--" ++ boundary ++ "--" ++ crlf

/-- `Writer.FormDataContentType`. The boundary a writer draws is made of
hexadecimal digits, so it is never quoted. -/
def FormDataContentType (boundary : String) : String :=
  "multipart/form-data; boundary=" ++ boundary

/-- `Client.makeFormDataRequest`, for the boundary `multipart.NewWriter` drew.
Writing to the in-memory buffer cannot fail, so `CreateFormFile` returns no
error; the payload is no JSON document. -/
def makeFormDataRequest {τ : Type} (env : Env τ) (boundary : String) (path : String)
    (newRequest : Option RawMessage → Except GoError Request)
    (accessToken : String) (file : File) (fileName message : String) (w : World τ) :
    Result × World τ :=
  match file with
  | .error err => ((none, some err), w)
  | .ok content =>
    let bodyBuf : RawMessage := .invalid (multipartBody boundary fileName content message)
    match newRequest (some bodyBuf) with
    | .error err => ((none, some err), w)
    | .ok req =>
      let req :=
        if accessToken ≠ "" then
          { req with Header := req.Header.Add "Authorization" ("Bearer " ++ accessToken) }
        else req
      let req := { req with Header := req.Header.Add "Content-Type" (FormDataContentType boundary) }
      let d := httpDo env req w
      match d.1 with
      | .error err => ((none, some err), d.2)
      | .ok resp =>
        match resp.Body with
        | .error err => ((none, some err), d.2)
        | .ok respData =>
          let requestID := resp.Header.Get "x-request-id"
          if resp.StatusCode ≥ 400 then
            let t := timeNow env d.2
            let err : ErrorResponse :=
              { Timestamp := some t.1
                RequestID := requestID
                HTTPCode := resp.StatusCode
                HTTPPhrase := resp.Status
                Path := path
                Errors := [{ Path := path, Message := resp.Status }] }
            ((some { Body := respData, RequestID := requestID }, some (.errorResponse err)), t.2)
          else
            ((some { Body := respData, RequestID := requestID }, none), d.2)

/-- `Client.sendFormData`. -/
def sendFormData {τ : Type} (env : Env τ) (boundary : String)
    (host method path accessToken : String) (file : File) (fileName message : String)
    (w : World τ) : Result × World τ :=
  let path := host ++ path
  makeFormDataRequest env boundary path (NewRequest env method path) accessToken file fileName
    message w

/-- `Client.sendFormDataWithContext`. -/
def sendFormDataWithContext {τ : Type} (env : Env τ) (boundary : String) (ctx : Context)
    (host method path accessToken : String) (file : File) (fileName message : String)
    (w : World τ) : Result × World τ :=
  let path := host ++ path
  makeFormDataRequest env boundary path (NewRequestWithContext env ctx method path) accessToken
    file fileName message w

/-- `Client.UploadReconcile`; the `options` argument is not used. -/
def UploadReconcile {τ : Type} (env : Env τ) (boundary : String) (extProjectID : String)
    (file : File) (fileName message : String) (c : Client) (w : World τ) :
    Result × Client × World τ :=
  let r := sendFormData env boundary c.Options.APIBaseURL "POST"
    ("/projects/" ++ extProjectID ++ "/reconcile") c.Auth.AccessToken file fileName message w
  (r.1, c, r.2)

/-- `Client.UploadReconcileWithContext`; the `options` argument is not used. -/
def UploadReconcileWithContext {τ : Type} (env : Env τ) (boundary : String) (ctx : Context)
    (extProjectID : String) (file : File) (fileName message : String) (c : Client)
    (w : World τ) : Result × Client × World τ :=
  let r := sendFormDataWithContext env boundary ctx c.Options.APIBaseURL "POST"
    ("/projects/" ++ extProjectID ++ "/reconcile") c.Auth.AccessToken file fileName message w
  (r.1, c, r.2)

/-! ## Client configuration (`lib/client.go`) -/

/-- The package-level presets `DevClientOptions`, `UATClientOptions` and
`ProdClientOptions`: pointers to structs that `SetOptions` hands to the client
and writes through. -/
structure Presets where
  Dev : ClientOptions
  UAT : ClientOptions
  Prod : ClientOptions
deriving DecidableEq, Repr

/-- `DevClientOptions` as declared. -/
def DevClientOptions : ClientOptions :=
  { APIBaseURL := "https://api.dev.pe.dynata.com/sample/v1"
    AuthURL := "https://api.dev.pe.dynata.com/auth/v1"
    StatusURL := "https://api.dev.pe.dynata.com/status"
    GatewayURL := "https://api.dev.pe.dynata.com/status/gateway"
    Timeout := none }

/-- `UATClientOptions` as declared. -/
def UATClientOptions : ClientOptions :=
  { APIBaseURL := "https://api.uat.pe.dynata.com/sample/v1"
    AuthURL := "https://api.uat.pe.dynata.com/auth/v1"
    StatusURL := "https://api.uat.pe.dynata.com/status"
    GatewayURL := "https://api.uat.pe.dynata.com/status/gateway"
    Timeout := none }

/-- `ProdClientOptions` as declared. -/
def ProdClientOptions : ClientOptions :=
  { APIBaseURL := "https://api.researchnow.com/sample/v1"
    AuthURL := "https://api.researchnow.com/auth/v1"
    StatusURL := "https://api.researchnow.com/status"
    GatewayURL := "https://api.researchnow.com/status/gateway"
    Timeout := none }

/-- The presets as the package declares them. -/
def Presets.declared : Presets :=
  { Dev := DevClientOptions, UAT := UATClientOptions, Prod := ProdClientOptions }

/-- The constant `defaulttimeout`. -/
def defaulttimeout : Int := 20

/-- The tail of `SetOptions` after the switch, on the preset the client now
points to: a zero timeout stores the default in the preset's `Timeout`. The
`http.Client` installed as `HTTPClient` is the transport, which is part of
`Env`. -/
def setTimeout (o : ClientOptions) (timeout : Int) : ClientOptions :=
  if timeout = 0 then { o with Timeout := some defaulttimeout } else o

/-- `Client.SetOptions`. `c.Options` becomes a pointer to a preset and the
writes go through it, so the preset changes with the client's options; the
world is handed through untouched, the function has no use for it. -/
def SetOptions {τ : Type} (envName : String) (timeout : Int) (c : Client) (g : Presets)
    (w : World τ) : Option GoError × Client × Presets × World τ :=
  if envName = "dev" then
    let o := setTimeout g.Dev timeout
    (none, { c with Options := o }, { g with Dev := o }, w)
  else if envName = "uat" then
    let o := setTimeout g.UAT timeout
    (none, { c with Options := o }, { g with UAT := o }, w)
  else if envName = "prod" then
    let o := setTimeout g.Prod timeout
    (none, { c with Options := o }, { g with Prod := o }, w)
  else (some .ErrIncorrectEnvironemt, c, g, w)

/-- The options of a client whose `Options` pointer is nil; `NewClientFromEnv`
never returns such a client. -/
def ClientOptions.unset : ClientOptions :=
  { APIBaseURL := "", AuthURL := "", StatusURL := "", GatewayURL := "", Timeout := none }

/-- `NewClientFromEnv`. -/
def NewClientFromEnv {τ : Type} (clientID username passsword : String) (envName : String)
    (timeout : Int) (g : Presets) (w : World τ) :
    (Option Client × Option GoError) × Presets × World τ :=
  let client : Client :=
    { Credentials := { ClientID := clientID, Username := username, Password := passsword }
      Auth := TokenResponse.zero
      Options := ClientOptions.unset }
  let r := SetOptions envName timeout client g w
  match r.1 with
  | some err => ((none, some err), r.2.2)
  | none => ((some r.2.1, none), r.2.2)

/-! ## Typed operations (`lib/client.go`) -/

/-- How a typed operation hands its result variable `res` to
`requestAndParseResponse`: as `&res`, or as `res` (a copy put into the
`interface{}` argument). -/
inductive ResObj where
  | pointer
  | value
deriving DecidableEq, Repr

/-- A result type of a typed operation: its zero value (`var res T`) and
`json.Unmarshal(data, &res)` for a document `data`, which decodes into the
existing value. The response types are declared outside the sources. -/
structure Decoder (ρ : Type) where
  zero : ρ
  unmarshal : JSON → ρ → ρ × Option GoError

/-- Go `json.Unmarshal(ar.Body, &resObj)` for the `interface{}` parameter
`resObj`, seen from the caller's result variable: bytes that do not scan are
rejected; `null` clears the local interface and writes nothing; any other
document is decoded into the caller's variable when `resObj` holds a pointer to
it, and into the local interface alone (the caller's variable keeps its value)
when `resObj` holds a copy. Numbers are taken to be in the range of `float64`. -/
def unmarshalResObj {ρ : Type} (dec : Decoder ρ) (how : ResObj) (data : RawMessage) (res : ρ) :
    ρ × Option GoError :=
  match data with
  | .invalid _ => (res, some (.other "json: invalid character or unexpected end of input"))
  | .encoded .null => (res, none)
  | .encoded doc =>
    match how with
    | .pointer => dec.unmarshal doc res
    | .value => (res, none)

/-- `Client.requestAndParseResponse`; returns the error and the caller's result
variable after the call. -/
def requestAndParseResponse {τ ρ : Type} (env : Env τ) (dec : Decoder ρ) (method url : String)
    (body : Body) (how : ResObj) (res : ρ) (c : Client) (w : World τ) :
    (Option GoError × ρ) × Client × World τ :=
  let r := request env method c.Options.APIBaseURL url body c w
  match r.1.2 with
  | some err =>
    match r.1.1 with
    | some ar => ((some err, (unmarshalResObj dec how ar.Body res).1), r.2)
    | none => ((some err, res), r.2)
  | none =>
    match r.1.1 with
    | none => ((some nilResponsePanic, res), r.2)
    | some ar =>
      let d := unmarshalResObj dec how ar.Body res
      match d.2 with
      | some err => ((some err, d.1), r.2)
      | none => ((none, d.1), r.2)

/-- `Client.requestAndParseResponseWithContext`. -/
def requestAndParseResponseWithContext {τ ρ : Type} (env : Env τ) (dec : Decoder ρ)
    (ctx : Context) (method url : String) (body : Body) (how : ResObj) (res : ρ) (c : Client)
    (w : World τ) : (Option GoError × ρ) × Client × World τ :=
  let r := requestWithContext env ctx method c.Options.APIBaseURL url body c w
  match r.1.2 with
  | some err =>
    match r.1.1 with
    | some ar => ((some err, (unmarshalResObj dec how ar.Body res).1), r.2)
    | none => ((some err, res), r.2)
  | none =>
    match r.1.1 with
    | none => ((some nilResponsePanic, res), r.2)
    | some ar =>
      let d := unmarshalResObj dec how ar.Body res
      match d.2 with
      | some err => ((some err, d.1), r.2)
      | none => ((none, d.1), r.2)

/-- The request callback a validating operation is given: it gets the path and
the result variable and returns the error and the variable after the call. -/
abbrev Callback (τ ρ : Type) :=
  String → ρ → Client → World τ → (Option GoError × ρ) × Client × World τ

/-- A Go `(*T, error)` return of a typed operation, with the client and the
world after the call. -/
abbrev OpResult (τ ρ : Type) := (Option ρ × Option GoError) × Client × World τ

/-- The common end of the typed operations:
`if err := requestAndParseResponse(...); err != nil (return nil, err); return &res, nil`. -/
def returnResult {τ ρ : Type} (r : (Option GoError × ρ) × Client × World τ) : OpResult τ ρ :=
  match r.1.1 with
  | some err => ((none, some err), r.2)
  | none => ((some r.1.2, none), r.2)

/-- The validation functions the operations call; they are declared outside the
sources and taken as given. `α` is the type of the criteria values
(`Validate` takes an `interface{}`); `ValidateSchedule` stands for the call on
the `DaysInField` and `FieldSchedule` of a line item. -/
structure Validators (α : Type) where
  ValidateNotEmpty : List String → Option GoError
  Validate : α → Option GoError
  ValidateSchedule : α → Option GoError
  ValidateAction : String → Option GoError
  IsCountryCodeOrEmpty : String → Option GoError
  IsLanguageCodeOrEmpty : String → Option GoError

/-- `Client.createProject`. -/
def createProject {τ ρ α : Type} (v : Validators α) (zero : ρ) (project : α)
    (requestAndParseResponse : ρ → Client → World τ → (Option GoError × ρ) × Client × World τ)
    (c : Client) (w : World τ) : OpResult τ ρ :=
  match v.Validate project with
  | some err => ((none, some err), c, w)
  | none => returnResult (requestAndParseResponse zero c w)

/-- `Client.updateProject`; `extProjectID` is `project.ExtProjectID`. -/
def updateProject {τ ρ α : Type} (v : Validators α) (zero : ρ) (project : α)
    (extProjectID : String) (requestAndParseResponse : Callback τ ρ)
    (c : Client) (w : World τ) : OpResult τ ρ :=
  match v.Validate project with
  | some err => ((none, some err), c, w)
  | none =>
    let path := "/projects/" ++ extProjectID
    returnResult (requestAndParseResponse path zero c w)

/-- `Client.buyProject`. -/
def buyProject {τ ρ α : Type} (v : Validators α) (zero : ρ) (extProjectID : String) (buy : α)
    (requestAndParseResponse : Callback τ ρ) (c : Client) (w : World τ) : OpResult τ ρ :=
  match v.ValidateNotEmpty [extProjectID] with
  | some err => ((none, some err), c, w)
  | none =>
    match v.Validate buy with
    | some err => ((none, some err), c, w)
    | none =>
      let path := "/projects/" ++ extProjectID ++ "/buy"
      returnResult (requestAndParseResponse path zero c w)

/-- `Client.closeProject`. -/
def closeProject {τ ρ α : Type} (v : Validators α) (zero : ρ) (extProjectID : String)
    (requestAndParseResponse : Callback τ ρ) (c : Client) (w : World τ) : OpResult τ ρ :=
  match v.ValidateNotEmpty [extProjectID] with
  | some err => ((none, some err), c, w)
  | none =>
    let path := "/projects/" ++ extProjectID ++ "/close"
    returnResult (requestAndParseResponse path zero c w)

/-- `Client.getProjectBy`. -/
def getProjectBy {τ ρ α : Type} (v : Validators α) (zero : ρ) (extProjectID : String)
    (requestAndParseResponse : Callback τ ρ) (c : Client) (w : World τ) : OpResult τ ρ :=
  match v.ValidateNotEmpty [extProjectID] with
  | some err => ((none, some err), c, w)
  | none =>
    let path := "/projects/" ++ extProjectID
    returnResult (requestAndParseResponse path zero c w)

/-- `Client.getProjectReport`. -/
def getProjectReport {τ ρ α : Type} (v : Validators α) (zero : ρ) (extProjectID : String)
    (requestAndParseResponse : Callback τ ρ) (c : Client) (w : World τ) : OpResult τ ρ :=
  match v.ValidateNotEmpty [extProjectID] with
  | some err => ((none, some err), c, w)
  | none =>
    let path := "/projects/" ++ extProjectID ++ "/report"
    returnResult (requestAndParseResponse path zero c w)

/-- `Client.addLineItem`. -/
def addLineItem {τ ρ α : Type} (v : Validators α) (zero : ρ) (extProjectID : String)
    (lineItem : α) (requestAndParseResponse : Callback τ ρ) (c : Client) (w : World τ) :
    OpResult τ ρ :=
  match v.ValidateNotEmpty [extProjectID] with
  | some err => ((none, some err), c, w)
  | none =>
    match v.Validate lineItem with
    | some err => ((none, some err), c, w)
    | none =>
      match v.ValidateSchedule lineItem with
      | some err => ((none, some err), c, w)
      | none =>
        let path := "/projects/" ++ extProjectID ++ "/lineItems"
        returnResult (requestAndParseResponse path zero c w)

/-- `Client.updateLineItem`. -/
def updateLineItem {τ ρ α : Type} (v : Validators α) (zero : ρ)
    (extProjectID extLineItemID : String) (lineItem : α)
    (requestAndParseResponse : Callback τ ρ) (c : Client) (w : World τ) : OpResult τ ρ :=
  match v.ValidateNotEmpty [extProjectID, extLineItemID] with
  | some err => ((none, some err), c, w)
  | none =>
    match v.Validate lineItem with
    | some err => ((none, some err), c, w)
    | none =>
      match v.ValidateSchedule lineItem with
      | some err => ((none, some err), c, w)
      | none =>
        let path := "/projects/" ++ extProjectID ++ "/lineItems/" ++ extLineItemID
        returnResult (requestAndParseResponse path zero c w)

/-- `Client.updateLineItemState`; an `Action` is a string. -/
def updateLineItemState {τ ρ α : Type} (v : Validators α) (zero : ρ)
    (extProjectID extLineItemID action : String)
    (requestAndParseResponse : Callback τ ρ) (c : Client) (w : World τ) : OpResult τ ρ :=
  match v.ValidateNotEmpty [extProjectID, extLineItemID] with
  | some err => ((none, some err), c, w)
  | none =>
    match v.ValidateAction action with
    | some err => ((none, some err), c, w)
    | none =>
      let path := "/projects/" ++ extProjectID ++ "/lineItems/" ++ extLineItemID ++ "/" ++ action
      returnResult (requestAndParseResponse path zero c w)

/-- `Client.setQuotaCellStatus`. -/
def setQuotaCellStatus {τ ρ α : Type} (v : Validators α) (zero : ρ)
    (extProjectID extLineItemID quotaCellID action : String)
    (requestAndParseResponse : Callback τ ρ) (c : Client) (w : World τ) : OpResult τ ρ :=
  match v.ValidateNotEmpty [extProjectID, extLineItemID, quotaCellID] with
  | some err => ((none, some err), c, w)
  | none =>
    match v.ValidateAction action with
    | some err => ((none, some err), c, w)
    | none =>
      let path := "/projects/" ++ extProjectID ++ "/lineItems/" ++ extLineItemID ++
        "/quotaCells/" ++ quotaCellID ++ "/" ++ action
      returnResult (requestAndParseResponse path zero c w)

/-- `Client.getAllLineItems`; `query` is `query2String(options)`. -/
def getAllLineItems {τ ρ α : Type} (v : Validators α) (zero : ρ)
    (extProjectID query : String)
    (requestAndParseResponse : Callback τ ρ) (c : Client) (w : World τ) : OpResult τ ρ :=
  match v.ValidateNotEmpty [extProjectID] with
  | some err => ((none, some err), c, w)
  | none =>
    let path := "/projects/" ++ extProjectID ++ "/lineItems" ++ query
    returnResult (requestAndParseResponse path zero c w)

/-- `Client.getLineItemBy`. -/
def getLineItemBy {τ ρ α : Type} (v : Validators α) (zero : ρ)
    (extProjectID extLineItemID : String)
    (requestAndParseResponse : Callback τ ρ) (c : Client) (w : World τ) : OpResult τ ρ :=
  match v.ValidateNotEmpty [extProjectID, extLineItemID] with
  | some err => ((none, some err), c, w)
  | none =>
    let path := "/projects/" ++ extProjectID ++ "/lineItems/" ++ extLineItemID
    returnResult (requestAndParseResponse path zero c w)

/-- `Client.getFeasibility`; `query` is `query2String(options)`. -/
def getFeasibility {τ ρ α : Type} (v : Validators α) (zero : ρ)
    (extProjectID query : String)
    (requestAndParseResponse : Callback τ ρ) (c : Client) (w : World τ) : OpResult τ ρ :=
  match v.ValidateNotEmpty [extProjectID] with
  | some err => ((none, some err), c, w)
  | none =>
    let path := "/projects/" ++ extProjectID ++ "/feasibility" ++ query
    returnResult (requestAndParseResponse path zero c w)

/-- `Client.getAttributes`; `query` is `query2String(options)`. -/
def getAttributes {τ ρ α : Type} (v : Validators α) (zero : ρ)
    (countryCode languageCode query : String)
    (requestAndParseResponse : Callback τ ρ) (c : Client) (w : World τ) : OpResult τ ρ :=
  match v.ValidateNotEmpty [countryCode, languageCode] with
  | some err => ((none, some err), c, w)
  | none =>
    match v.IsCountryCodeOrEmpty countryCode with
    | some err => ((none, some err), c, w)
    | none =>
      match v.IsLanguageCodeOrEmpty languageCode with
      | some err => ((none, some err), c, w)
      | none =>
        let path := "/attributes/" ++ countryCode ++ "/" ++ languageCode ++ query
        returnResult (requestAndParseResponse path zero c w)

/-- `Client.getDetailedProjectReport`. -/
def getDetailedProjectReport {τ ρ α : Type} (v : Validators α) (zero : ρ)
    (extProjectID : String)
    (requestAndParseResponse : Callback τ ρ) (c : Client) (w : World τ) : OpResult τ ρ :=
  match v.ValidateNotEmpty [extProjectID] with
  | some err => ((none, some err), c, w)
  | none =>
    let path := "/projects/" ++ extProjectID ++ "/detailedReport"
    returnResult (requestAndParseResponse path zero c w)

/-- `Client.getDetailedLineItemReport`: only `extProjectID` is validated. -/
def getDetailedLineItemReport {τ ρ α : Type} (v : Validators α) (zero : ρ)
    (extProjectID extLineItemID : String)
    (requestAndParseResponse : Callback τ ρ) (c : Client) (w : World τ) : OpResult τ ρ :=
  match v.ValidateNotEmpty [extProjectID] with
  | some err => ((none, some err), c, w)
  | none =>
    let path := "/projects/" ++ extProjectID ++ "/lineItems/" ++ extLineItemID ++
      "/detailedReport"
    returnResult (requestAndParseResponse path zero c w)

/-- `Client.projectPermissions`. -/
def projectPermissions {τ ρ α : Type} (v : Validators α) (zero : ρ) (extProjectID : String)
    (requestAndParseResponse : Callback τ ρ) (c : Client) (w : World τ) : OpResult τ ρ :=
  match v.ValidateNotEmpty [extProjectID] with
  | some err => ((none, some err), c, w)
  | none =>
    let path := "/projects/" ++ extProjectID ++ "/permissions"
    returnResult (requestAndParseResponse path zero c w)

/-- `Client.upsertProjectPermissions`; `extProjectID` is
`permissions.ExtProjectID`. -/
def upsertProjectPermissions {τ ρ α : Type} (v : Validators α) (zero : ρ) (permissions : α)
    (extProjectID : String) (requestAndParseResponse : Callback τ ρ)
    (c : Client) (w : World τ) : OpResult τ ρ :=
  match v.Validate permissions with
  | some err => ((none, some err), c, w)
  | none =>
    let path := "/projects/" ++ extProjectID ++ "/permissions"
    returnResult (requestAndParseResponse path zero c w)

/-- `Client.createTemplate`. -/
def createTemplate {τ ρ α : Type} (v : Validators α) (zero : ρ) (template : α)
    (requestAndParseResponse : ρ → Client → World τ → (Option GoError × ρ) × Client × World τ)
    (c : Client) (w : World τ) : OpResult τ ρ :=
  match v.Validate template with
  | some err => ((none, some err), c, w)
  | none => returnResult (requestAndParseResponse zero c w)

/-- `Client.updateTemplate`; `%d` of the id is its decimal form. -/
def updateTemplate {τ ρ α : Type} (v : Validators α) (zero : ρ) (id : Int) (template : α)
    (requestAndParseResponse : Callback τ ρ) (c : Client) (w : World τ) : OpResult τ ρ :=
  match v.Validate template with
  | some err => ((none, some err), c, w)
  | none =>
    let path := "/templates/quotaPlan/" ++ toString id
    returnResult (requestAndParseResponse path zero c w)

/-- `Client.GetDetailedLineItemReport`: the callback passes `res`, a pointer to
the result variable, on. -/
def GetDetailedLineItemReport {τ ρ α : Type} (env : Env τ) (v : Validators α) (dec : Decoder ρ)
    (extProjectID extLineItemID : String) (c : Client) (w : World τ) : OpResult τ ρ :=
  getDetailedLineItemReport v dec.zero extProjectID extLineItemID
    (fun path res c1 w1 =>
      requestAndParseResponse env dec "GET" path Body.nil ResObj.pointer res c1 w1) c w

/-- `Client.GetDetailedLineItemReportWithContext`. -/
def GetDetailedLineItemReportWithContext {τ ρ α : Type} (env : Env τ) (v : Validators α)
    (dec : Decoder ρ) (ctx : Context) (extProjectID extLineItemID : String) (c : Client)
    (w : World τ) : OpResult τ ρ :=
  getDetailedLineItemReport v dec.zero extProjectID extLineItemID
    (fun path res c1 w1 =>
      requestAndParseResponseWithContext env dec ctx "GET" path Body.nil ResObj.pointer res c1
        w1) c w

/-- `Client.GetInvoice`; the `options` argument is not used. -/
def GetInvoice {τ : Type} (env : Env τ) (extProjectID : String) (c : Client) (w : World τ) :
    Result × Client × World τ :=
  let path := "/projects/" ++ extProjectID ++ "/invoices"
  request env "GET" c.Options.APIBaseURL path Body.nil c w

/-- `Client.GetInvoiceWithContext`; the `options` argument is not used. -/
def GetInvoiceWithContext {τ : Type} (env : Env τ) (ctx : Context) (extProjectID : String)
    (c : Client) (w : World τ) : Result × Client × World τ :=
  let path := "/projects/" ++ extProjectID ++ "/invoices"
  requestWithContext env ctx "GET" c.Options.APIBaseURL path Body.nil c w

/-- `Client.GetEventBy`: `res` itself, not `&res`, is handed to
`requestAndParseResponse`. -/
def GetEventBy {τ ρ : Type} (env : Env τ) (dec : Decoder ρ) (eventID : String) (c : Client)
    (w : World τ) : OpResult τ ρ :=
  let path := "/events/" ++ eventID
  returnResult (requestAndParseResponse env dec "GET" path Body.nil ResObj.value dec.zero c w)

/-- `Client.GetEventByWithContext`. -/
def GetEventByWithContext {τ ρ : Type} (env : Env τ) (dec : Decoder ρ) (ctx : Context)
    (eventID : String) (c : Client) (w : World τ) : OpResult τ ρ :=
  let path := "/events/" ++ eventID
  returnResult
    (requestAndParseResponseWithContext env dec ctx "GET" path Body.nil ResObj.value dec.zero c w)

/-! ### Typed getters -/

/-- `Client.GetCountries`: `&res` is handed on; `query` is `query2String(options)`. -/
def GetCountries {τ ρ : Type} (env : Env τ) (dec : Decoder ρ) (query : String) (c : Client)
    (w : World τ) : OpResult τ ρ :=
  let path := "/countries" ++ query
  returnResult (requestAndParseResponse env dec "GET" path Body.nil ResObj.pointer dec.zero c w)

/-- `Client.GetCountriesWithContext`: `&res` is handed on; `query` is `query2String(options)`. -/
def GetCountriesWithContext {τ ρ : Type} (env : Env τ) (dec : Decoder ρ) (ctx : Context) (query : String)
    (c : Client) (w : World τ) : OpResult τ ρ :=
  let path := "/countries" ++ query
  returnResult
    (requestAndParseResponseWithContext env dec ctx "GET" path Body.nil ResObj.pointer
      dec.zero c w)

/-- `Client.GetSurveyTopics`: `res` itself, not `&res`, is handed on; `query` is `query2String(options)`. -/
def GetSurveyTopics {τ ρ : Type} (env : Env τ) (dec : Decoder ρ) (query : String) (c : Client)
    (w : World τ) : OpResult τ ρ :=
  let path := "/categories/surveyTopics" ++ query
  returnResult (requestAndParseResponse env dec "GET" path Body.nil ResObj.value dec.zero c w)

/-- `Client.GetSurveyTopicsWithContext`: `res` itself, not `&res`, is handed on; `query` is `query2String(options)`. -/
def GetSurveyTopicsWithContext {τ ρ : Type} (env : Env τ) (dec : Decoder ρ) (ctx : Context) (query : String)
    (c : Client) (w : World τ) : OpResult τ ρ :=
  let path := "/categories/surveyTopics" ++ query
  returnResult
    (requestAndParseResponseWithContext env dec ctx "GET" path Body.nil ResObj.value
      dec.zero c w)

/-- `Client.GetSources`: `res` itself, not `&res`, is handed on; `query` is `query2String(options)`. -/
def GetSources {τ ρ : Type} (env : Env τ) (dec : Decoder ρ) (query : String) (c : Client)
    (w : World τ) : OpResult τ ρ :=
  let path := "/sources" ++ query
  returnResult (requestAndParseResponse env dec "GET" path Body.nil ResObj.value dec.zero c w)

/-- `Client.GetSourcesWithContext`: `res` itself, not `&res`, is handed on; `query` is `query2String(options)`. -/
def GetSourcesWithContext {τ ρ : Type} (env : Env τ) (dec : Decoder ρ) (ctx : Context) (query : String)
    (c : Client) (w : World τ) : OpResult τ ρ :=
  let path := "/sources" ++ query
  returnResult
    (requestAndParseResponseWithContext env dec ctx "GET" path Body.nil ResObj.value
      dec.zero c w)

/-- `Client.GetEvents`: `res` itself, not `&res`, is handed on; `query` is `query2String(options)`. -/
def GetEvents {τ ρ : Type} (env : Env τ) (dec : Decoder ρ) (query : String) (c : Client)
    (w : World τ) : OpResult τ ρ :=
  let path := "/events" ++ query
  returnResult (requestAndParseResponse env dec "GET" path Body.nil ResObj.value dec.zero c w)

/-- `Client.GetEventsWithContext`: `res` itself, not `&res`, is handed on; `query` is `query2String(options)`. -/
def GetEventsWithContext {τ ρ : Type} (env : Env τ) (dec : Decoder ρ) (ctx : Context) (query : String)
    (c : Client) (w : World τ) : OpResult τ ρ :=
  let path := "/events" ++ query
  returnResult
    (requestAndParseResponseWithContext env dec ctx "GET" path Body.nil ResObj.value
      dec.zero c w)

/-- `Client.GetUserInfo`: `res` itself, not `&res`, is handed on. -/
def GetUserInfo {τ ρ : Type} (env : Env τ) (dec : Decoder ρ) (c : Client)
    (w : World τ) : OpResult τ ρ :=
  let path := "/users/info"
  returnResult (requestAndParseResponse env dec "GET" path Body.nil ResObj.value dec.zero c w)

/-- `Client.GetUserInfoWithContext`: `res` itself, not `&res`, is handed on. -/
def GetUserInfoWithContext {τ ρ : Type} (env : Env τ) (dec : Decoder ρ) (ctx : Context)
    (c : Client) (w : World τ) : OpResult τ ρ :=
  let path := "/users/info"
  returnResult
    (requestAndParseResponseWithContext env dec ctx "GET" path Body.nil ResObj.value
      dec.zero c w)

/-- `Client.CompanyUsers`: `&res` is handed on. -/
def CompanyUsers {τ ρ : Type} (env : Env τ) (dec : Decoder ρ) (c : Client)
    (w : World τ) : OpResult τ ρ :=
  let path := "/users"
  returnResult (requestAndParseResponse env dec "GET" path Body.nil ResObj.pointer dec.zero c w)

/-- `Client.CompanyUsersWithContext`: `&res` is handed on. -/
def CompanyUsersWithContext {τ ρ : Type} (env : Env τ) (dec : Decoder ρ) (ctx : Context)
    (c : Client) (w : World τ) : OpResult τ ρ :=
  let path := "/users"
  returnResult
    (requestAndParseResponseWithContext env dec ctx "GET" path Body.nil ResObj.pointer
      dec.zero c w)

/-- `Client.TeamsInfo`: `res` itself, not `&res`, is handed on. -/
def TeamsInfo {τ ρ : Type} (env : Env τ) (dec : Decoder ρ) (c : Client)
    (w : World τ) : OpResult τ ρ :=
  let path := "/teams"
  returnResult (requestAndParseResponse env dec "GET" path Body.nil ResObj.value dec.zero c w)

/-- `Client.TeamsInfoWithContext`: `res` itself, not `&res`, is handed on. -/
def TeamsInfoWithContext {τ ρ : Type} (env : Env τ) (dec : Decoder ρ) (ctx : Context)
    (c : Client) (w : World τ) : OpResult τ ρ :=
  let path := "/teams"
  returnResult
    (requestAndParseResponseWithContext env dec ctx "GET" path Body.nil ResObj.value
      dec.zero c w)

/-- `Client.Roles`: `res` itself, not `&res`, is handed on; `query` is `query2String(options)`. -/
def Roles {τ ρ : Type} (env : Env τ) (dec : Decoder ρ) (query : String) (c : Client)
    (w : World τ) : OpResult τ ρ :=
  let path := "/roles" ++ query
  returnResult (requestAndParseResponse env dec "GET" path Body.nil ResObj.value dec.zero c w)

/-- `Client.RolesWithContext`: `res` itself, not `&res`, is handed on; `query` is `query2String(options)`. -/
def RolesWithContext {τ ρ : Type} (env : Env τ) (dec : Decoder ρ) (ctx : Context) (query : String)
    (c : Client) (w : World τ) : OpResult τ ρ :=
  let path := "/roles" ++ query
  returnResult
    (requestAndParseResponseWithContext env dec ctx "GET" path Body.nil ResObj.value
      dec.zero c w)

/-- `Client.GetStudyMetadata`: `res` itself, not `&res`, is handed on. -/
def GetStudyMetadata {τ ρ : Type} (env : Env τ) (dec : Decoder ρ) (c : Client)
    (w : World τ) : OpResult τ ρ :=
  let path := "/studyMetadata"
  returnResult (requestAndParseResponse env dec "GET" path Body.nil ResObj.value dec.zero c w)

/-- `Client.GetStudyMetadataWithContext`: `res` itself, not `&res`, is handed on. -/
def GetStudyMetadataWithContext {τ ρ : Type} (env : Env τ) (dec : Decoder ρ) (ctx : Context)
    (c : Client) (w : World τ) : OpResult τ ρ :=
  let path := "/studyMetadata"
  returnResult
    (requestAndParseResponseWithContext env dec ctx "GET" path Body.nil ResObj.value
      dec.zero c w)

/-- `Client.GetTemplateList`: `res` itself, not `&res`, is handed on; `query` is `query2String(options)`. -/
def GetTemplateList {τ ρ : Type} (env : Env τ) (dec : Decoder ρ) (country lang query : String) (c : Client)
    (w : World τ) : OpResult τ ρ :=
  let path := "/templates/quotaPlan/" ++ country ++ "/" ++ lang ++ query
  returnResult (requestAndParseResponse env dec "GET" path Body.nil ResObj.value dec.zero c w)

/-- `Client.GetTemplateListWithContext`: `res` itself, not `&res`, is handed on; `query` is `query2String(options)`. -/
def GetTemplateListWithContext {τ ρ : Type} (env : Env τ) (dec : Decoder ρ) (ctx : Context) (country lang query : String)
    (c : Client) (w : World τ) : OpResult τ ρ :=
  let path := "/templates/quotaPlan/" ++ country ++ "/" ++ lang ++ query
  returnResult
    (requestAndParseResponseWithContext env dec ctx "GET" path Body.nil ResObj.value
      dec.zero c w)

/-- `Client.DeleteTemplate`: `res` itself, not `&res`, is handed on. -/
def DeleteTemplate {τ ρ : Type} (env : Env τ) (dec : Decoder ρ) (id : Int) (c : Client)
    (w : World τ) : OpResult τ ρ :=
  let path := "/templates/quotaPlan/" ++ toString id
  returnResult (requestAndParseResponse env dec "DELETE" path Body.nil ResObj.value dec.zero c w)

/-- `Client.DeleteTemplateWithContext`: `res` itself, not `&res`, is handed on. -/
def DeleteTemplateWithContext {τ ρ : Type} (env : Env τ) (dec : Decoder ρ) (ctx : Context) (id : Int)
    (c : Client) (w : World τ) : OpResult τ ρ :=
  let path := "/templates/quotaPlan/" ++ toString id
  returnResult
    (requestAndParseResponseWithContext env dec ctx "DELETE" path Body.nil ResObj.value
      dec.zero c w)

/-! ### Logout -/

/-- `Client.Logout`. The expiry check takes one reading of the clock; the
response of the call is dropped. -/
def Logout {τ : Type} (env : Env τ) (c : Client) (w : World τ) :
    Option GoError × Client × World τ :=
  let now := timeNow env w
  if c.Auth.AccessTokenExpiredAt now.1 then (none, c, now.2)
  else
    let req := Body.logoutReq c.Credentials.ClientID c.Auth.RefreshToken c.Auth.AccessToken
    let r := sendRequest env c.Options.AuthURL "POST" "/logout" "" req now.2
    (r.1.2, c, r.2)

/-- `Client.LogoutWithContext`. -/
def LogoutWithContext {τ : Type} (env : Env τ) (ctx : Context) (c : Client) (w : World τ) :
    Option GoError × Client × World τ :=
  let now := timeNow env w
  if c.Auth.AccessTokenExpiredAt now.1 then (none, c, now.2)
  else
    let req := Body.logoutReq c.Credentials.ClientID c.Auth.RefreshToken c.Auth.AccessToken
    let r := sendRequestWithContext env ctx c.Options.AuthURL "POST" "/logout" "" req now.2
    (r.1.2, c, r.2)

/-- Modelled from the spec: the validation helper `ValidateNotEmpty`, declared
outside the sources: it fails with a validation error when one of the values
is empty (ValidationError: empty IDs). -/
def ValidateNotEmpty (values : List String) : Option GoError :=
  if values.any (fun s => s = "") then some (.other "validation: required field is empty")
  else none

/-! ## Specification vocabulary -/

/-- The headers `makeRequest` sets for an access token. -/
def apiHeader (accessToken : String) : Header :=
  let h := Header.Add (Header.Add [] "Accept" "application/json") "Content-type" "application/json"
  if accessToken ≠ "" then h.Add "Authorization" ("Bearer " ++ accessToken) else h

/-- The request `makeRequest` hands to the transport for a marshalled body. -/
def apiRequest (ctx : Context) (method path accessToken : String) (data : RawMessage) :
    Request :=
  { ctx := ctx, Method := method, URL := path, Header := apiHeader accessToken,
    Body := some data }

/-- The `APIResponse` made from a response and its body. -/
def apiResponse (resp : Response) (data : RawMessage) : APIResponse :=
  { Body := data, RequestID := resp.Header.Get "x-request-id" }

/-- The `ErrorResponse` made from a response with a status of 400 or more. -/
def apiError (resp : Response) (path : String) (t : Nat) : ErrorResponse :=
  { Timestamp := some t
    RequestID := resp.Header.Get "x-request-id"
    HTTPCode := resp.StatusCode
    HTTPPhrase := resp.Status
    Path := path
    Errors := [{ Path := path, Message := resp.Status }] }

/-- The world after the transport took one more request. -/
def World.afterDo {τ : Type} (w : World τ) (req : Request) (s : τ) : World τ :=
  { transport := s, reads := w.reads, sent := w.sent ++ [req] }

/-- The world after one more reading of the clock. -/
def World.tick {τ : Type} (w : World τ) : World τ :=
  { w with reads := w.reads + 1 }

/-- The transport, in state `s`, answers `req` with the response `resp`, whose
body reads as `b`, and moves to state `s2`. -/
def Answers {τ : Type} (env : Env τ) (req : Request) (s : τ) (resp : Response)
    (b : RawMessage) (s2 : τ) : Prop :=
  env.Do req s = (.ok resp, s2) ∧ resp.Body = .ok b

/-- The transport, in state `s`, fails on `req` with `err` (network error, or a
response whose body cannot be read) and moves to state `s2`. -/
def FailsWith {τ : Type} (env : Env τ) (req : Request) (s : τ) (err : GoError) (s2 : τ) :
    Prop :=
  env.Do req s = (.error err, s2) ∨
    ∃ resp, env.Do req s = (.ok resp, s2) ∧ resp.Body = .error err

/-- An error that does not carry an `ErrorResponse` with status 401. -/
def Not401 (err : GoError) : Prop :=
  ∀ e, errorsAs err = some e → e.HTTPCode ≠ StatusUnauthorized

/-- The transport's outcome for `req` in state `s` is anything other than an
HTTP 401: a response with another status, or a failure to answer whose error is
not a 401 `ErrorResponse`. -/
def OutcomeNot401 {τ : Type} (env : Env τ) (req : Request) (s s2 : τ) : Prop :=
  (∃ resp b, Answers env req s resp b s2 ∧ resp.StatusCode ≠ 401) ∨
    (∃ err, FailsWith env req s err s2 ∧ Not401 err)

/-- The encoding of the credentials, as `jsonMarshal` writes it. -/
def credentialsData (cr : TokenRequest) : RawMessage :=
  .encoded (.object [("clientId", .string cr.ClientID), ("username", .string cr.Username),
    ("password", .string cr.Password)])

/-- The encoding of the refresh request, as `jsonMarshal` writes it. -/
def refreshData (clientID refreshToken : String) : RawMessage :=
  .encoded (.object [("clientId", .string clientID), ("refreshToken", .string refreshToken)])

/-- The credential Acquire: `POST {AuthURL}/token/password` with the
credentials and no access token. `requestAndParseToken` sends it with the
background context. -/
def acquireRequest (ctx : Context) (c : Client) : Request :=
  apiRequest ctx "POST" (c.Options.AuthURL ++ "/token/password") ""
    (credentialsData c.Credentials)

/-- The Refresh: `POST {AuthURL}/token/refresh` with the client id and the
current refresh token, and no access token. -/
def refreshRequest (ctx : Context) (c : Client) : Request :=
  apiRequest ctx "POST" (c.Options.AuthURL ++ "/token/refresh") ""
    (refreshData c.Credentials.ClientID c.Auth.RefreshToken)

/-- The Session after a successful token operation: the decoded struct with
the acquisition time stamped. -/
def stamped (auth : TokenResponse) (t : Nat) : TokenResponse :=
  { auth with Acquired := some t }

/-- The client with another Session. -/
def Client.withAuth (c : Client) (auth : TokenResponse) : Client :=
  { c with Auth := auth }

/-- The dispatcher call of the credential Acquire. -/
def acquireExchange {τ : Type} (env : Env τ) (ctx : Context) (c : Client) (w : World τ) :
    Result × World τ :=
  sendRequestWithContext env ctx c.Options.AuthURL "POST" "/token/password" ""
    (Body.credentials c.Credentials) w

/-- The dispatcher call of the Refresh. -/
def refreshExchange {τ : Type} (env : Env τ) (ctx : Context) (c : Client) (w : World τ) :
    Result × World τ :=
  sendRequestWithContext env ctx c.Options.AuthURL "POST" "/token/refresh" ""
    (Body.refreshReq c.Credentials.ClientID c.Auth.RefreshToken) w

/-- The dispatcher returned a success response whose body is a JSON object. -/
def ObjectBody (r : Result) : Prop :=
  ∃ ar members, r = (some ar, none) ∧ ar.Body = .encoded (.object members)

/-- What a response body supplies for the decoded fields of a Session, read
from the body alone: `none` for a field the body does not supply (no member of
that name, a `null`, or a value that does not fit the field). -/
structure TokenPatch where
  AccessToken : Option String
  RefreshToken : Option String
  ExpiresIn : Option Nat
  RefreshExpiresIn : Option Nat
deriving DecidableEq, Repr

/-- The patch of a body that supplies nothing. -/
def TokenPatch.empty : TokenPatch :=
  { AccessToken := none, RefreshToken := none, ExpiresIn := none, RefreshExpiresIn := none }

/-- One object member added to a patch; a later member of the same name
replaces an earlier one. -/
def patchMember (p : TokenPatch) (m : String × JSON) : TokenPatch :=
  match tokenField m.1, m.2 with
  | some .AccessToken, .string s => { p with AccessToken := some s }
  | some .RefreshToken, .string s => { p with RefreshToken := some s }
  | some .ExpiresIn, .number n =>
    if 0 ≤ n ∧ n < 2 ^ 64 then { p with ExpiresIn := some n.toNat } else p
  | some .RefreshExpiresIn, .number n =>
    if 0 ≤ n ∧ n < 2 ^ 64 then { p with RefreshExpiresIn := some n.toNat } else p
  | _, _ => p

/-- The patch a response body supplies. -/
def tokenPatch : RawMessage → TokenPatch
  | .encoded (.object members) => members.foldl patchMember TokenPatch.empty
  | _ => TokenPatch.empty

/-- A patch laid over a prior Session: a supplied field replaces the prior
value, any other field and `Acquired` keep it. -/
def TokenPatch.apply (p : TokenPatch) (old : TokenResponse) : TokenResponse :=
  { AccessToken := p.AccessToken.getD old.AccessToken
    RefreshToken := p.RefreshToken.getD old.RefreshToken
    ExpiresIn := p.ExpiresIn.getD old.ExpiresIn
    RefreshExpiresIn := p.RefreshExpiresIn.getD old.RefreshExpiresIn
    Acquired := old.Acquired }

/-- The patch supplies all four decoded fields. -/
def TokenPatch.full (p : TokenPatch) : Prop :=
  p.AccessToken.isSome ∧ p.RefreshToken.isSome ∧ p.ExpiresIn.isSome ∧ p.RefreshExpiresIn.isSome

/-- What a failed token operation may have done to the client, given the
outcome of its dispatcher call: credentials, options and `Acquired` are the
prior ones; the Session is the prior one unless the dispatcher returned a
success response whose body is a JSON object, and then it is the prior Session
with the fields that body supplies stored. -/
def SessionKept (c c2 : Client) (exchange : Result) : Prop :=
  c2.Credentials = c.Credentials ∧ c2.Options = c.Options ∧
    c2.Auth.Acquired = c.Auth.Acquired ∧
    (¬ ObjectBody exchange → c2 = c) ∧
    (∀ ar, exchange = (some ar, none) → c2.Auth = (tokenPatch ar.Body).apply c.Auth)

/-- The value a header holds for the field `key`, read off the entries
themselves: `r` is the value of the first entry whose field name is `key`, or
the empty string when the header has no entry of that name. -/
def FirstValue (h : Header) (key r : String) : Prop :=
  (∃ front rest, h = front ++ (key, r) :: rest ∧ ∀ p ∈ front, p.1 ≠ key) ∨
    ((∀ p ∈ h, p.1 ≠ key) ∧ r = "")

/-- The encoding of the logout request, as `jsonMarshal` writes it. -/
def logoutData (clientID refreshToken accessToken : String) : RawMessage :=
  .encoded (.object [("clientId", .string clientID), ("refreshToken", .string refreshToken),
    ("accessToken", .string accessToken)])

/-- The logout call: `POST {AuthURL}/logout` with the client id and both
tokens in the payload, and no access token for the header. -/
def logoutRequest (ctx : Context) (c : Client) : Request :=
  apiRequest ctx "POST" (c.Options.AuthURL ++ "/logout") ""
    (logoutData c.Credentials.ClientID c.Auth.RefreshToken c.Auth.AccessToken)

/-- A request to the Refresh endpoint of the client. -/
def IsRefresh (c : Client) (req : Request) : Prop :=
  req.Method = "POST" ∧ req.URL = c.Options.AuthURL ++ "/token/refresh"

/-- A request to the credential endpoint of the client. -/
def IsAcquire (c : Client) (req : Request) : Prop :=
  req.Method = "POST" ∧ req.URL = c.Options.AuthURL ++ "/token/password"

/-- A dispatch of the API request with the given method and path. -/
def IsDispatch (method path : String) (req : Request) : Prop :=
  req.Method = method ∧ req.URL = path

/-- The requests one guarded call may hand to the transport, in order: at
most one Refresh and one credential Acquire of the guard, one dispatch, one
Acquire after a `401` and one retried dispatch. -/
def GuardedTrace (c : Client) (method path : String) (l : List Request) : Prop :=
  ∃ l1 l2 l3 l4 l5, l = l1 ++ l2 ++ l3 ++ l4 ++ l5 ∧
    l1.length ≤ 1 ∧ l2.length ≤ 1 ∧ l3.length ≤ 1 ∧ l4.length ≤ 1 ∧ l5.length ≤ 1 ∧
    (∀ r ∈ l1, IsRefresh c r) ∧ (∀ r ∈ l2, IsAcquire c r) ∧
    (∀ r ∈ l3, IsDispatch method path r) ∧ (∀ r ∈ l4, IsAcquire c r) ∧
    (∀ r ∈ l5, IsDispatch method path r)

/-- The error of the first validation step that fails, if any. -/
def firstError : List (Option GoError) → Option GoError
  | [] => none
  | some err :: _ => some err
  | none :: rest => firstError rest

/-! ## A stub transport -/

/-- A transport that answers from a script, one entry per call and whatever
the request; the clock reads `start`, `start + 1`, ... and every request can be
built. -/
def stubEnv (start : Nat) : Env (List (Except GoError Response)) :=
  { Do := fun _ script =>
      match script with
      | [] => (.error (.other "stub: no answer left"), [])
      | r :: rest => (r, rest)
    clock := fun k => start + k
    checkRequest := fun _ _ => none }

/-- The world before anything happened. -/
def World.init {τ : Type} (s : τ) : World τ :=
  { transport := s, reads := 0, sent := [] }

/-- A response with a status, a request id and a body. -/
def stubResponse (code : Int) (status requestID : String) (body : RawMessage) : Response :=
  { StatusCode := code, Status := status, Header := [("X-Request-Id", requestID)],
    Body := .ok body }

/-- The body of a token response carrying all four members. -/
def tokenBody (access refresh : String) (expiresIn refreshExpiresIn : Int) : RawMessage :=
  .encoded (.object [("accessToken", .string access), ("expiresIn", .number expiresIn),
    ("refreshToken", .string refresh), ("refreshExpiresIn", .number refreshExpiresIn)])

/-- Options of the stub clients. -/
def stubOptions : ClientOptions :=
  { APIBaseURL := "https://api/sample/v1", AuthURL := "https://api/auth/v1",
    StatusURL := "https://api/status", GatewayURL := "https://api/status/gateway",
    Timeout := none }

/-- A client with the given Session. -/
def stubClient (auth : TokenResponse) : Client :=
  { Credentials := { ClientID := "id", Username := "user", Password := "secret" },
    Auth := auth, Options := stubOptions }

/-- A Session acquired at time 0 whose access token lasts 1000 seconds and
whose refresh token lasts 5000 seconds. -/
def liveAuth : TokenResponse :=
  { AccessToken := "tok0", RefreshToken := "ref0", ExpiresIn := 1000, RefreshExpiresIn := 5000,
    Acquired := some 0 }

/-- A Session acquired at time 0 whose access token lasted 5 seconds and whose
refresh token lasts 5000 seconds. -/
def staleAuth : TokenResponse :=
  { AccessToken := "tok0", RefreshToken := "ref0", ExpiresIn := 5, RefreshExpiresIn := 5000,
    Acquired := some 0 }

/-- The Session decoded from `tokenBody "tok1" "ref1" 3600 7200` over `liveAuth`. -/
def freshAuth : TokenResponse :=
  { AccessToken := "tok1", RefreshToken := "ref1", ExpiresIn := 3600, RefreshExpiresIn := 7200,
    Acquired := some 0 }

/-- A token response that supplies the access token only. -/
def accessOnlyBody : RawMessage :=
  .encoded (.object [("accessToken", .string "tok1")])

/-- A token response whose `accessToken` is well typed and whose `refreshToken`
is a number. -/
def mistypedBody : RawMessage :=
  .encoded (.object [("accessToken", .string "tok1"), ("refreshToken", .number 5)])

/-- The Session `liveAuth` with another refresh token. -/
def otherAuth : TokenResponse :=
  { liveAuth with RefreshToken := "ref-other" }

/-- A 401 answer with an empty body. -/
def unauthorized (requestID : String) : Response :=
  stubResponse 401 "401 Unauthorized" requestID (.invalid "")

/-- A 200 answer. -/
def statusOK (requestID : String) (body : RawMessage) : Response :=
  stubResponse 200 "200 OK" requestID body

/-- A 200 answer carrying fresh tokens. -/
def tokenAnswer : Response :=
  statusOK "rid-auth" (tokenBody "tok1" "ref1" 3600 7200)

/-- The API request of the stub scenarios: `GET {APIBaseURL}/projects` without a
payload value, carrying an access token. -/
def projectsRequest (ctx : Context) (accessToken : String) : Request :=
  apiRequest ctx "GET" ("https://api/sample/v1" ++ "/projects") accessToken (.encoded .null)

/-- A world whose transport would answer with fresh tokens. -/
def stubWorld : World (List (Except GoError Response)) :=
  World.init [.ok tokenAnswer]

/-- A 404 answer with a structured error body. -/
def notFound : Response :=
  stubResponse 404 "404 Not Found" "rid-1"
    (.encoded (.object [("message", .string "no such project")]))

/-- The client of the stub scenarios as `NewClient` makes it: no Session yet. -/
def newClient : Client :=
  stubClient TokenResponse.zero

/-- The body of a user response. -/
def userDocument : JSON :=
  .object [("userName", .string "ann"), ("email", .string "ann@example.org")]

/-- A world whose transport would answer `200` with `userDocument`. -/
def userWorld : World (List (Except GoError Response)) :=
  World.init [.ok (statusOK "rid-1" (.encoded userDocument))]

/-- A world whose transport fails the Refresh, answers the Acquire with fresh
tokens, rejects the dispatch with `401`, answers the second Acquire with fresh
tokens and the retried dispatch with `200`. -/
def fiveCallWorld : World (List (Except GoError Response)) :=
  World.init [.error (.other "connection reset"), .ok tokenAnswer, .ok (unauthorized "rid-1"),
    .ok tokenAnswer, .ok (statusOK "rid-2" (.encoded .null))]

/-- A user record as a generic Go value. -/
def userValue : GoValue :=
  .map [("email", .string "ann@example.org"), ("logins", .float64 3),
    ("roles", .slice [.string "admin", .nil]), ("userName", .string "ann")]

/-- A world whose transport answers `200` with the given body, as an echoing
endpoint does for a request with that payload. -/
def echoWorld (data : RawMessage) : World (List (Except GoError Response)) :=
  World.init [.ok (statusOK "rid-1" data)]

/-- A 404 answer whose body is no JSON. -/
def notFoundText : Response :=
  stubResponse 404 "404 Not Found" "rid-1" (.invalid "not found")

/-- A 200 answer whose body is no JSON. -/
def okText : Response :=
  statusOK "rid-1" (.invalid "done")

/-- A 200 answer whose body cannot be read. -/
def unreadableResponse : Response :=
  { StatusCode := 200, Status := "200 OK", Header := [],
    Body := .error (.other "unexpected EOF") }

/-- Validators of the stub scenarios: `ValidateNotEmpty` as modelled, a
`Validate` that rejects the body `null`, and no further restriction. -/
def stubValidators : Validators Body :=
  { ValidateNotEmpty := ValidateNotEmpty
    Validate := fun b =>
      match b with
      | .nil => some (.other "validation: criteria is nil")
      | _ => none
    ValidateSchedule := fun _ => none
    ValidateAction := fun _ => none
    IsCountryCodeOrEmpty := fun _ => none
    IsLanguageCodeOrEmpty := fun _ => none }

/-- A result type that keeps the decoded document. -/
def documentDecoder : Decoder (Option JSON) :=
  { zero := none, unmarshal := fun doc _ => (some doc, none) }

/-- A callback that dispatches `GET path` through the guard. -/
def stubCallback : Callback (List (Except GoError Response)) (Option JSON) :=
  fun path res c w =>
    requestAndParseResponse (stubEnv 10) documentDecoder "GET" path Body.nil ResObj.pointer res c w

/-! ## Decoding a token response -/

theorem TokenPatch.apply_empty (old : TokenResponse) : TokenPatch.empty.apply old = old := rfl

theorem storeMember_apply (p : TokenPatch) (old : TokenResponse) (e : Option GoError)
    (m : String × JSON) :
    (storeMember (p.apply old, e) m).1 = (patchMember p m).apply old := by
  unfold storeMember patchMember
  cases hf : tokenField m.1 with
  | none => rfl
  | some f =>
    cases f <;> cases hv : m.2 <;> simp only [] <;>
      first
      | rfl
      | (split <;> rfl)

theorem foldl_storeMember_apply (members : List (String × JSON)) (p : TokenPatch)
    (old : TokenResponse) (acc : TokenResponse × Option GoError) (h : acc.1 = p.apply old) :
    (members.foldl storeMember acc).1 = (members.foldl patchMember p).apply old := by
  induction members generalizing p acc with
  | nil => simpa using h
  | cons m rest ih =>
    simp only [List.foldl_cons]
    apply ih
    obtain ⟨a, e⟩ := acc
    simp only at h
    subst h
    exact storeMember_apply p old e m

/-- The decoder writes into the prior Session exactly the fields the body
supplies. -/
theorem jsonUnmarshalToken_eq_apply (data : RawMessage) (old : TokenResponse) :
    (jsonUnmarshalToken data old).1 = (tokenPatch data).apply old := by
  cases data with
  | invalid t => rfl
  | encoded doc =>
    cases doc with
    | object members =>
      exact foldl_storeMember_apply members TokenPatch.empty old (old, none) rfl
    | _ => rfl

/-- The decoder never touches `Acquired`. -/
theorem jsonUnmarshalToken_acquired (data : RawMessage) (old : TokenResponse) :
    (jsonUnmarshalToken data old).1.Acquired = old.Acquired := by
  rw [jsonUnmarshalToken_eq_apply]
  rfl

/-- A body that is not a JSON object leaves the Session as it was. -/
theorem jsonUnmarshalToken_not_object (data : RawMessage) (old : TokenResponse)
    (h : ∀ members, data ≠ .encoded (.object members)) :
    (jsonUnmarshalToken data old).1 = old := by
  cases data with
  | invalid t => rfl
  | encoded doc =>
    cases doc with
    | object members => exact absurd rfl (h members)
    | _ => rfl

/-- A patch that supplies all four fields decides the decoded Session but for
`Acquired`. -/
theorem TokenPatch.apply_full (p : TokenPatch) (old1 old2 : TokenResponse) (t : Nat)
    (h : p.full) : stamped (p.apply old1) t = stamped (p.apply old2) t := by
  obtain ⟨h1, h2, h3, h4⟩ := h
  cases p with
  | mk a r e re =>
    cases a <;> cases r <;> cases e <;> cases re <;> simp_all [TokenPatch.apply, stamped]

/-! ## Dispatcher lemmas -/

section Dispatcher

variable {τ : Type} (env : Env τ)

theorem makeRequestWithContext_response (ctx : Context) (method path accessToken : String)
    (body : Body) (w : World τ) (data : RawMessage) (resp : Response) (s : τ)
    (respData : RawMessage)
    (hm : jsonMarshal body = .ok data) (hc : env.checkRequest method path = none)
    (hdo : env.Do (apiRequest ctx method path accessToken data) w.transport = (.ok resp, s))
    (hb : resp.Body = .ok respData) :
    makeRequest env path (NewRequestWithContext env ctx method path) accessToken body w =
      if resp.StatusCode ≥ 400 then
        ((some (apiResponse resp respData),
          some (.errorResponse (apiError resp path (env.clock w.reads)))),
          (w.afterDo (apiRequest ctx method path accessToken data) s).tick)
      else
        ((some (apiResponse resp respData), none),
          w.afterDo (apiRequest ctx method path accessToken data) s) := by
  unfold apiRequest apiHeader at hdo
  unfold makeRequest
  simp only [hm, NewRequestWithContext, hc]
  by_cases htok : accessToken = ""
  · subst htok
    simp only [ne_eq, not_true_eq_false, ↓reduceIte, httpDo] at hdo ⊢
    simp [hdo, hb, apiResponse, apiError, World.afterDo, World.tick, timeNow, apiRequest,
      apiHeader]
  · simp only [ne_eq, htok, not_false_eq_true, ↓reduceIte, httpDo] at hdo ⊢
    simp [hdo, hb, apiResponse, apiError, World.afterDo, World.tick, timeNow, apiRequest,
      apiHeader, htok]

theorem makeRequestWithContext_transport_error (ctx : Context)
    (method path accessToken : String) (body : Body) (w : World τ) (data : RawMessage)
    (err : GoError) (s : τ)
    (hm : jsonMarshal body = .ok data) (hc : env.checkRequest method path = none)
    (hdo : env.Do (apiRequest ctx method path accessToken data) w.transport = (.error err, s)) :
    makeRequest env path (NewRequestWithContext env ctx method path) accessToken body w =
      ((none, some err), w.afterDo (apiRequest ctx method path accessToken data) s) := by
  unfold apiRequest apiHeader at hdo
  unfold makeRequest
  simp only [hm, NewRequestWithContext, hc]
  by_cases htok : accessToken = ""
  · subst htok
    simp only [ne_eq, not_true_eq_false, ↓reduceIte, httpDo] at hdo ⊢
    simp [hdo, World.afterDo, apiRequest, apiHeader]
  · simp only [ne_eq, htok, not_false_eq_true, ↓reduceIte, httpDo] at hdo ⊢
    simp [hdo, World.afterDo, apiRequest, apiHeader, htok]

theorem makeRequestWithContext_read_error (ctx : Context)
    (method path accessToken : String) (body : Body) (w : World τ) (data : RawMessage)
    (resp : Response) (err : GoError) (s : τ)
    (hm : jsonMarshal body = .ok data) (hc : env.checkRequest method path = none)
    (hdo : env.Do (apiRequest ctx method path accessToken data) w.transport = (.ok resp, s))
    (hb : resp.Body = .error err) :
    makeRequest env path (NewRequestWithContext env ctx method path) accessToken body w =
      ((none, some err), w.afterDo (apiRequest ctx method path accessToken data) s) := by
  unfold apiRequest apiHeader at hdo
  unfold makeRequest
  simp only [hm, NewRequestWithContext, hc]
  by_cases htok : accessToken = ""
  · subst htok
    simp only [ne_eq, not_true_eq_false, ↓reduceIte, httpDo] at hdo ⊢
    simp [hdo, hb, World.afterDo, apiRequest, apiHeader]
  · simp only [ne_eq, htok, not_false_eq_true, ↓reduceIte, httpDo] at hdo ⊢
    simp [hdo, hb, World.afterDo, apiRequest, apiHeader, htok]

theorem makeRequest_marshal_error (path : String)
    (newRequest : Option RawMessage → Except GoError Request) (accessToken : String)
    (body : Body) (w : World τ) (err : GoError) (hm : jsonMarshal body = .error err) :
    makeRequest env path newRequest accessToken body w = ((none, some err), w) := by
  unfold makeRequest
  simp only [hm]

theorem makeRequestWithContext_check_error (ctx : Context)
    (method path accessToken : String) (body : Body) (w : World τ) (data : RawMessage)
    (err : GoError)
    (hm : jsonMarshal body = .ok data) (hc : env.checkRequest method path = some err) :
    makeRequest env path (NewRequestWithContext env ctx method path) accessToken body w =
      ((none, some err), w) := by
  unfold makeRequest
  simp only [hm, NewRequestWithContext, hc]

/-- The dispatcher never returns a nil response together with a nil error. -/
theorem makeRequest_response_of_no_error (path : String)
    (newRequest : Option RawMessage → Except GoError Request) (accessToken : String)
    (body : Body) (w : World τ)
    (h : (makeRequest env path newRequest accessToken body w).1.2 = none) :
    ∃ ar, (makeRequest env path newRequest accessToken body w).1.1 = some ar := by
  unfold makeRequest at h ⊢
  cases hm : jsonMarshal body with
  | error e => simp [hm] at h
  | ok data =>
    simp only [hm] at h ⊢
    cases hn : newRequest (some data) with
    | error e => simp [hn] at h
    | ok req =>
      simp only [hn] at h ⊢
      generalize (if accessToken ≠ "" then _ else _ : Request) = req1 at h ⊢
      cases hd : (httpDo env req1 w).1 with
      | error e => simp [hd] at h
      | ok resp =>
        simp only [hd] at h ⊢
        cases hb : resp.Body with
        | error e => simp [hb] at h
        | ok respData =>
          simp only [hb] at h ⊢
          by_cases hs : resp.StatusCode ≥ 400
          · simp [hs] at h
          · simp [hs]

theorem sendRequest_eq (host method url accessToken : String) (body : Body) (w : World τ) :
    sendRequest env host method url accessToken body w =
      sendRequestWithContext env Context.Background host method url accessToken body w :=
  rfl

theorem sendRequestWithContext_ok (ctx : Context) (host method url accessToken : String)
    (body : Body) (w : World τ) (data : RawMessage) (resp : Response) (b : RawMessage) (s : τ)
    (hm : jsonMarshal body = .ok data) (hc : env.checkRequest method (host ++ url) = none)
    (ha : Answers env (apiRequest ctx method (host ++ url) accessToken data) w.transport resp b s)
    (hs : resp.StatusCode < 400) :
    sendRequestWithContext env ctx host method url accessToken body w =
      ((some (apiResponse resp b), none),
        w.afterDo (apiRequest ctx method (host ++ url) accessToken data) s) := by
  unfold sendRequestWithContext
  simp only []
  rw [makeRequestWithContext_response env ctx method (host ++ url) accessToken body w data resp
    s b hm hc ha.1 ha.2]
  have : ¬ resp.StatusCode ≥ 400 := by omega
  simp [this]

theorem sendRequestWithContext_status (ctx : Context) (host method url accessToken : String)
    (body : Body) (w : World τ) (data : RawMessage) (resp : Response) (b : RawMessage) (s : τ)
    (hm : jsonMarshal body = .ok data) (hc : env.checkRequest method (host ++ url) = none)
    (ha : Answers env (apiRequest ctx method (host ++ url) accessToken data) w.transport resp b s)
    (hs : 400 ≤ resp.StatusCode) :
    sendRequestWithContext env ctx host method url accessToken body w =
      ((some (apiResponse resp b),
        some (.errorResponse (apiError resp (host ++ url) (env.clock w.reads)))),
        (w.afterDo (apiRequest ctx method (host ++ url) accessToken data) s).tick) := by
  unfold sendRequestWithContext
  simp only []
  rw [makeRequestWithContext_response env ctx method (host ++ url) accessToken body w data resp
    s b hm hc ha.1 ha.2]
  simp [hs]

theorem sendRequestWithContext_fails (ctx : Context) (host method url accessToken : String)
    (body : Body) (w : World τ) (data : RawMessage) (err : GoError) (s : τ)
    (hm : jsonMarshal body = .ok data) (hc : env.checkRequest method (host ++ url) = none)
    (hf : FailsWith env (apiRequest ctx method (host ++ url) accessToken data) w.transport err s) :
    sendRequestWithContext env ctx host method url accessToken body w =
      ((none, some err), w.afterDo (apiRequest ctx method (host ++ url) accessToken data) s) := by
  unfold sendRequestWithContext
  simp only []
  rcases hf with hf | ⟨resp, hdo, hb⟩
  · exact makeRequestWithContext_transport_error env ctx method (host ++ url) accessToken body w
      data err s hm hc hf
  · exact makeRequestWithContext_read_error env ctx method (host ++ url) accessToken body w
      data resp err s hm hc hdo hb

@[simp] theorem World.tick_transport (w : World τ) : w.tick.transport = w.transport := rfl

@[simp] theorem World.tick_reads (w : World τ) : w.tick.reads = w.reads + 1 := rfl

@[simp] theorem World.tick_sent (w : World τ) : w.tick.sent = w.sent := rfl

@[simp] theorem World.afterDo_transport (w : World τ) (req : Request) (s : τ) :
    (w.afterDo req s).transport = s := rfl

@[simp] theorem World.afterDo_reads (w : World τ) (req : Request) (s : τ) :
    (w.afterDo req s).reads = w.reads := rfl

@[simp] theorem World.afterDo_sent (w : World τ) (req : Request) (s : τ) :
    (w.afterDo req s).sent = w.sent ++ [req] := rfl

theorem timeNow_eq (w : World τ) : timeNow env w = (env.clock w.reads, w.tick) := rfl

/-- A request that can be marshalled and built is handed to the transport,
whatever the transport answers. -/
theorem sendRequestWithContext_sent (ctx : Context) (host method url accessToken : String)
    (body : Body) (w : World τ) (data : RawMessage)
    (hm : jsonMarshal body = .ok data) (hc : env.checkRequest method (host ++ url) = none) :
    (sendRequestWithContext env ctx host method url accessToken body w).2.sent =
      w.sent ++ [apiRequest ctx method (host ++ url) accessToken data] := by
  cases hdo : env.Do (apiRequest ctx method (host ++ url) accessToken data) w.transport with
  | mk r s =>
    cases r with
    | error err =>
      rw [sendRequestWithContext_fails env ctx host method url accessToken body w data err s hm hc
        (Or.inl hdo)]
      rfl
    | ok resp =>
      cases hb : resp.Body with
      | error err =>
        rw [sendRequestWithContext_fails env ctx host method url accessToken body w data err s
          hm hc (Or.inr ⟨resp, hdo, hb⟩)]
        rfl
      | ok b =>
        by_cases hs : resp.StatusCode < 400
        · rw [sendRequestWithContext_ok env ctx host method url accessToken body w data resp b s
            hm hc ⟨hdo, hb⟩ hs]
          rfl
        · rw [sendRequestWithContext_status env ctx host method url accessToken body w data resp
            b s hm hc ⟨hdo, hb⟩ (by omega)]
          rfl

/-- The dispatcher only appends to the list of requests sent, at most one. -/
theorem makeRequest_sent_append (path : String)
    (newRequest : Option RawMessage → Except GoError Request) (accessToken : String)
    (body : Body) (w : World τ) :
    ∃ l, (makeRequest env path newRequest accessToken body w).2.sent = w.sent ++ l ∧
      l.length ≤ 1 := by
  unfold makeRequest
  cases hm : jsonMarshal body with
  | error e => exact ⟨[], by simp⟩
  | ok data =>
    simp only []
    cases hn : newRequest (some data) with
    | error e => exact ⟨[], by simp⟩
    | ok req =>
      simp only []
      generalize (if accessToken ≠ "" then _ else _ : Request) = req1
      refine ⟨[req1], ?_, by simp⟩
      cases hd : (httpDo env req1 w).1 with
      | error e => simp [httpDo]
      | ok resp =>
        simp only []
        cases hb : resp.Body with
        | error e => simp [httpDo]
        | ok respData =>
          simp only []
          by_cases hs : resp.StatusCode ≥ 400
          · simp [hs, httpDo, timeNow]
          · simp [hs, httpDo]

end Dispatcher

/-! ## Token operation lemmas -/

section Tokens

variable {τ : Type} (env : Env τ)

theorem jsonMarshal_credentials (cr : TokenRequest) :
    jsonMarshal (Body.credentials cr) = .ok (credentialsData cr) := rfl

theorem jsonMarshal_refreshReq (clientID refreshToken : String) :
    jsonMarshal (Body.refreshReq clientID refreshToken) = .ok (refreshData clientID refreshToken) :=
  rfl

theorem RefreshToken_eq (c : Client) (w : World τ) :
    RefreshToken env c w = RefreshTokenWithContext env Context.Background c w := rfl

/-- A successful credential Acquire through `requestAndParseToken`. -/
theorem requestAndParseToken_success (c : Client) (w : World τ) (resp : Response)
    (b : RawMessage) (s : τ) (auth : TokenResponse)
    (hc : env.checkRequest "POST" (c.Options.AuthURL ++ "/token/password") = none)
    (ha : Answers env (acquireRequest Context.Background c) w.transport resp b s)
    (hs : resp.StatusCode < 400) (hd : jsonUnmarshalToken b c.Auth = (auth, none)) :
    requestAndParseToken env c w =
      (none, c.withAuth (stamped auth (env.clock w.reads)),
        w.tick.afterDo (acquireRequest Context.Background c) s) := by
  unfold requestAndParseToken
  simp only [timeNow_eq, sendRequest_eq]
  rw [sendRequestWithContext_ok env Context.Background c.Options.AuthURL "POST" "/token/password"
    "" (Body.credentials c.Credentials) w.tick (credentialsData c.Credentials) resp b s
    (jsonMarshal_credentials c.Credentials) hc ha hs]
  simp [apiResponse, hd, Client.withAuth, stamped, acquireRequest]

/-- A successful credential Acquire through `requestAndParseTokenWithContext`. -/
theorem requestAndParseTokenWithContext_success (ctx : Context) (c : Client) (w : World τ)
    (resp : Response) (b : RawMessage) (s : τ) (auth : TokenResponse)
    (hc : env.checkRequest "POST" (c.Options.AuthURL ++ "/token/password") = none)
    (ha : Answers env (acquireRequest ctx c) w.transport resp b s)
    (hs : resp.StatusCode < 400) (hd : jsonUnmarshalToken b c.Auth = (auth, none)) :
    requestAndParseTokenWithContext env ctx c w =
      (none, c.withAuth (stamped auth (env.clock w.reads)),
        (w.afterDo (acquireRequest ctx c) s).tick) := by
  unfold requestAndParseTokenWithContext
  simp only []
  rw [sendRequestWithContext_ok env ctx c.Options.AuthURL "POST" "/token/password"
    "" (Body.credentials c.Credentials) w (credentialsData c.Credentials) resp b s
    (jsonMarshal_credentials c.Credentials) hc ha hs]
  simp [apiResponse, hd, Client.withAuth, stamped, acquireRequest, timeNow_eq]

/-- Refresh with an expired refresh token: `ErrSessionExpired`, nothing sent. -/
theorem RefreshTokenWithContext_expired (ctx : Context) (c : Client) (w : World τ)
    (he : c.Auth.RefreshTokenExpiredAt (env.clock w.reads) = true) :
    RefreshTokenWithContext env ctx c w = (some .ErrSessionExpired, c, w.tick) := by
  unfold RefreshTokenWithContext refreshToken
  simp [timeNow_eq, he]

/-- A successful Refresh. -/
theorem RefreshTokenWithContext_success (ctx : Context) (c : Client) (w : World τ)
    (resp : Response) (b : RawMessage) (s : τ) (auth : TokenResponse)
    (he : c.Auth.RefreshTokenExpiredAt (env.clock w.reads) = false)
    (hc : env.checkRequest "POST" (c.Options.AuthURL ++ "/token/refresh") = none)
    (ha : Answers env (refreshRequest ctx c) w.transport resp b s)
    (hs : resp.StatusCode < 400) (hd : jsonUnmarshalToken b c.Auth = (auth, none)) :
    RefreshTokenWithContext env ctx c w =
      (none, c.withAuth (stamped auth (env.clock (w.reads + 1))),
        (w.tick.afterDo (refreshRequest ctx c) s).tick) := by
  unfold RefreshTokenWithContext refreshToken
  simp only [timeNow_eq, he]
  rw [sendRequestWithContext_ok env ctx c.Options.AuthURL "POST" "/token/refresh"
    "" (Body.refreshReq c.Credentials.ClientID c.Auth.RefreshToken) w.tick
    (refreshData c.Credentials.ClientID c.Auth.RefreshToken) resp b s
    (jsonMarshal_refreshReq _ _) hc ha hs]
  simp [apiResponse, hd, Client.withAuth, stamped, refreshRequest]

/-- The world after `requestAndParseToken` is the world its dispatcher call
left. -/
theorem requestAndParseToken_world (c : Client) (w : World τ) :
    (requestAndParseToken env c w).2.2 =
      (sendRequestWithContext env Context.Background c.Options.AuthURL "POST" "/token/password" ""
        (Body.credentials c.Credentials) w.tick).2 := by
  unfold requestAndParseToken
  simp only [timeNow_eq, sendRequest_eq]
  split
  · rfl
  · split
    · rfl
    · split <;> rfl

/-- A credential Acquire that can be built is handed to the transport. -/
theorem requestAndParseToken_sent (c : Client) (w : World τ)
    (hc : env.checkRequest "POST" (c.Options.AuthURL ++ "/token/password") = none) :
    (requestAndParseToken env c w).2.2.sent = w.sent ++ [acquireRequest Context.Background c] := by
  rw [requestAndParseToken_world,
    sendRequestWithContext_sent env Context.Background c.Options.AuthURL "POST" "/token/password"
      "" (Body.credentials c.Credentials) w.tick (credentialsData c.Credentials)
      (jsonMarshal_credentials _) hc]
  rfl

theorem requestAndParseToken_sent_append (c : Client) (w : World τ) :
    ∃ l, (requestAndParseToken env c w).2.2.sent = w.sent ++ l ∧ l.length ≤ 1 := by
  rw [requestAndParseToken_world]
  exact makeRequest_sent_append env _ _ _ _ w.tick

/-- The requests sent by `requestAndParseTokenWithContext` are those of its
dispatcher call. -/
theorem requestAndParseTokenWithContext_world_sent (ctx : Context) (c : Client) (w : World τ) :
    (requestAndParseTokenWithContext env ctx c w).2.2.sent =
      (sendRequestWithContext env ctx c.Options.AuthURL "POST" "/token/password" ""
        (Body.credentials c.Credentials) w).2.sent := by
  unfold requestAndParseTokenWithContext
  simp only [timeNow_eq]
  split
  · rfl
  · split
    · rfl
    · split <;> rfl

theorem requestAndParseTokenWithContext_sent (ctx : Context) (c : Client) (w : World τ)
    (hc : env.checkRequest "POST" (c.Options.AuthURL ++ "/token/password") = none) :
    (requestAndParseTokenWithContext env ctx c w).2.2.sent =
      w.sent ++ [acquireRequest ctx c] := by
  rw [requestAndParseTokenWithContext_world_sent,
    sendRequestWithContext_sent env ctx c.Options.AuthURL "POST" "/token/password"
      "" (Body.credentials c.Credentials) w (credentialsData c.Credentials)
      (jsonMarshal_credentials _) hc]
  rfl

theorem requestAndParseTokenWithContext_sent_append (ctx : Context) (c : Client)
    (w : World τ) :
    ∃ l, (requestAndParseTokenWithContext env ctx c w).2.2.sent = w.sent ++ l ∧ l.length ≤ 1 := by
  rw [requestAndParseTokenWithContext_world_sent]
  exact makeRequest_sent_append env _ _ _ _ w

/-- After a guard that let the call through, `request` hands the API request,
built with the access token of the Session the guard left, to the transport. -/
theorem request_sent_after_validate (method host url : String) (body : Body) (c c1 : Client)
    (w w1 : World τ) (data : RawMessage)
    (hm : jsonMarshal body = .ok data) (hc : env.checkRequest method (host ++ url) = none)
    (hv : validateTokens env c w = (none, c1, w1)) :
    ∃ rest, (request env method host url body c w).2.2.sent =
      w1.sent ++ apiRequest Context.Background method (host ++ url) c1.Auth.AccessToken data
        :: rest := by
  have hsent := sendRequestWithContext_sent env Context.Background host method url
    c1.Auth.AccessToken body w1 data hm hc
  unfold request
  simp only [hv, sendRequest_eq]
  generalize sendRequestWithContext env Context.Background host method url c1.Auth.AccessToken
    body w1 = r at hsent
  split
  · split
    · obtain ⟨l, hl, _⟩ := requestAndParseToken_sent_append env c1 r.2
      split
      · exact ⟨l, by simp [hl, hsent]⟩
      · obtain ⟨l2, hl2, _⟩ := makeRequest_sent_append env (host ++ url)
          (NewRequestWithContext env Context.Background method (host ++ url))
          (requestAndParseToken env c1 r.2).2.1.Auth.AccessToken body
          (requestAndParseToken env c1 r.2).2.2
        refine ⟨l ++ l2, ?_⟩
        show (sendRequestWithContext env Context.Background host method url _ body _).2.sent = _
        unfold sendRequestWithContext
        simp only [hl2, hl, hsent, List.append_assoc, List.singleton_append, List.cons_append,
            List.nil_append]
    · exact ⟨[], by simp [hsent]⟩
  · exact ⟨[], by simp [hsent]⟩

/-- After a guard that let the call through, `requestWithContext` hands the API
request, built with the access token of the Session the guard left, to the
transport. -/
theorem requestWithContext_sent_after_validate (ctx : Context) (method host url : String)
    (body : Body) (c c1 : Client) (w w1 : World τ) (data : RawMessage)
    (hm : jsonMarshal body = .ok data) (hc : env.checkRequest method (host ++ url) = none)
    (hv : validateTokensWithContext env ctx c w = (none, c1, w1)) :
    ∃ rest, (requestWithContext env ctx method host url body c w).2.2.sent =
      w1.sent ++ apiRequest ctx method (host ++ url) c1.Auth.AccessToken data :: rest := by
  have hsent := sendRequestWithContext_sent env ctx host method url
    c1.Auth.AccessToken body w1 data hm hc
  unfold requestWithContext
  simp only [hv]
  generalize sendRequestWithContext env ctx host method url c1.Auth.AccessToken
    body w1 = r at hsent
  split
  · split
    · split
      · obtain ⟨l, hl, _⟩ := requestAndParseToken_sent_append env c1 r.2
        split
        · exact ⟨l, by simp [hl, hsent]⟩
        · obtain ⟨l2, hl2, _⟩ := makeRequest_sent_append env (host ++ url)
            (NewRequestWithContext env ctx method (host ++ url))
            (requestAndParseToken env c1 r.2).2.1.Auth.AccessToken body
            (requestAndParseToken env c1 r.2).2.2
          refine ⟨l ++ l2, ?_⟩
          show (sendRequestWithContext env ctx host method url _ body _).2.sent = _
          unfold sendRequestWithContext
          simp only [hl2, hl, hsent, List.append_assoc, List.singleton_append, List.cons_append,
            List.nil_append]
      · exact ⟨[], by simp [hsent]⟩
    · exact ⟨[], by simp [hsent]⟩
  · exact ⟨[], by simp [hsent]⟩

/-- With both tokens expired the guard is the credential Acquire alone. -/
theorem validateTokens_both_expired (c : Client) (w : World τ)
    (hacc : c.Auth.AccessTokenExpiredAt (env.clock w.reads) = true)
    (href : c.Auth.RefreshTokenExpiredAt (env.clock (w.reads + 1)) = true) :
    validateTokens env c w = requestAndParseToken env c w.tick.tick := by
  unfold validateTokens
  simp only [timeNow_eq, hacc, ↓reduceIte, RefreshToken_eq]
  rw [RefreshTokenWithContext_expired env Context.Background c w.tick href]
  simp only []
  split
  · next err h => rw [← h]
  · next h => rw [← h]

/-- With both tokens expired the guard is the credential Acquire alone, in the
caller's context. -/
theorem validateTokensWithContext_both_expired (ctx : Context) (c : Client) (w : World τ)
    (hacc : c.Auth.AccessTokenExpiredAt (env.clock w.reads) = true)
    (href : c.Auth.RefreshTokenExpiredAt (env.clock (w.reads + 1)) = true) :
    validateTokensWithContext env ctx c w =
      requestAndParseTokenWithContext env ctx c w.tick.tick := by
  unfold validateTokensWithContext
  simp only [timeNow_eq, hacc, ↓reduceIte]
  rw [RefreshTokenWithContext_expired env ctx c w.tick href]
  simp only []
  split
  · next err h => rw [← h]
  · next h => rw [← h]

theorem errorsAs_of_assert (err : GoError) (e : ErrorResponse)
    (h : assertErrorResponse (some err) = some e) : errorsAs err = some e := by
  cases err <;> simp_all [assertErrorResponse, errorsAs]

/-- With a live access token the guard does nothing but read the clock. -/
theorem validateTokens_live (c : Client) (w : World τ)
    (hlive : c.Auth.AccessTokenExpiredAt (env.clock w.reads) = false) :
    validateTokens env c w = (none, c, w.tick) := by
  unfold validateTokens
  simp [timeNow_eq, hlive]

theorem validateTokensWithContext_live (ctx : Context) (c : Client) (w : World τ)
    (hlive : c.Auth.AccessTokenExpiredAt (env.clock w.reads) = false) :
    validateTokensWithContext env ctx c w = (none, c, w.tick) := by
  unfold validateTokensWithContext
  simp [timeNow_eq, hlive]

/-- After the guard, an outcome of the dispatch other than a 401 ends
`requestWithContext`: one transport call, the client as the guard left it. -/
theorem requestWithContext_not401 (ctx : Context) (method host url : String) (body : Body)
    (c c1 : Client) (w w1 : World τ) (data : RawMessage) (s2 : τ)
    (hm : jsonMarshal body = .ok data) (hc : env.checkRequest method (host ++ url) = none)
    (hv : validateTokensWithContext env ctx c w = (none, c1, w1))
    (ho : OutcomeNot401 env (apiRequest ctx method (host ++ url) c1.Auth.AccessToken data)
      w1.transport s2) :
    (requestWithContext env ctx method host url body c w).2.1 = c1 ∧
    (requestWithContext env ctx method host url body c w).2.2.sent =
      w1.sent ++ [apiRequest ctx method (host ++ url) c1.Auth.AccessToken data] := by
  unfold requestWithContext
  simp only [hv]
  rcases ho with ⟨resp, b, ha, hne⟩ | ⟨err, hf, hn⟩
  · by_cases hs : resp.StatusCode < 400
    · rw [sendRequestWithContext_ok env ctx host method url c1.Auth.AccessToken body w1 data resp
        b s2 hm hc ha hs]
      exact ⟨rfl, rfl⟩
    · rw [sendRequestWithContext_status env ctx host method url c1.Auth.AccessToken body w1 data
        resp b s2 hm hc ha (by omega)]
      simp only [errorsAs, apiError, StatusUnauthorized, hne, ↓reduceIte]
      exact ⟨trivial, rfl⟩
  · rw [sendRequestWithContext_fails env ctx host method url c1.Auth.AccessToken body w1 data err
      s2 hm hc hf]
    simp only []
    cases he : errorsAs err with
    | none => exact ⟨rfl, rfl⟩
    | some e =>
      simp only [hn e he, ↓reduceIte]
      exact ⟨trivial, rfl⟩

/-- After the guard, an outcome of the dispatch other than a 401 ends `request`:
one transport call, the client as the guard left it. -/
theorem request_not401 (method host url : String) (body : Body)
    (c c1 : Client) (w w1 : World τ) (data : RawMessage) (s2 : τ)
    (hm : jsonMarshal body = .ok data) (hc : env.checkRequest method (host ++ url) = none)
    (hv : validateTokens env c w = (none, c1, w1))
    (ho : OutcomeNot401 env
      (apiRequest Context.Background method (host ++ url) c1.Auth.AccessToken data)
      w1.transport s2) :
    (request env method host url body c w).2.1 = c1 ∧
    (request env method host url body c w).2.2.sent =
      w1.sent ++ [apiRequest Context.Background method (host ++ url) c1.Auth.AccessToken data] := by
  unfold request
  simp only [hv, sendRequest_eq]
  rcases ho with ⟨resp, b, ha, hne⟩ | ⟨err, hf, hn⟩
  · by_cases hs : resp.StatusCode < 400
    · rw [sendRequestWithContext_ok env Context.Background host method url c1.Auth.AccessToken
        body w1 data resp b s2 hm hc ha hs]
      exact ⟨rfl, rfl⟩
    · rw [sendRequestWithContext_status env Context.Background host method url
        c1.Auth.AccessToken body w1 data resp b s2 hm hc ha (by omega)]
      simp only [assertErrorResponse, apiError, StatusUnauthorized, hne, ↓reduceIte]
      exact ⟨trivial, rfl⟩
  · rw [sendRequestWithContext_fails env Context.Background host method url c1.Auth.AccessToken
      body w1 data err s2 hm hc hf]
    simp only []
    cases he : assertErrorResponse (some err) with
    | none => exact ⟨rfl, rfl⟩
    | some e =>
      simp only [hn e (errorsAs_of_assert err e he), ↓reduceIte]
      exact ⟨trivial, rfl⟩

/-- With a live refresh token `refreshToken` calls the send function it was
given, with the auth URL and the refresh request: the requests sent are those of
that call. -/
theorem refreshToken_calls_send (send : String → Body → World τ → Result × World τ)
    (c : Client) (w : World τ)
    (he : c.Auth.RefreshTokenExpiredAt (env.clock w.reads) = false) :
    (refreshToken env send c w).2.2.sent =
      (send c.Options.AuthURL (Body.refreshReq c.Credentials.ClientID c.Auth.RefreshToken)
        w.tick).2.sent := by
  unfold refreshToken
  simp only [timeNow_eq, he, Bool.false_eq_true, ↓reduceIte]
  split
  · rfl
  · split
    · rfl
    · split <;> rfl

/-- The requests sent by a Refresh whose refresh token is live are those of its
dispatcher call. -/
theorem RefreshTokenWithContext_world_sent (ctx : Context) (c : Client) (w : World τ)
    (he : c.Auth.RefreshTokenExpiredAt (env.clock w.reads) = false) :
    (RefreshTokenWithContext env ctx c w).2.2.sent =
      (sendRequestWithContext env ctx c.Options.AuthURL "POST" "/token/refresh" ""
        (Body.refreshReq c.Credentials.ClientID c.Auth.RefreshToken) w.tick).2.sent := by
  unfold RefreshTokenWithContext refreshToken
  simp only [timeNow_eq, he, Bool.false_eq_true, ↓reduceIte]
  split
  · rfl
  · split
    · rfl
    · split <;> rfl

/-- A Refresh with a live refresh token that can be built is handed to the
transport. -/
theorem RefreshTokenWithContext_sent (ctx : Context) (c : Client) (w : World τ)
    (he : c.Auth.RefreshTokenExpiredAt (env.clock w.reads) = false)
    (hc : env.checkRequest "POST" (c.Options.AuthURL ++ "/token/refresh") = none) :
    (RefreshTokenWithContext env ctx c w).2.2.sent = w.sent ++ [refreshRequest ctx c] := by
  rw [RefreshTokenWithContext_world_sent env ctx c w he,
    sendRequestWithContext_sent env ctx c.Options.AuthURL "POST" "/token/refresh"
      "" (Body.refreshReq c.Credentials.ClientID c.Auth.RefreshToken) w.tick
      (refreshData c.Credentials.ClientID c.Auth.RefreshToken) (jsonMarshal_refreshReq _ _) hc]
  rfl

theorem RefreshTokenWithContext_sent_append (ctx : Context) (c : Client) (w : World τ) :
    ∃ l, (RefreshTokenWithContext env ctx c w).2.2.sent = w.sent ++ l ∧ l.length ≤ 1 := by
  cases he : c.Auth.RefreshTokenExpiredAt (env.clock w.reads) with
  | true =>
    rw [RefreshTokenWithContext_expired env ctx c w he]
    exact ⟨[], by simp⟩
  | false =>
    rw [RefreshTokenWithContext_world_sent env ctx c w he]
    exact makeRequest_sent_append env _ _ _ _ w.tick

/-- With an expired access token the guard starts with the Refresh. -/
theorem validateTokens_sent_of_expired (c : Client) (w : World τ)
    (hacc : c.Auth.AccessTokenExpiredAt (env.clock w.reads) = true) :
    ∃ l, (validateTokens env c w).2.2.sent =
      (RefreshTokenWithContext env Context.Background c w.tick).2.2.sent ++ l ∧ l.length ≤ 1 := by
  unfold validateTokens
  simp only [timeNow_eq, hacc, ↓reduceIte, RefreshToken_eq]
  split
  · obtain ⟨l, hl, hlen⟩ := requestAndParseToken_sent_append env
      (RefreshTokenWithContext env Context.Background c w.tick).2.1
      (RefreshTokenWithContext env Context.Background c w.tick).2.2
    refine ⟨l, ?_, hlen⟩
    split <;> exact hl
  · exact ⟨[], by simp⟩

theorem validateTokensWithContext_sent_of_expired (ctx : Context) (c : Client) (w : World τ)
    (hacc : c.Auth.AccessTokenExpiredAt (env.clock w.reads) = true) :
    ∃ l, (validateTokensWithContext env ctx c w).2.2.sent =
      (RefreshTokenWithContext env ctx c w.tick).2.2.sent ++ l ∧ l.length ≤ 1 := by
  unfold validateTokensWithContext
  simp only [timeNow_eq, hacc, ↓reduceIte]
  split
  · obtain ⟨l, hl, hlen⟩ := requestAndParseTokenWithContext_sent_append env ctx
      (RefreshTokenWithContext env ctx c w.tick).2.1
      (RefreshTokenWithContext env ctx c w.tick).2.2
    refine ⟨l, ?_, hlen⟩
    split <;> exact hl
  · exact ⟨[], by simp⟩

/-- A successful Refresh ends the guard. -/
theorem validateTokens_refreshed (c c1 : Client) (w w1 : World τ)
    (hacc : c.Auth.AccessTokenExpiredAt (env.clock w.reads) = true)
    (hr : RefreshTokenWithContext env Context.Background c w.tick = (none, c1, w1)) :
    validateTokens env c w = (none, c1, w1) := by
  unfold validateTokens
  simp only [timeNow_eq, hacc, ↓reduceIte, RefreshToken_eq, hr]

theorem validateTokensWithContext_refreshed (ctx : Context) (c c1 : Client) (w w1 : World τ)
    (hacc : c.Auth.AccessTokenExpiredAt (env.clock w.reads) = true)
    (hr : RefreshTokenWithContext env ctx c w.tick = (none, c1, w1)) :
    validateTokensWithContext env ctx c w = (none, c1, w1) := by
  unfold validateTokensWithContext
  simp only [timeNow_eq, hacc, ↓reduceIte, hr]

/-- A successful `requestAndParseToken` lays the patch of the response body over
the prior Session and stamps the time read before sending. -/
theorem requestAndParseToken_patch (c : Client) (w : World τ)
    (h : (requestAndParseToken env c w).1 = none) :
    ∃ ar, (acquireExchange env Context.Background c w.tick).1 = (some ar, none) ∧
      (requestAndParseToken env c w).2.1 =
        c.withAuth (stamped ((tokenPatch ar.Body).apply c.Auth) (env.clock w.reads)) := by
  unfold requestAndParseToken at h ⊢
  simp only [timeNow_eq, sendRequest_eq] at h ⊢
  unfold acquireExchange
  generalize sendRequestWithContext env Context.Background c.Options.AuthURL "POST"
    "/token/password" "" (Body.credentials c.Credentials) w.tick = r at h ⊢
  obtain ⟨⟨ar, err⟩, w2⟩ := r
  cases err with
  | some e => simp at h
  | none =>
    cases ar with
    | none => simp at h
    | some ar =>
      refine ⟨ar, rfl, ?_⟩
      simp only [] at h ⊢
      cases hd : (jsonUnmarshalToken ar.Body c.Auth).2 with
      | some e => simp [hd] at h
      | none =>
        simp only [hd, jsonUnmarshalToken_eq_apply]
        rfl

/-- A successful `requestAndParseTokenWithContext` lays the patch of the
response body over the prior Session and stamps the time read after decoding. -/
theorem requestAndParseTokenWithContext_patch (ctx : Context) (c : Client) (w : World τ)
    (h : (requestAndParseTokenWithContext env ctx c w).1 = none) :
    ∃ ar, (acquireExchange env ctx c w).1 = (some ar, none) ∧
      (requestAndParseTokenWithContext env ctx c w).2.1 =
        c.withAuth (stamped ((tokenPatch ar.Body).apply c.Auth)
          (env.clock (acquireExchange env ctx c w).2.reads)) := by
  unfold requestAndParseTokenWithContext at h ⊢
  simp only [timeNow_eq] at h ⊢
  unfold acquireExchange
  generalize sendRequestWithContext env ctx c.Options.AuthURL "POST"
    "/token/password" "" (Body.credentials c.Credentials) w = r at h ⊢
  obtain ⟨⟨ar, err⟩, w2⟩ := r
  cases err with
  | some e => simp at h
  | none =>
    cases ar with
    | none => simp at h
    | some ar =>
      refine ⟨ar, rfl, ?_⟩
      simp only [] at h ⊢
      cases hd : (jsonUnmarshalToken ar.Body c.Auth).2 with
      | some e => simp [hd] at h
      | none =>
        simp only [hd, jsonUnmarshalToken_eq_apply]
        rfl

/-- A successful Refresh lays the patch of the response body over the prior
Session and stamps the time read after decoding. -/
theorem RefreshTokenWithContext_patch (ctx : Context) (c : Client) (w : World τ)
    (h : (RefreshTokenWithContext env ctx c w).1 = none) :
    ∃ ar, (refreshExchange env ctx c w.tick).1 = (some ar, none) ∧
      (RefreshTokenWithContext env ctx c w).2.1 =
        c.withAuth (stamped ((tokenPatch ar.Body).apply c.Auth)
          (env.clock (refreshExchange env ctx c w.tick).2.reads)) := by
  unfold RefreshTokenWithContext refreshToken at h ⊢
  simp only [timeNow_eq] at h ⊢
  unfold refreshExchange
  cases he : c.Auth.RefreshTokenExpiredAt (env.clock w.reads) with
  | true => simp [he] at h
  | false =>
    simp only [he, Bool.false_eq_true, ↓reduceIte] at h ⊢
    generalize sendRequestWithContext env ctx c.Options.AuthURL "POST"
      "/token/refresh" "" (Body.refreshReq c.Credentials.ClientID c.Auth.RefreshToken) w.tick
      = r at h ⊢
    obtain ⟨⟨ar, err⟩, w2⟩ := r
    cases err with
    | some e => simp at h
    | none =>
      cases ar with
      | none => simp at h
      | some ar =>
        refine ⟨ar, rfl, ?_⟩
        simp only [] at h ⊢
        cases hd : (jsonUnmarshalToken ar.Body c.Auth).2 with
        | some e => simp [hd] at h
        | none =>
          simp only [hd, jsonUnmarshalToken_eq_apply]
          rfl

/-- The client after a decode that failed. -/
theorem sessionKept_of_decode (c : Client) (ar : APIResponse) :
    SessionKept c { c with Auth := (jsonUnmarshalToken ar.Body c.Auth).1 } (some ar, none) := by
  refine ⟨rfl, rfl, jsonUnmarshalToken_acquired _ _, ?_, ?_⟩
  · intro hno
    have hb : ∀ members, ar.Body ≠ .encoded (.object members) := fun members hm =>
      hno ⟨ar, members, rfl, hm⟩
    rw [jsonUnmarshalToken_not_object ar.Body c.Auth hb]
  · intro ar2 h
    have : ar = ar2 := by
      simpa using congrArg (fun r : Result => r.1) h
    subst this
    exact jsonUnmarshalToken_eq_apply ar.Body c.Auth

/-- The client a failed operation did not touch. -/
theorem sessionKept_of_send_error (c : Client) (ar : Option APIResponse) (err : GoError) :
    SessionKept c c (ar, some err) := by
  refine ⟨rfl, rfl, rfl, fun _ => rfl, ?_⟩
  intro ar2 h
  simp at h

theorem sessionKept_of_nil (c : Client) : SessionKept c c (none, none) := by
  refine ⟨rfl, rfl, rfl, fun _ => rfl, ?_⟩
  intro ar2 h
  simp at h

theorem requestAndParseToken_error (c : Client) (w : World τ)
    (h : (requestAndParseToken env c w).1 ≠ none) :
    SessionKept c (requestAndParseToken env c w).2.1
      (acquireExchange env Context.Background c w.tick).1 := by
  unfold requestAndParseToken at h ⊢
  simp only [timeNow_eq, sendRequest_eq] at h ⊢
  unfold acquireExchange
  generalize sendRequestWithContext env Context.Background c.Options.AuthURL "POST"
    "/token/password" "" (Body.credentials c.Credentials) w.tick = r at h ⊢
  obtain ⟨⟨ar, err⟩, w2⟩ := r
  cases err with
  | some e => exact sessionKept_of_send_error c ar e
  | none =>
    cases ar with
    | none => exact sessionKept_of_nil c
    | some ar =>
      simp only [] at h ⊢
      cases hd : (jsonUnmarshalToken ar.Body c.Auth).2 with
      | some e =>
        simp only [hd]
        exact sessionKept_of_decode c ar
      | none => simp [hd] at h

theorem requestAndParseTokenWithContext_error (ctx : Context) (c : Client) (w : World τ)
    (h : (requestAndParseTokenWithContext env ctx c w).1 ≠ none) :
    SessionKept c (requestAndParseTokenWithContext env ctx c w).2.1
      (acquireExchange env ctx c w).1 := by
  unfold requestAndParseTokenWithContext at h ⊢
  simp only [timeNow_eq] at h ⊢
  unfold acquireExchange
  generalize sendRequestWithContext env ctx c.Options.AuthURL "POST"
    "/token/password" "" (Body.credentials c.Credentials) w = r at h ⊢
  obtain ⟨⟨ar, err⟩, w2⟩ := r
  cases err with
  | some e => exact sessionKept_of_send_error c ar e
  | none =>
    cases ar with
    | none => exact sessionKept_of_nil c
    | some ar =>
      simp only [] at h ⊢
      cases hd : (jsonUnmarshalToken ar.Body c.Auth).2 with
      | some e =>
        simp only [hd]
        exact sessionKept_of_decode c ar
      | none => simp [hd] at h

theorem RefreshTokenWithContext_error (ctx : Context) (c : Client) (w : World τ)
    (he : c.Auth.RefreshTokenExpiredAt (env.clock w.reads) = false)
    (h : (RefreshTokenWithContext env ctx c w).1 ≠ none) :
    SessionKept c (RefreshTokenWithContext env ctx c w).2.1
      (refreshExchange env ctx c w.tick).1 := by
  unfold RefreshTokenWithContext refreshToken at h ⊢
  simp only [timeNow_eq, he, Bool.false_eq_true, ↓reduceIte] at h ⊢
  unfold refreshExchange
  generalize sendRequestWithContext env ctx c.Options.AuthURL "POST"
    "/token/refresh" "" (Body.refreshReq c.Credentials.ClientID c.Auth.RefreshToken) w.tick
    = r at h ⊢
  obtain ⟨⟨ar, err⟩, w2⟩ := r
  cases err with
  | some e => exact sessionKept_of_send_error c ar e
  | none =>
    cases ar with
    | none => exact sessionKept_of_nil c
    | some ar =>
      simp only [] at h ⊢
      cases hd : (jsonUnmarshalToken ar.Body c.Auth).2 with
      | some e =>
        simp only [hd]
        exact sessionKept_of_decode c ar
      | none => simp [hd] at h

theorem GetAuth_client (c : Client) (w : World τ) :
    (GetAuth env c w).2.1 = (requestAndParseToken env c w).2.1 ∧
    ((GetAuth env c w).1.2 ≠ none → (requestAndParseToken env c w).1 ≠ none) := by
  unfold GetAuth
  simp only []
  split
  · next err h => exact ⟨rfl, fun _ => by simp [h]⟩
  · next h => exact ⟨rfl, fun hne => absurd rfl hne⟩

theorem GetAuthWithContext_client (ctx : Context) (c : Client) (w : World τ) :
    (GetAuthWithContext env ctx c w).2.1 = (requestAndParseTokenWithContext env ctx c w).2.1 ∧
    ((GetAuthWithContext env ctx c w).1.2 ≠ none →
      (requestAndParseTokenWithContext env ctx c w).1 ≠ none) := by
  unfold GetAuthWithContext
  simp only []
  split
  · next err h => exact ⟨rfl, fun _ => by simp [h]⟩
  · next h => exact ⟨rfl, fun hne => absurd rfl hne⟩

theorem acquireExchange_congr (ctx : Context) (c c2 : Client) (w : World τ)
    (hcr : c2.Credentials = c.Credentials) (ho : c2.Options = c.Options) :
    acquireExchange env ctx c2 w = acquireExchange env ctx c w := by
  unfold acquireExchange
  rw [hcr, ho]

theorem acquireRequest_congr (ctx : Context) (c c2 : Client)
    (hcr : c2.Credentials = c.Credentials) (ho : c2.Options = c.Options) :
    acquireRequest ctx c2 = acquireRequest ctx c := by
  unfold acquireRequest
  rw [hcr, ho]

/-- The dispatcher call of the Acquire sends the Acquire request or nothing. -/
theorem acquireExchange_sent (ctx : Context) (c : Client) (w : World τ) :
    ∃ l, (acquireExchange env ctx c w).2.sent = w.sent ++ l ∧
      (l = [] ∨ l = [acquireRequest ctx c]) ∧
      (env.checkRequest "POST" (c.Options.AuthURL ++ "/token/password") = none →
        l = [acquireRequest ctx c]) := by
  unfold acquireExchange
  cases hc : env.checkRequest "POST" (c.Options.AuthURL ++ "/token/password") with
  | none =>
    refine ⟨[acquireRequest ctx c], ?_, Or.inr rfl, fun _ => rfl⟩
    exact sendRequestWithContext_sent env ctx c.Options.AuthURL "POST" "/token/password" ""
      (Body.credentials c.Credentials) w (credentialsData c.Credentials)
      (jsonMarshal_credentials _) hc
  | some err =>
    refine ⟨[], ?_, Or.inl rfl, fun h => by simp at h⟩
    unfold sendRequestWithContext
    simp only []
    rw [makeRequestWithContext_check_error env ctx "POST" _ "" (Body.credentials c.Credentials) w
      (credentialsData c.Credentials) err (jsonMarshal_credentials _) hc]
    simp

/-- A Refresh sends the Refresh request or nothing. -/
theorem RefreshTokenWithContext_sent_cases (ctx : Context) (c : Client) (w : World τ) :
    ∃ l, (RefreshTokenWithContext env ctx c w).2.2.sent = w.sent ++ l ∧
      (l = [] ∨ l = [refreshRequest ctx c]) := by
  cases he : c.Auth.RefreshTokenExpiredAt (env.clock w.reads) with
  | true =>
    rw [RefreshTokenWithContext_expired env ctx c w he]
    exact ⟨[], by simp, Or.inl rfl⟩
  | false =>
    cases hc : env.checkRequest "POST" (c.Options.AuthURL ++ "/token/refresh") with
    | none =>
      exact ⟨[refreshRequest ctx c], RefreshTokenWithContext_sent env ctx c w he hc, Or.inr rfl⟩
    | some err =>
      refine ⟨[], ?_, Or.inl rfl⟩
      rw [RefreshTokenWithContext_world_sent env ctx c w he]
      unfold sendRequestWithContext
      simp only []
      rw [makeRequestWithContext_check_error env ctx "POST" _ ""
        (Body.refreshReq c.Credentials.ClientID c.Auth.RefreshToken) w.tick
        (refreshData c.Credentials.ClientID c.Auth.RefreshToken) err
        (jsonMarshal_refreshReq _ _) hc]
      simp

/-- What a failed Refresh left of the client. -/
theorem RefreshTokenWithContext_failed_client (ctx : Context) (c : Client) (w : World τ)
    (h : (RefreshTokenWithContext env ctx c w).1 ≠ none) :
    (RefreshTokenWithContext env ctx c w).2.1.Credentials = c.Credentials ∧
    (RefreshTokenWithContext env ctx c w).2.1.Options = c.Options ∧
    (RefreshTokenWithContext env ctx c w).2.1.Auth.Acquired = c.Auth.Acquired ∧
    ((c.Auth.RefreshTokenExpiredAt (env.clock w.reads) = true ∨
        ¬ ObjectBody (refreshExchange env ctx c w.tick).1) →
      (RefreshTokenWithContext env ctx c w).2.1 = c) := by
  cases he : c.Auth.RefreshTokenExpiredAt (env.clock w.reads) with
  | true =>
    rw [RefreshTokenWithContext_expired env ctx c w he]
    exact ⟨rfl, rfl, rfl, fun _ => rfl⟩
  | false =>
    obtain ⟨h1, h2, h3, h4, _⟩ := RefreshTokenWithContext_error env ctx c w he h
    refine ⟨h1, h2, h3, fun hno => ?_⟩
    rcases hno with hno | hno
    · simp at hno
    · exact h4 hno

/-- When the Refresh and the fallback Acquire both fail, the guard of `request`
returns the Acquire's outcome. -/
theorem validateTokens_both_fail (c : Client) (w : World τ) (e2 : GoError)
    (hacc : c.Auth.AccessTokenExpiredAt (env.clock w.reads) = true)
    (hr : (RefreshToken env c w.tick).1 ≠ none)
    (ha : (requestAndParseToken env (RefreshToken env c w.tick).2.1
      (RefreshToken env c w.tick).2.2).1 = some e2) :
    validateTokens env c w =
      (some e2, (requestAndParseToken env (RefreshToken env c w.tick).2.1
        (RefreshToken env c w.tick).2.2).2) := by
  unfold validateTokens
  simp only [timeNow_eq, hacc, ↓reduceIte]
  cases h1 : (RefreshToken env c w.tick).1 with
  | none => exact absurd h1 hr
  | some e1 => simp only [ha]

theorem validateTokensWithContext_both_fail (ctx : Context) (c : Client) (w : World τ)
    (e2 : GoError)
    (hacc : c.Auth.AccessTokenExpiredAt (env.clock w.reads) = true)
    (hr : (RefreshTokenWithContext env ctx c w.tick).1 ≠ none)
    (ha : (requestAndParseTokenWithContext env ctx (RefreshTokenWithContext env ctx c w.tick).2.1
      (RefreshTokenWithContext env ctx c w.tick).2.2).1 = some e2) :
    validateTokensWithContext env ctx c w =
      (some e2, (requestAndParseTokenWithContext env ctx
        (RefreshTokenWithContext env ctx c w.tick).2.1
        (RefreshTokenWithContext env ctx c w.tick).2.2).2) := by
  unfold validateTokensWithContext
  simp only [timeNow_eq, hacc, ↓reduceIte]
  cases h1 : (RefreshTokenWithContext env ctx c w.tick).1 with
  | none => exact absurd h1 hr
  | some e1 => simp only [ha]

/-- The requests a failed guard sent: at most the Refresh, then at most the
Acquire. -/
theorem failed_guard_sent (ctx : Context) (c c1 : Client) (w w1 w2 : World τ)
    (hcr : c1.Credentials = c.Credentials) (ho : c1.Options = c.Options)
    (h1 : ∃ l, w1.sent = w.sent ++ l ∧ (l = [] ∨ l = [refreshRequest ctx c]))
    (h2 : ∃ l, w2.sent = w1.sent ++ l ∧ (l = [] ∨ l = [acquireRequest ctx c1]) ∧
      (env.checkRequest "POST" (c1.Options.AuthURL ++ "/token/password") = none →
        l = [acquireRequest ctx c1])) :
    ∃ l1 l2, w2.sent = w.sent ++ l1 ++ l2 ∧ (l1 = [] ∨ l1 = [refreshRequest ctx c]) ∧
      (l2 = [] ∨ l2 = [acquireRequest ctx c]) ∧
      (env.checkRequest "POST" (c.Options.AuthURL ++ "/token/password") = none →
        l2 = [acquireRequest ctx c]) := by
  obtain ⟨l1, hl1, hc1⟩ := h1
  obtain ⟨l2, hl2, hc2, hc3⟩ := h2
  rw [acquireRequest_congr ctx c c1 hcr ho] at hc2 hc3
  rw [ho] at hc3
  exact ⟨l1, l2, by rw [hl2, hl1], hc1, hc2, hc3⟩

end Tokens

/-! ## Requests built by the dispatcher -/

section Built

variable {τ : Type} (env : Env τ)

theorem canonical_accept : CanonicalMIMEHeaderKey "Accept" = "Accept" := by decide

theorem canonical_request_id : CanonicalMIMEHeaderKey "x-request-id" = "X-Request-Id" := by
  decide

/-- `Header.Get` returns the value of the first entry under the canonical form
of the key, and the empty string without such an entry. -/
theorem Header.Get_of_firstValue (h : Header) (key canon r : String)
    (hk : CanonicalMIMEHeaderKey key = canon) (hr : FirstValue h canon r) : h.Get key = r := by
  unfold Header.Get
  rw [hk]
  rcases hr with ⟨front, rest, hh, hfront⟩ | ⟨hnone, hr⟩
  · subst hh
    have hf : List.find? (fun p => p.1 == canon) front = none := by
      rw [List.find?_eq_none]
      intro p hp
      simpa using hfront p hp
    simp [List.find?_append, hf]
  · subst hr
    have hf : List.find? (fun p => p.1 == canon) h = none := by
      rw [List.find?_eq_none]
      intro p hp
      simpa using hnone p hp
    simp [hf]

theorem canonical_content_type : CanonicalMIMEHeaderKey "Content-type" = "Content-Type" := by
  decide

theorem canonical_content_type_fixed : CanonicalMIMEHeaderKey "Content-Type" = "Content-Type" := by
  decide

theorem canonical_authorization : CanonicalMIMEHeaderKey "Authorization" = "Authorization" := by
  decide

/-- The headers of a dispatcher request, written out. -/
theorem apiHeader_eq (accessToken : String) :
    apiHeader accessToken =
      if accessToken ≠ "" then
        [("Accept", "application/json"), ("Content-Type", "application/json"),
          ("Authorization", "Bearer " ++ accessToken)]
      else [("Accept", "application/json"), ("Content-Type", "application/json")] := by
  unfold apiHeader Header.Add
  simp only [canonical_accept, canonical_content_type, canonical_authorization]
  split <;> rfl

/-- The dispatcher sends nothing, or the one request built from the marshalled
body. -/
theorem sendRequestWithContext_sent_cases (ctx : Context)
    (host method url accessToken : String) (body : Body) (w : World τ) :
    ∃ l, (sendRequestWithContext env ctx host method url accessToken body w).2.sent =
        w.sent ++ l ∧
      (l = [] ∨ ∃ data, jsonMarshal body = .ok data ∧
        l = [apiRequest ctx method (host ++ url) accessToken data]) := by
  cases hm : jsonMarshal body with
  | error err =>
    refine ⟨[], ?_, Or.inl rfl⟩
    unfold sendRequestWithContext
    simp only []
    rw [makeRequest_marshal_error env _ _ _ body w err hm]
    simp
  | ok data =>
    cases hc : env.checkRequest method (host ++ url) with
    | none =>
      exact ⟨_, sendRequestWithContext_sent env ctx host method url accessToken body w data hm hc,
        Or.inr ⟨data, rfl, rfl⟩⟩
    | some err =>
      refine ⟨[], ?_, Or.inl rfl⟩
      unfold sendRequestWithContext
      simp only []
      rw [makeRequestWithContext_check_error env ctx method _ accessToken body w data err hm hc]
      simp

theorem setTimeout_urls (o : ClientOptions) (timeout : Int) :
    (setTimeout o timeout).APIBaseURL = o.APIBaseURL ∧
    (setTimeout o timeout).AuthURL = o.AuthURL ∧
    (setTimeout o timeout).StatusURL = o.StatusURL ∧
    (setTimeout o timeout).GatewayURL = o.GatewayURL := by
  unfold setTimeout
  split <;> exact ⟨rfl, rfl, rfl, rfl⟩

/-- Handed a copy of the result variable, `json.Unmarshal` leaves the caller's
variable as it is. -/
theorem unmarshalResObj_value {ρ : Type} (dec : Decoder ρ) (data : RawMessage) (res : ρ) :
    (unmarshalResObj dec ResObj.value data res).1 = res := by
  unfold unmarshalResObj
  cases data with
  | invalid t => rfl
  | encoded doc => cases doc <;> rfl

/-- Handed a copy of the result variable, `requestAndParseResponse` returns the
caller's variable as it was. -/
theorem requestAndParseResponse_value {ρ : Type} (dec : Decoder ρ) (method url : String)
    (body : Body) (res : ρ) (c : Client) (w : World τ) :
    (requestAndParseResponse env dec method url body ResObj.value res c w).1.2 = res := by
  unfold requestAndParseResponse
  simp only []
  split
  · split
    · exact unmarshalResObj_value dec _ res
    · rfl
  · split
    · rfl
    · split <;> exact unmarshalResObj_value dec _ res

theorem requestAndParseResponseWithContext_value {ρ : Type} (dec : Decoder ρ) (ctx : Context)
    (method url : String) (body : Body) (res : ρ) (c : Client) (w : World τ) :
    (requestAndParseResponseWithContext env dec ctx method url body ResObj.value res c w).1.2
      = res := by
  unfold requestAndParseResponseWithContext
  simp only []
  split
  · split
    · exact unmarshalResObj_value dec _ res
    · rfl
  · split
    · rfl
    · split <;> exact unmarshalResObj_value dec _ res

/-- An operation that ends with `returnResult` on a call that left the result
variable at `zero` returns `zero` whenever it returns a result. -/
theorem returnResult_of_unchanged {ρ : Type} (r : (Option GoError × ρ) × Client × World τ)
    (zero : ρ) (h : r.1.2 = zero) :
    (returnResult r).1.1 = none ∨ (returnResult r).1.1 = some zero := by
  unfold returnResult
  split
  · exact Or.inl rfl
  · exact Or.inr (by rw [h])

theorem jsonMarshal_encoded (b : Body) (data : RawMessage) (h : jsonMarshal b = .ok data) :
    ∃ doc, data = .encoded doc := by
  cases b <;> simp [jsonMarshal] at h <;> exact ⟨_, h.symm⟩

/-- The dispatcher hands the transport at most one request, a dispatch of the
method and path it was given. -/
theorem sendRequestWithContext_sent_kind (ctx : Context)
    (host method url accessToken : String) (body : Body) (w : World τ) :
    ∃ l, (sendRequestWithContext env ctx host method url accessToken body w).2.sent =
        w.sent ++ l ∧ l.length ≤ 1 ∧ ∀ r ∈ l, IsDispatch method (host ++ url) r := by
  obtain ⟨l, hl, hcases⟩ := sendRequestWithContext_sent_cases env ctx host method url
    accessToken body w
  refine ⟨l, hl, ?_, ?_⟩
  · rcases hcases with h | ⟨data, _, h⟩ <;> simp [h]
  · intro r hr
    rcases hcases with h | ⟨data, _, h⟩
    · simp [h] at hr
    · rw [h, List.mem_singleton] at hr
      subst hr
      exact ⟨rfl, rfl⟩

theorem requestAndParseToken_options (c : Client) (w : World τ) :
    (requestAndParseToken env c w).2.1.Options = c.Options := by
  unfold requestAndParseToken
  simp only []
  split
  · rfl
  · split
    · rfl
    · split <;> rfl

theorem requestAndParseTokenWithContext_options (ctx : Context) (c : Client) (w : World τ) :
    (requestAndParseTokenWithContext env ctx c w).2.1.Options = c.Options := by
  unfold requestAndParseTokenWithContext
  simp only []
  split
  · rfl
  · split
    · rfl
    · split <;> rfl

theorem RefreshTokenWithContext_options (ctx : Context) (c : Client) (w : World τ) :
    (RefreshTokenWithContext env ctx c w).2.1.Options = c.Options := by
  unfold RefreshTokenWithContext refreshToken
  simp only []
  split
  · rfl
  · split
    · rfl
    · split
      · rfl
      · split <;> rfl

/-- A credential Acquire hands the transport at most one request, to the
credential endpoint. -/
theorem requestAndParseToken_sent_kind (c : Client) (w : World τ) :
    ∃ l, (requestAndParseToken env c w).2.2.sent = w.sent ++ l ∧ l.length ≤ 1 ∧
      ∀ r ∈ l, IsAcquire c r := by
  rw [requestAndParseToken_world]
  exact sendRequestWithContext_sent_kind env Context.Background c.Options.AuthURL "POST"
    "/token/password" "" (Body.credentials c.Credentials) w.tick

theorem requestAndParseTokenWithContext_sent_kind (ctx : Context) (c : Client) (w : World τ) :
    ∃ l, (requestAndParseTokenWithContext env ctx c w).2.2.sent = w.sent ++ l ∧ l.length ≤ 1 ∧
      ∀ r ∈ l, IsAcquire c r := by
  rw [requestAndParseTokenWithContext_world_sent]
  exact sendRequestWithContext_sent_kind env ctx c.Options.AuthURL "POST"
    "/token/password" "" (Body.credentials c.Credentials) w

/-- A Refresh hands the transport at most one request, to the Refresh
endpoint. -/
theorem RefreshTokenWithContext_sent_kind (ctx : Context) (c : Client) (w : World τ) :
    ∃ l, (RefreshTokenWithContext env ctx c w).2.2.sent = w.sent ++ l ∧ l.length ≤ 1 ∧
      ∀ r ∈ l, IsRefresh c r := by
  cases he : c.Auth.RefreshTokenExpiredAt (env.clock w.reads) with
  | true =>
    rw [RefreshTokenWithContext_expired env ctx c w he]
    exact ⟨[], by simp, by simp, by simp⟩
  | false =>
    rw [RefreshTokenWithContext_world_sent env ctx c w he]
    exact sendRequestWithContext_sent_kind env ctx c.Options.AuthURL "POST"
      "/token/refresh" "" (Body.refreshReq c.Credentials.ClientID c.Auth.RefreshToken) w.tick

theorem IsAcquire_congr (c c2 : Client) (h : c2.Options = c.Options) (r : Request)
    (hr : IsAcquire c2 r) : IsAcquire c r := by
  unfold IsAcquire at hr ⊢
  rw [← h]
  exact hr

/-- The guard hands the transport at most a Refresh and then a credential
Acquire, and leaves the options of the client alone. -/
theorem validateTokens_sent_kind (c : Client) (w : World τ) :
    ∃ l1 l2, (validateTokens env c w).2.2.sent = w.sent ++ (l1 ++ l2) ∧
      l1.length ≤ 1 ∧ l2.length ≤ 1 ∧ (∀ r ∈ l1, IsRefresh c r) ∧ (∀ r ∈ l2, IsAcquire c r) ∧
      (validateTokens env c w).2.1.Options = c.Options := by
  unfold validateTokens
  simp only [timeNow_eq, RefreshToken_eq]
  split
  · obtain ⟨l1, h1, n1, k1⟩ := RefreshTokenWithContext_sent_kind env Context.Background c w.tick
    have o1 := RefreshTokenWithContext_options env Context.Background c w.tick
    split
    · obtain ⟨l2, h2, n2, k2⟩ := requestAndParseToken_sent_kind env
        (RefreshTokenWithContext env Context.Background c w.tick).2.1
        (RefreshTokenWithContext env Context.Background c w.tick).2.2
      have o2 := requestAndParseToken_options env
        (RefreshTokenWithContext env Context.Background c w.tick).2.1
        (RefreshTokenWithContext env Context.Background c w.tick).2.2
      refine ⟨l1, l2, ?_, n1, n2, k1, fun r hr => IsAcquire_congr c _ o1 r (k2 r hr), ?_⟩
      · split <;> simp [h2, h1]
      · split <;> exact o2.trans o1
    · exact ⟨l1, [], by simp [h1], n1, by simp, k1, by simp, o1⟩
  · exact ⟨[], [], by simp, by simp, by simp, by simp, by simp, rfl⟩

theorem validateTokensWithContext_sent_kind (ctx : Context) (c : Client) (w : World τ) :
    ∃ l1 l2, (validateTokensWithContext env ctx c w).2.2.sent = w.sent ++ (l1 ++ l2) ∧
      l1.length ≤ 1 ∧ l2.length ≤ 1 ∧ (∀ r ∈ l1, IsRefresh c r) ∧ (∀ r ∈ l2, IsAcquire c r) ∧
      (validateTokensWithContext env ctx c w).2.1.Options = c.Options := by
  unfold validateTokensWithContext
  simp only [timeNow_eq]
  split
  · obtain ⟨l1, h1, n1, k1⟩ := RefreshTokenWithContext_sent_kind env ctx c w.tick
    have o1 := RefreshTokenWithContext_options env ctx c w.tick
    split
    · obtain ⟨l2, h2, n2, k2⟩ := requestAndParseTokenWithContext_sent_kind env ctx
        (RefreshTokenWithContext env ctx c w.tick).2.1
        (RefreshTokenWithContext env ctx c w.tick).2.2
      have o2 := requestAndParseTokenWithContext_options env ctx
        (RefreshTokenWithContext env ctx c w.tick).2.1
        (RefreshTokenWithContext env ctx c w.tick).2.2
      refine ⟨l1, l2, ?_, n1, n2, k1, fun r hr => IsAcquire_congr c _ o1 r (k2 r hr), ?_⟩
      · split <;> simp [h2, h1]
      · split <;> exact o2.trans o1
    · exact ⟨l1, [], by simp [h1], n1, by simp, k1, by simp, o1⟩
  · exact ⟨[], [], by simp, by simp, by simp, by simp, by simp, rfl⟩

/-- Five stages of at most one request each make a guarded trace of at most
five requests. -/
theorem GuardedTrace.of_stages (c : Client) (method path : String)
    (l1 l2 l3 l4 l5 : List Request)
    (n1 : l1.length ≤ 1) (n2 : l2.length ≤ 1) (n3 : l3.length ≤ 1) (n4 : l4.length ≤ 1)
    (n5 : l5.length ≤ 1)
    (k1 : ∀ r ∈ l1, IsRefresh c r) (k2 : ∀ r ∈ l2, IsAcquire c r)
    (k3 : ∀ r ∈ l3, IsDispatch method path r) (k4 : ∀ r ∈ l4, IsAcquire c r)
    (k5 : ∀ r ∈ l5, IsDispatch method path r) :
    GuardedTrace c method path (l1 ++ l2 ++ l3 ++ l4 ++ l5) ∧
      (l1 ++ l2 ++ l3 ++ l4 ++ l5).length ≤ 5 := by
  refine ⟨⟨l1, l2, l3, l4, l5, rfl, n1, n2, n3, n4, n5, k1, k2, k3, k4, k5⟩, ?_⟩
  simp only [List.length_append]
  omega

end Built

/-! ## Decoding an encoded value -/

theorem keyLess_irrefl (a : List Char) : keyLess a a = false := by
  induction a with
  | nil => rfl
  | cons c cs ih => simp [keyLess, ih]

theorem keyLess_asymm (a b : List Char) (h : keyLess a b = true) : keyLess b a = false := by
  induction a generalizing b with
  | nil => cases b <;> simp [keyLess] at h ⊢
  | cons c cs ih =>
    cases b with
    | nil => simp [keyLess] at h
    | cons d ds =>
      simp only [keyLess, Bool.or_eq_true, decide_eq_true_eq, Bool.and_eq_true, beq_iff_eq] at h
      simp only [keyLess, Bool.or_eq_false_iff, decide_eq_false_iff_not, Bool.and_eq_false_imp,
        beq_iff_eq]
      rcases h with h | ⟨h1, h2⟩
      · exact ⟨by omega, fun h3 => by omega⟩
      · exact ⟨by omega, fun _ => ih ds h2⟩

theorem keyLess_trans (a b c : List Char) (h1 : keyLess a b = true) (h2 : keyLess b c = true) :
    keyLess a c = true := by
  induction a generalizing b c with
  | nil =>
    cases b with
    | nil => simp [keyLess] at h1
    | cons d ds =>
      cases c with
      | nil => simp [keyLess] at h2
      | cons e es => simp [keyLess]
  | cons x xs ih =>
    cases b with
    | nil => simp [keyLess] at h1
    | cons d ds =>
      cases c with
      | nil => simp [keyLess] at h2
      | cons e es =>
        simp only [keyLess, Bool.or_eq_true, decide_eq_true_eq, Bool.and_eq_true, beq_iff_eq]
          at h1 h2 ⊢
        rcases h1 with h1 | ⟨h1, h1r⟩ <;> rcases h2 with h2 | ⟨h2, h2r⟩
        · left; omega
        · left; omega
        · left; omega
        · right; exact ⟨by omega, ih ds es h1r h2r⟩

theorem keyBefore_ne (a b : String) (h : keyBefore a b = true) : b ≠ a := by
  intro hab
  subst hab
  unfold keyBefore at h
  rw [keyLess_irrefl] at h
  cases h

theorem keyBefore_asymm (a b : String) (h : keyBefore a b = true) : keyBefore b a = false :=
  keyLess_asymm a.data b.data h

/-- Assigning under a key that sorts after every key of the map appends the
entry. -/
theorem putEntry_append {α : Type} (k : String) (v : α) (l : List (String × α))
    (h : ∀ e ∈ l, keyBefore e.1 k = true) : putEntry k v l = l ++ [(k, v)] := by
  induction l with
  | nil => rfl
  | cons e rest ih =>
    have he := h e (List.mem_cons_self _ _)
    have h1 : keyBefore k e.1 = false := keyBefore_asymm e.1 k he
    have h2 : k ≠ e.1 := keyBefore_ne e.1 k he
    simp only [putEntry, h1, Bool.false_eq_true, ↓reduceIte, h2, List.cons_append]
    rw [ih (fun x hx => h x (List.mem_cons_of_mem _ hx))]

theorem ascending_cons (a : String) (l : List String) (h : ascending (a :: l) = true) :
    ascending l = true ∧ ∀ b ∈ l, keyBefore a b = true := by
  induction l generalizing a with
  | nil => exact ⟨rfl, by simp⟩
  | cons b rest ih =>
    simp only [ascending, Bool.and_eq_true] at h
    obtain ⟨hab, hrest⟩ := h
    obtain ⟨_, hb⟩ := ih b hrest
    refine ⟨hrest, ?_⟩
    intro c hc
    rcases List.mem_cons.1 hc with hc | hc
    · subst hc; exact hab
    · exact keyLess_trans _ _ _ hab (hb c hc)

theorem foldl_putEntry_ascending {α : Type} (l acc : List (String × α))
    (hl : ascending (l.map Prod.fst) = true)
    (hacc : ∀ e ∈ acc, ∀ x ∈ l, keyBefore e.1 x.1 = true) :
    l.foldl (fun m e => putEntry e.1 e.2 m) acc = acc ++ l := by
  induction l generalizing acc with
  | nil => simp
  | cons x rest ih =>
    simp only [List.foldl_cons]
    rw [putEntry_append x.1 x.2 acc (fun e he => hacc e he x (List.mem_cons_self _ _))]
    obtain ⟨hrest, hx⟩ := ascending_cons x.1 (rest.map Prod.fst) hl
    rw [ih (acc ++ [(x.1, x.2)]) hrest]
    · simp
    · intro e he y hy
      rcases List.mem_append.1 he with he | he
      · exact hacc e he y (List.mem_cons_of_mem _ hy)
      · simp only [List.mem_singleton] at he
        subst he
        exact hx y.1 (List.mem_map_of_mem _ hy)

/-- Entries in ascending key order are the map they make. -/
theorem mapOf_ascending {α : Type} (l : List (String × α))
    (hl : ascending (l.map Prod.fst) = true) : mapOf l = l := by
  unfold mapOf
  rw [foldl_putEntry_ascending l [] hl (by simp)]
  simp

theorem encodeEntries_keys (entries : List (String × GoValue)) :
    (encodeEntries entries).map Prod.fst = entries.map Prod.fst := by
  induction entries with
  | nil => rfl
  | cons e rest ih =>
    obtain ⟨k, x⟩ := e
    simp [encodeEntries, ih]

mutual
/-- Decoding the document of a value of the generic form into an `interface{}`
gives the value back. -/
theorem decodeValue_encodeValue : ∀ v : GoValue, v.generic = true →
    decodeValue (encodeValue v) = v
  | .nil, _ => rfl
  | .bool _, _ => rfl
  | .int _, h => by simp [GoValue.generic] at h
  | .float64 n, h => by
    simp only [GoValue.generic, decide_eq_true_eq] at h
    simp only [encodeValue, decodeValue]
    rw [if_pos h]
  | .float64Of _, h => by simp [GoValue.generic] at h
  | .string _, _ => rfl
  | .slice xs, h => by
    simp only [GoValue.generic] at h
    simp only [encodeValue, decodeValue, decodeList_encodeList xs h]
  | .map entries, h => by
    simp only [GoValue.generic, Bool.and_eq_true] at h
    have hk : ascending ((encodeEntries entries).map Prod.fst) = true := by
      rw [encodeEntries_keys]
      exact h.1
    simp only [encodeValue, decodeValue]
    rw [mapOf_ascending _ hk, decodeMembers_encodeEntries entries h.2, mapOf_ascending _ h.1]
theorem decodeList_encodeList : ∀ xs : List GoValue, genericList xs = true →
    decodeList (encodeList xs) = xs
  | [], _ => rfl
  | x :: xs, h => by
    simp only [genericList, Bool.and_eq_true] at h
    simp only [encodeList, decodeList, decodeValue_encodeValue x h.1,
      decodeList_encodeList xs h.2]
theorem decodeMembers_encodeEntries : ∀ entries : List (String × GoValue),
    genericEntries entries = true → decodeMembers (encodeEntries entries) = entries
  | [], _ => rfl
  | (k, x) :: rest, h => by
    simp only [genericEntries, Bool.and_eq_true] at h
    simp only [encodeEntries, decodeMembers, decodeValue_encodeValue x h.1,
      decodeMembers_encodeEntries rest h.2]
end

/-! ## The dispatcher classifies responses -/

/-- C10: for every transport response with status `s`, raw body `b` and
request id `r` (the value of the first header entry named `X-Request-Id`, the
empty string without one), `makeRequest`, called as `sendRequest` and
`sendRequestWithContext` call it with path `host ++ url`, returns an
`APIResponse` with `Body = b` and `RequestID = r`; its error is nil exactly
when `s < 400`; and when `s >= 400` the error is an `ErrorResponse` with
`HTTPCode = s`, `HTTPPhrase` the status phrase, `RequestID = r`,
`Path = host ++ url` and the single sub-error `{Path, Message = status phrase}`. -/
theorem makeRequest_classifies_response {τ : Type} (env : Env τ) (ctx : Context)
    (host method url accessToken : String) (body : Body) (w : World τ) (data : RawMessage)
    (resp : Response) (s : τ) (b : RawMessage) (r : String)
    (hm : jsonMarshal body = .ok data)
    (hc : env.checkRequest method (host ++ url) = none)
    (hdo : env.Do (apiRequest ctx method (host ++ url) accessToken data) w.transport
      = (.ok resp, s))
    (hb : resp.Body = .ok b)
    (hr : FirstValue resp.Header "X-Request-Id" r) :
    ∃ ar,
      (makeRequest env (host ++ url) (NewRequestWithContext env ctx method (host ++ url))
        accessToken body w).1.1 = some ar ∧
      ar.Body = b ∧ ar.RequestID = r ∧
      ((makeRequest env (host ++ url) (NewRequestWithContext env ctx method (host ++ url))
        accessToken body w).1.2 = none ↔ resp.StatusCode < 400) ∧
      (400 ≤ resp.StatusCode →
        ∃ e, (makeRequest env (host ++ url) (NewRequestWithContext env ctx method (host ++ url))
            accessToken body w).1.2 = some (.errorResponse e) ∧
          e.HTTPCode = resp.StatusCode ∧ e.HTTPPhrase = resp.Status ∧
          e.RequestID = r ∧ e.Path = host ++ url ∧
          e.Errors = [{ Path := host ++ url, Message := resp.Status }]) := by
  have hg : resp.Header.Get "x-request-id" = r :=
    Header.Get_of_firstValue resp.Header "x-request-id" "X-Request-Id" r canonical_request_id hr
  rw [makeRequestWithContext_response env ctx method (host ++ url) accessToken body w data resp
    s b hm hc hdo hb]
  by_cases hs : resp.StatusCode ≥ 400
  · refine ⟨apiResponse resp b, by simp [hs], rfl, hg, ?_, ?_⟩
    · simp only [hs, ↓reduceIte]
      constructor
      · intro h
        cases h
      · intro h
        omega
    · intro _
      exact ⟨apiError resp (host ++ url) (env.clock w.reads), by simp [hs], rfl, rfl, hg, rfl,
        rfl⟩
  · refine ⟨apiResponse resp b, by simp [hs], rfl, hg, ?_, ?_⟩
    · simp only [hs, ↓reduceIte]
      constructor
      · intro _
        omega
      · intro _
        trivial
    · intro h
      exact absurd h hs

/-- C10 at a stub transport answering `404 Not Found` with the header entry
`X-Request-Id: rid-1` and the body text `oops`: the `APIResponse` and the
`ErrorResponse` both carry the request id `rid-1`. -/
theorem makeRequest_classifies_response_witness :
    ∃ ar,
      (makeRequest (stubEnv 0) ("h" ++ "/u")
        (NewRequestWithContext (stubEnv 0) Context.Background "GET" ("h" ++ "/u")) "tok" Body.nil
        (World.init [.ok (stubResponse 404 "404 Not Found" "rid-1" (.invalid "oops"))])).1.1
          = some ar ∧
      ar.Body = .invalid "oops" ∧
      ar.RequestID = "rid-1" ∧
      ((makeRequest (stubEnv 0) ("h" ++ "/u")
        (NewRequestWithContext (stubEnv 0) Context.Background "GET" ("h" ++ "/u")) "tok" Body.nil
        (World.init [.ok (stubResponse 404 "404 Not Found" "rid-1" (.invalid "oops"))])).1.2
          = none ↔ (stubResponse 404 "404 Not Found" "rid-1" (.invalid "oops")).StatusCode < 400) ∧
      (400 ≤ (stubResponse 404 "404 Not Found" "rid-1" (.invalid "oops")).StatusCode →
        ∃ e, (makeRequest (stubEnv 0) ("h" ++ "/u")
            (NewRequestWithContext (stubEnv 0) Context.Background "GET" ("h" ++ "/u")) "tok"
            Body.nil
            (World.init [.ok (stubResponse 404 "404 Not Found" "rid-1" (.invalid "oops"))])).1.2
              = some (.errorResponse e) ∧
          e.HTTPCode = (stubResponse 404 "404 Not Found" "rid-1" (.invalid "oops")).StatusCode ∧
          e.HTTPPhrase = (stubResponse 404 "404 Not Found" "rid-1" (.invalid "oops")).Status ∧
          e.RequestID = "rid-1" ∧
          e.Path = "h" ++ "/u" ∧
          e.Errors = [{ Path := "h" ++ "/u",
                        Message := (stubResponse 404 "404 Not Found" "rid-1"
                          (.invalid "oops")).Status }]) :=
  makeRequest_classifies_response (stubEnv 0) Context.Background "h" "GET" "/u" "tok" Body.nil
    (World.init [.ok (stubResponse 404 "404 Not Found" "rid-1" (.invalid "oops"))])
    (.encoded .null) (stubResponse 404 "404 Not Found" "rid-1" (.invalid "oops")) []
    (.invalid "oops") "rid-1" rfl rfl rfl rfl (Or.inl ⟨[], [], rfl, by simp⟩)

/-! ## The session guard -/

/-- C1: the access token is not expired, the first dispatch is answered with
status 401, the credential Acquire (`POST {AuthURL}/token/password`) with a
success response that decodes, and the second dispatch with a status below 400.
Then `requestWithContext` (and `request`, whose dispatches carry the background
context) returns the second dispatch's `APIResponse` with a nil error after
exactly three transport calls: the dispatch, one credential Acquire (no Refresh)
and one retry built with the newly acquired access token; the Session is the
decoded Acquire response stamped with the acquisition time. -/
theorem request_reauthenticates_once_on_401 {τ : Type} (env : Env τ) (ctx : Context)
    (method host url : String) (body : Body) (c : Client) (w : World τ) (data : RawMessage)
    (resp1 respA resp2 : Response) (b1 bA b2 : RawMessage) (s1 s2 s3 : τ)
    (auth : TokenResponse)
    (hm : jsonMarshal body = .ok data)
    (hc : env.checkRequest method (host ++ url) = none)
    (hcA : env.checkRequest "POST" (c.Options.AuthURL ++ "/token/password") = none)
    (hlive : c.Auth.AccessTokenExpiredAt (env.clock w.reads) = false)
    (h1 : Answers env (apiRequest ctx method (host ++ url) c.Auth.AccessToken data)
      w.transport resp1 b1 s1)
    (h401 : resp1.StatusCode = 401)
    (hA : Answers env (acquireRequest Context.Background c) s1 respA bA s2)
    (hAok : respA.StatusCode < 400)
    (hdec : jsonUnmarshalToken bA c.Auth = (auth, none))
    (h2 : Answers env (apiRequest ctx method (host ++ url) auth.AccessToken data) s2 resp2 b2 s3)
    (h2ok : resp2.StatusCode < 400) :
    requestWithContext env ctx method host url body c w =
      ((some (apiResponse resp2 b2), none),
        c.withAuth (stamped auth (env.clock (w.reads + 2))),
        { transport := s3, reads := w.reads + 3,
          sent := w.sent ++ [apiRequest ctx method (host ++ url) c.Auth.AccessToken data,
            acquireRequest Context.Background c,
            apiRequest ctx method (host ++ url) auth.AccessToken data] }) ∧
    (ctx = Context.Background →
      request env method host url body c w =
        ((some (apiResponse resp2 b2), none),
          c.withAuth (stamped auth (env.clock (w.reads + 2))),
          { transport := s3, reads := w.reads + 3,
            sent := w.sent ++ [apiRequest ctx method (host ++ url) c.Auth.AccessToken data,
              acquireRequest Context.Background c,
              apiRequest ctx method (host ++ url) auth.AccessToken data] })) := by
  have h400 : (400 : Int) ≤ resp1.StatusCode := by omega
  have e1 := sendRequestWithContext_status env ctx host method url c.Auth.AccessToken body
    w.tick data resp1 b1 s1 hm hc h1 h400
  have eA := requestAndParseToken_success env c
    ((w.tick.afterDo (apiRequest ctx method (host ++ url) c.Auth.AccessToken data) s1).tick)
    respA bA s2 auth hcA hA hAok hdec
  have e2 := sendRequestWithContext_ok env ctx host method url auth.AccessToken body
    ((w.tick.afterDo (apiRequest ctx method (host ++ url) c.Auth.AccessToken data) s1).tick.tick.afterDo
      (acquireRequest Context.Background c) s2) data resp2 b2 s3 hm hc h2 h2ok
  constructor
  · unfold requestWithContext validateTokensWithContext
    simp only [timeNow_eq, hlive, Bool.false_eq_true, ↓reduceIte, e1, errorsAs, apiError, h401,
      StatusUnauthorized, eA, Client.withAuth, stamped, e2]
    simp [World.afterDo, World.tick]
  · intro hctx
    subst hctx
    unfold request validateTokens
    simp only [timeNow_eq, hlive, Bool.false_eq_true, ↓reduceIte, sendRequest_eq, e1,
      assertErrorResponse, apiError, h401, StatusUnauthorized, eA, Client.withAuth, stamped, e2]
    simp [World.afterDo, World.tick]

/-- C1 at a stub transport answering 401, then fresh tokens, then 200. -/
theorem request_reauthenticates_once_on_401_witness :
    requestWithContext (stubEnv 10) Context.Background "GET" "https://api/sample/v1" "/projects"
        Body.nil (stubClient liveAuth)
        (World.init [.ok (unauthorized "rid-1"), .ok tokenAnswer,
          .ok (statusOK "rid-2" (.encoded (.array [])))]) =
      ((some (apiResponse (statusOK "rid-2" (.encoded (.array []))) (.encoded (.array []))), none),
        (stubClient liveAuth).withAuth (stamped freshAuth ((stubEnv 10).clock (0 + 2))),
        { transport := [], reads := 0 + 3,
          sent := [] ++ [projectsRequest Context.Background "tok0",
            acquireRequest Context.Background (stubClient liveAuth),
            projectsRequest Context.Background "tok1"] }) ∧
    (Context.Background = Context.Background →
      request (stubEnv 10) "GET" "https://api/sample/v1" "/projects" Body.nil
          (stubClient liveAuth)
          (World.init [.ok (unauthorized "rid-1"), .ok tokenAnswer,
            .ok (statusOK "rid-2" (.encoded (.array [])))]) =
        ((some (apiResponse (statusOK "rid-2" (.encoded (.array []))) (.encoded (.array []))),
            none),
          (stubClient liveAuth).withAuth (stamped freshAuth ((stubEnv 10).clock (0 + 2))),
          { transport := [], reads := 0 + 3,
            sent := [] ++ [projectsRequest Context.Background "tok0",
              acquireRequest Context.Background (stubClient liveAuth),
              projectsRequest Context.Background "tok1"] })) :=
  request_reauthenticates_once_on_401 (stubEnv 10) Context.Background "GET"
    "https://api/sample/v1" "/projects" Body.nil (stubClient liveAuth)
    (World.init [.ok (unauthorized "rid-1"), .ok tokenAnswer,
      .ok (statusOK "rid-2" (.encoded (.array [])))])
    (.encoded .null) (unauthorized "rid-1") tokenAnswer (statusOK "rid-2" (.encoded (.array [])))
    (.invalid "") (tokenBody "tok1" "ref1" 3600 7200) (.encoded (.array []))
    [.ok tokenAnswer, .ok (statusOK "rid-2" (.encoded (.array [])))]
    [.ok (statusOK "rid-2" (.encoded (.array [])))] [] freshAuth
    rfl rfl rfl (by decide) ⟨rfl, rfl⟩ rfl ⟨rfl, rfl⟩ (by decide) (by decide) ⟨rfl, rfl⟩
    (by decide)

/-- C2: the access token is not expired and both the first dispatch and the
retried dispatch are answered with status 401, the credential Acquire in
between succeeding. Then `requestWithContext` (and `request`, at the background
context) returns the second 401's `APIResponse` and `ErrorResponse` as the
dispatcher made them, and the transport has seen exactly the dispatch, one
Acquire and the retry: no third dispatch, no second Acquire. -/
theorem request_surfaces_second_401 {τ : Type} (env : Env τ) (ctx : Context)
    (method host url : String) (body : Body) (c : Client) (w : World τ) (data : RawMessage)
    (resp1 respA resp2 : Response) (b1 bA b2 : RawMessage) (s1 s2 s3 : τ)
    (auth : TokenResponse)
    (hm : jsonMarshal body = .ok data)
    (hc : env.checkRequest method (host ++ url) = none)
    (hcA : env.checkRequest "POST" (c.Options.AuthURL ++ "/token/password") = none)
    (hlive : c.Auth.AccessTokenExpiredAt (env.clock w.reads) = false)
    (h1 : Answers env (apiRequest ctx method (host ++ url) c.Auth.AccessToken data)
      w.transport resp1 b1 s1)
    (h401 : resp1.StatusCode = 401)
    (hA : Answers env (acquireRequest Context.Background c) s1 respA bA s2)
    (hAok : respA.StatusCode < 400)
    (hdec : jsonUnmarshalToken bA c.Auth = (auth, none))
    (h2 : Answers env (apiRequest ctx method (host ++ url) auth.AccessToken data) s2 resp2 b2 s3)
    (h2401 : resp2.StatusCode = 401) :
    requestWithContext env ctx method host url body c w =
      ((some (apiResponse resp2 b2),
          some (.errorResponse (apiError resp2 (host ++ url) (env.clock (w.reads + 3))))),
        c.withAuth (stamped auth (env.clock (w.reads + 2))),
        { transport := s3, reads := w.reads + 4,
          sent := w.sent ++ [apiRequest ctx method (host ++ url) c.Auth.AccessToken data,
            acquireRequest Context.Background c,
            apiRequest ctx method (host ++ url) auth.AccessToken data] }) ∧
    (ctx = Context.Background →
      request env method host url body c w =
        ((some (apiResponse resp2 b2),
            some (.errorResponse (apiError resp2 (host ++ url) (env.clock (w.reads + 3))))),
          c.withAuth (stamped auth (env.clock (w.reads + 2))),
          { transport := s3, reads := w.reads + 4,
            sent := w.sent ++ [apiRequest ctx method (host ++ url) c.Auth.AccessToken data,
              acquireRequest Context.Background c,
              apiRequest ctx method (host ++ url) auth.AccessToken data] })) := by
  have h400 : (400 : Int) ≤ resp1.StatusCode := by omega
  have h2400 : (400 : Int) ≤ resp2.StatusCode := by omega
  have e1 := sendRequestWithContext_status env ctx host method url c.Auth.AccessToken body
    w.tick data resp1 b1 s1 hm hc h1 h400
  have eA := requestAndParseToken_success env c
    ((w.tick.afterDo (apiRequest ctx method (host ++ url) c.Auth.AccessToken data) s1).tick)
    respA bA s2 auth hcA hA hAok hdec
  have e2 := sendRequestWithContext_status env ctx host method url auth.AccessToken body
    ((w.tick.afterDo (apiRequest ctx method (host ++ url) c.Auth.AccessToken data) s1).tick.tick.afterDo
      (acquireRequest Context.Background c) s2) data resp2 b2 s3 hm hc h2 h2400
  constructor
  · unfold requestWithContext validateTokensWithContext
    simp only [timeNow_eq, hlive, Bool.false_eq_true, ↓reduceIte, e1, errorsAs, apiError, h401,
      StatusUnauthorized, eA, Client.withAuth, stamped, e2]
    simp [World.afterDo, World.tick, h2401]
  · intro hctx
    subst hctx
    unfold request validateTokens
    simp only [timeNow_eq, hlive, Bool.false_eq_true, ↓reduceIte, sendRequest_eq, e1,
      assertErrorResponse, apiError, h401, StatusUnauthorized, eA, Client.withAuth, stamped, e2]
    simp [World.afterDo, World.tick, h2401]

/-- C2 at a stub transport answering 401, then fresh tokens, then 401 again. -/
theorem request_surfaces_second_401_witness :
    requestWithContext (stubEnv 10) Context.Background "GET" "https://api/sample/v1" "/projects"
        Body.nil (stubClient liveAuth)
        (World.init [.ok (unauthorized "rid-1"), .ok tokenAnswer, .ok (unauthorized "rid-2")]) =
      ((some (apiResponse (unauthorized "rid-2") (.invalid "")),
          some (.errorResponse (apiError (unauthorized "rid-2")
            ("https://api/sample/v1" ++ "/projects") ((stubEnv 10).clock (0 + 3))))),
        (stubClient liveAuth).withAuth (stamped freshAuth ((stubEnv 10).clock (0 + 2))),
        { transport := [], reads := 0 + 4,
          sent := [] ++ [projectsRequest Context.Background "tok0",
            acquireRequest Context.Background (stubClient liveAuth),
            projectsRequest Context.Background "tok1"] }) ∧
    (Context.Background = Context.Background →
      request (stubEnv 10) "GET" "https://api/sample/v1" "/projects" Body.nil
          (stubClient liveAuth)
          (World.init [.ok (unauthorized "rid-1"), .ok tokenAnswer, .ok (unauthorized "rid-2")]) =
        ((some (apiResponse (unauthorized "rid-2") (.invalid "")),
            some (.errorResponse (apiError (unauthorized "rid-2")
              ("https://api/sample/v1" ++ "/projects") ((stubEnv 10).clock (0 + 3))))),
          (stubClient liveAuth).withAuth (stamped freshAuth ((stubEnv 10).clock (0 + 2))),
          { transport := [], reads := 0 + 4,
            sent := [] ++ [projectsRequest Context.Background "tok0",
              acquireRequest Context.Background (stubClient liveAuth),
              projectsRequest Context.Background "tok1"] })) :=
  request_surfaces_second_401 (stubEnv 10) Context.Background "GET"
    "https://api/sample/v1" "/projects" Body.nil (stubClient liveAuth)
    (World.init [.ok (unauthorized "rid-1"), .ok tokenAnswer, .ok (unauthorized "rid-2")])
    (.encoded .null) (unauthorized "rid-1") tokenAnswer (unauthorized "rid-2")
    (.invalid "") (tokenBody "tok1" "ref1" 3600 7200) (.invalid "")
    [.ok tokenAnswer, .ok (unauthorized "rid-2")] [.ok (unauthorized "rid-2")] [] freshAuth
    rfl rfl rfl (by decide) ⟨rfl, rfl⟩ rfl ⟨rfl, rfl⟩ (by decide) (by decide) ⟨rfl, rfl⟩ rfl

/-- C3: the access token and the refresh token are both expired. Then the
guard sends nothing to `{AuthURL}/token/refresh`: the one transport call of
`validateTokens` (and of `validateTokensWithContext`) is the credential Acquire
`POST {AuthURL}/token/password`, whatever the transport answers; and when the
Acquire succeeds, `request` (and `requestWithContext`) next hands the transport
the API request built with the access token decoded from the Acquire
response. -/
theorem guard_skips_refresh_when_both_expired {τ : Type} (env : Env τ) (ctx : Context)
    (method host url : String) (body : Body) (c : Client) (w : World τ) (data : RawMessage)
    (hm : jsonMarshal body = .ok data)
    (hc : env.checkRequest method (host ++ url) = none)
    (hcA : env.checkRequest "POST" (c.Options.AuthURL ++ "/token/password") = none)
    (hacc : c.Auth.AccessTokenExpiredAt (env.clock w.reads) = true)
    (href : c.Auth.RefreshTokenExpiredAt (env.clock (w.reads + 1)) = true) :
    (validateTokens env c w).2.2.sent = w.sent ++ [acquireRequest Context.Background c] ∧
    (validateTokensWithContext env ctx c w).2.2.sent = w.sent ++ [acquireRequest ctx c] ∧
    (∀ (resp : Response) (b : RawMessage) (s : τ) (auth : TokenResponse),
      Answers env (acquireRequest Context.Background c) w.transport resp b s →
      resp.StatusCode < 400 → jsonUnmarshalToken b c.Auth = (auth, none) →
      ∃ rest, (request env method host url body c w).2.2.sent =
        w.sent ++ acquireRequest Context.Background c ::
          apiRequest Context.Background method (host ++ url) auth.AccessToken data :: rest) ∧
    (∀ (resp : Response) (b : RawMessage) (s : τ) (auth : TokenResponse),
      Answers env (acquireRequest ctx c) w.transport resp b s →
      resp.StatusCode < 400 → jsonUnmarshalToken b c.Auth = (auth, none) →
      ∃ rest, (requestWithContext env ctx method host url body c w).2.2.sent =
        w.sent ++ acquireRequest ctx c ::
          apiRequest ctx method (host ++ url) auth.AccessToken data :: rest) := by
  refine ⟨?_, ?_, ?_, ?_⟩
  · rw [validateTokens_both_expired env c w hacc href, requestAndParseToken_sent env c _ hcA]
    rfl
  · rw [validateTokensWithContext_both_expired env ctx c w hacc href,
      requestAndParseTokenWithContext_sent env ctx c _ hcA]
    rfl
  · intro resp b s auth ha hs hd
    have hv := validateTokens_both_expired env c w hacc href
    rw [requestAndParseToken_success env c w.tick.tick resp b s auth hcA ha hs hd] at hv
    obtain ⟨rest, hrest⟩ := request_sent_after_validate env method host url body c _ w _ data
      hm hc hv
    exact ⟨rest, by simp [hrest, Client.withAuth, stamped]⟩
  · intro resp b s auth ha hs hd
    have hv := validateTokensWithContext_both_expired env ctx c w hacc href
    rw [requestAndParseTokenWithContext_success env ctx c w.tick.tick resp b s auth hcA ha hs hd]
      at hv
    obtain ⟨rest, hrest⟩ := requestWithContext_sent_after_validate env ctx method host url body
      c _ w _ data hm hc hv
    exact ⟨rest, by simp [hrest, Client.withAuth, stamped]⟩

/-- C3 at a client that never acquired a Session. -/
theorem guard_skips_refresh_when_both_expired_witness :
    ((stubClient TokenResponse.zero).Auth.AccessTokenExpiredAt ((stubEnv 10).clock 0) = true ∧
      (stubClient TokenResponse.zero).Auth.RefreshTokenExpiredAt ((stubEnv 10).clock (0 + 1))
        = true) ∧
    ((validateTokens (stubEnv 10) (stubClient TokenResponse.zero)
        (World.init [.ok tokenAnswer, .ok (statusOK "rid-2" (.encoded (.array [])))])).2.2.sent =
      [] ++ [acquireRequest Context.Background (stubClient TokenResponse.zero)] ∧
    (validateTokensWithContext (stubEnv 10) (Context.user 7) (stubClient TokenResponse.zero)
        (World.init [.ok tokenAnswer, .ok (statusOK "rid-2" (.encoded (.array [])))])).2.2.sent =
      [] ++ [acquireRequest (Context.user 7) (stubClient TokenResponse.zero)] ∧
    (∀ (resp : Response) (b : RawMessage) (s : List (Except GoError Response))
        (auth : TokenResponse),
      Answers (stubEnv 10) (acquireRequest Context.Background (stubClient TokenResponse.zero))
        [.ok tokenAnswer, .ok (statusOK "rid-2" (.encoded (.array [])))] resp b s →
      resp.StatusCode < 400 →
      jsonUnmarshalToken b (stubClient TokenResponse.zero).Auth = (auth, none) →
      ∃ rest, (request (stubEnv 10) "GET" "https://api/sample/v1" "/projects" Body.nil
          (stubClient TokenResponse.zero)
          (World.init [.ok tokenAnswer,
            .ok (statusOK "rid-2" (.encoded (.array [])))])).2.2.sent =
        [] ++ acquireRequest Context.Background (stubClient TokenResponse.zero) ::
          apiRequest Context.Background "GET" ("https://api/sample/v1" ++ "/projects")
            auth.AccessToken (.encoded .null) :: rest) ∧
    (∀ (resp : Response) (b : RawMessage) (s : List (Except GoError Response))
        (auth : TokenResponse),
      Answers (stubEnv 10) (acquireRequest (Context.user 7) (stubClient TokenResponse.zero))
        [.ok tokenAnswer, .ok (statusOK "rid-2" (.encoded (.array [])))] resp b s →
      resp.StatusCode < 400 →
      jsonUnmarshalToken b (stubClient TokenResponse.zero).Auth = (auth, none) →
      ∃ rest, (requestWithContext (stubEnv 10) (Context.user 7) "GET" "https://api/sample/v1"
          "/projects" Body.nil (stubClient TokenResponse.zero)
          (World.init [.ok tokenAnswer,
            .ok (statusOK "rid-2" (.encoded (.array [])))])).2.2.sent =
        [] ++ acquireRequest (Context.user 7) (stubClient TokenResponse.zero) ::
          apiRequest (Context.user 7) "GET" ("https://api/sample/v1" ++ "/projects")
            auth.AccessToken (.encoded .null) :: rest)) :=
  ⟨⟨by decide, by decide⟩,
    guard_skips_refresh_when_both_expired (stubEnv 10) (Context.user 7) "GET"
      "https://api/sample/v1" "/projects" Body.nil (stubClient TokenResponse.zero)
      (World.init [.ok tokenAnswer, .ok (statusOK "rid-2" (.encoded (.array [])))])
      (.encoded .null) rfl rfl rfl (by decide) (by decide)⟩

/-- C4: the access token is not expired. Then the guard calls no auth endpoint:
the first transport call of `request` (and of `requestWithContext`) is the API
request carrying the current access token; and when the outcome of that
dispatch is anything other than an HTTP 401 (a success, another status of 400
or more, or a failure of the transport) it is the only transport call and the
client, its Session included, is unchanged. -/
theorem live_token_dispatches_directly {τ : Type} (env : Env τ) (ctx : Context)
    (method host url : String) (body : Body) (c : Client) (w : World τ) (data : RawMessage)
    (hm : jsonMarshal body = .ok data)
    (hc : env.checkRequest method (host ++ url) = none)
    (hlive : c.Auth.AccessTokenExpiredAt (env.clock w.reads) = false) :
    (∃ rest, (request env method host url body c w).2.2.sent =
      w.sent ++ apiRequest Context.Background method (host ++ url) c.Auth.AccessToken data
        :: rest) ∧
    (∃ rest, (requestWithContext env ctx method host url body c w).2.2.sent =
      w.sent ++ apiRequest ctx method (host ++ url) c.Auth.AccessToken data :: rest) ∧
    (∀ s2, OutcomeNot401 env
        (apiRequest Context.Background method (host ++ url) c.Auth.AccessToken data)
        w.transport s2 →
      (request env method host url body c w).2.1 = c ∧
      (request env method host url body c w).2.2.sent =
        w.sent ++ [apiRequest Context.Background method (host ++ url) c.Auth.AccessToken data]) ∧
    (∀ s2, OutcomeNot401 env (apiRequest ctx method (host ++ url) c.Auth.AccessToken data)
        w.transport s2 →
      (requestWithContext env ctx method host url body c w).2.1 = c ∧
      (requestWithContext env ctx method host url body c w).2.2.sent =
        w.sent ++ [apiRequest ctx method (host ++ url) c.Auth.AccessToken data]) := by
  have hv := validateTokens_live env c w hlive
  have hvc := validateTokensWithContext_live env ctx c w hlive
  refine ⟨?_, ?_, ?_, ?_⟩
  · exact request_sent_after_validate env method host url body c c w w.tick data hm hc hv
  · exact requestWithContext_sent_after_validate env ctx method host url body c c w w.tick data
      hm hc hvc
  · intro s2 ho
    exact request_not401 env method host url body c c w w.tick data s2 hm hc hv ho
  · intro s2 ho
    exact requestWithContext_not401 env ctx method host url body c c w w.tick data s2 hm hc hvc ho

/-- C4 at a stub transport answering `500`: one transport call, the client
unchanged, for `request` and for `requestWithContext`. -/
theorem live_token_dispatches_directly_witness :
    (stubClient liveAuth).Auth.AccessTokenExpiredAt ((stubEnv 10).clock 0) = false ∧
    ((request (stubEnv 10) "GET" "https://api/sample/v1" "/projects" Body.nil
        (stubClient liveAuth)
        (World.init [.ok (stubResponse 500 "500 Internal Server Error" "rid-1"
          (.invalid ""))])).2.1 = stubClient liveAuth ∧
      (request (stubEnv 10) "GET" "https://api/sample/v1" "/projects" Body.nil
        (stubClient liveAuth)
        (World.init [.ok (stubResponse 500 "500 Internal Server Error" "rid-1"
          (.invalid ""))])).2.2.sent = [] ++ [projectsRequest Context.Background "tok0"]) ∧
    ((requestWithContext (stubEnv 10) (Context.user 7) "GET" "https://api/sample/v1" "/projects"
        Body.nil (stubClient liveAuth)
        (World.init [.ok (stubResponse 500 "500 Internal Server Error" "rid-1"
          (.invalid ""))])).2.1 = stubClient liveAuth ∧
      (requestWithContext (stubEnv 10) (Context.user 7) "GET" "https://api/sample/v1" "/projects"
        Body.nil (stubClient liveAuth)
        (World.init [.ok (stubResponse 500 "500 Internal Server Error" "rid-1"
          (.invalid ""))])).2.2.sent = [] ++ [projectsRequest (Context.user 7) "tok0"]) :=
  ⟨by decide,
    (live_token_dispatches_directly (stubEnv 10) (Context.user 7) "GET" "https://api/sample/v1"
      "/projects" Body.nil (stubClient liveAuth)
      (World.init [.ok (stubResponse 500 "500 Internal Server Error" "rid-1" (.invalid ""))])
      (.encoded .null) rfl rfl (by decide)).2.2.1 []
      (Or.inl ⟨stubResponse 500 "500 Internal Server Error" "rid-1" (.invalid ""), .invalid "",
        ⟨rfl, rfl⟩, by decide⟩),
    (live_token_dispatches_directly (stubEnv 10) (Context.user 7) "GET" "https://api/sample/v1"
      "/projects" Body.nil (stubClient liveAuth)
      (World.init [.ok (stubResponse 500 "500 Internal Server Error" "rid-1" (.invalid ""))])
      (.encoded .null) rfl rfl (by decide)).2.2.2 []
      (Or.inl ⟨stubResponse 500 "500 Internal Server Error" "rid-1" (.invalid ""), .invalid "",
        ⟨rfl, rfl⟩, by decide⟩)⟩

/-- C5: the access token is expired and the refresh token is still valid. Then
the first transport call of the guard is the Refresh, one
`POST {AuthURL}/token/refresh` whose payload carries the client id and the
current refresh token and whose headers hold no Authorization; and when that
Refresh succeeds the guard sends nothing else (no `POST /token/password`) and
the API request that follows is built with the access token decoded from the
Refresh response. For `request` and for `requestWithContext`. -/
theorem guard_refreshes_expired_access_token {τ : Type} (env : Env τ) (ctx : Context)
    (method host url : String) (body : Body) (c : Client) (w : World τ) (data : RawMessage)
    (hm : jsonMarshal body = .ok data)
    (hc : env.checkRequest method (host ++ url) = none)
    (hcR : env.checkRequest "POST" (c.Options.AuthURL ++ "/token/refresh") = none)
    (hacc : c.Auth.AccessTokenExpiredAt (env.clock w.reads) = true)
    (href : c.Auth.RefreshTokenExpiredAt (env.clock (w.reads + 1)) = false) :
    ((refreshRequest ctx c).Method = "POST" ∧
      (refreshRequest ctx c).URL = c.Options.AuthURL ++ "/token/refresh" ∧
      (refreshRequest ctx c).Header =
        [("Accept", "application/json"), ("Content-Type", "application/json")] ∧
      (refreshRequest ctx c).Body = some (.encoded (.object
        [("clientId", .string c.Credentials.ClientID),
          ("refreshToken", .string c.Auth.RefreshToken)]))) ∧
    (∃ rest, (validateTokens env c w).2.2.sent =
      w.sent ++ refreshRequest Context.Background c :: rest) ∧
    (∃ rest, (validateTokensWithContext env ctx c w).2.2.sent =
      w.sent ++ refreshRequest ctx c :: rest) ∧
    (∀ (resp : Response) (b : RawMessage) (s : τ) (auth : TokenResponse),
      Answers env (refreshRequest Context.Background c) w.transport resp b s →
      resp.StatusCode < 400 → jsonUnmarshalToken b c.Auth = (auth, none) →
      (validateTokens env c w).2.2.sent = w.sent ++ [refreshRequest Context.Background c] ∧
      ∃ rest, (request env method host url body c w).2.2.sent =
        w.sent ++ refreshRequest Context.Background c ::
          apiRequest Context.Background method (host ++ url) auth.AccessToken data :: rest) ∧
    (∀ (resp : Response) (b : RawMessage) (s : τ) (auth : TokenResponse),
      Answers env (refreshRequest ctx c) w.transport resp b s →
      resp.StatusCode < 400 → jsonUnmarshalToken b c.Auth = (auth, none) →
      (validateTokensWithContext env ctx c w).2.2.sent = w.sent ++ [refreshRequest ctx c] ∧
      ∃ rest, (requestWithContext env ctx method host url body c w).2.2.sent =
        w.sent ++ refreshRequest ctx c ::
          apiRequest ctx method (host ++ url) auth.AccessToken data :: rest) := by
  refine ⟨⟨rfl, rfl, by simp only [refreshRequest, apiRequest]; decide, rfl⟩, ?_, ?_, ?_, ?_⟩
  · obtain ⟨l, hl, _⟩ := validateTokens_sent_of_expired env c w hacc
    rw [RefreshTokenWithContext_sent env Context.Background c w.tick href hcR] at hl
    exact ⟨l, by simp [hl]⟩
  · obtain ⟨l, hl, _⟩ := validateTokensWithContext_sent_of_expired env ctx c w hacc
    rw [RefreshTokenWithContext_sent env ctx c w.tick href hcR] at hl
    exact ⟨l, by simp [hl]⟩
  · intro resp b s auth ha hs hd
    have hv := validateTokens_refreshed env c _ w _ hacc
      (RefreshTokenWithContext_success env Context.Background c w.tick resp b s auth href hcR ha
        hs hd)
    obtain ⟨rest, hrest⟩ := request_sent_after_validate env method host url body c _ w _ data
      hm hc hv
    exact ⟨by rw [hv]; rfl, rest, by simp [hrest, Client.withAuth, stamped]⟩
  · intro resp b s auth ha hs hd
    have hv := validateTokensWithContext_refreshed env ctx c _ w _ hacc
      (RefreshTokenWithContext_success env ctx c w.tick resp b s auth href hcR ha hs hd)
    obtain ⟨rest, hrest⟩ := requestWithContext_sent_after_validate env ctx method host url body
      c _ w _ data hm hc hv
    exact ⟨by rw [hv]; rfl, rest, by simp [hrest, Client.withAuth, stamped]⟩

/-- C5 at a client whose access token lapsed at time 5, read at time 10, and a
stub transport answering the Refresh with fresh tokens. -/
theorem guard_refreshes_expired_access_token_witness :
    ((stubClient staleAuth).Auth.AccessTokenExpiredAt ((stubEnv 10).clock 0) = true ∧
      (stubClient staleAuth).Auth.RefreshTokenExpiredAt ((stubEnv 10).clock (0 + 1)) = false) ∧
    ((validateTokens (stubEnv 10) (stubClient staleAuth)
        (World.init [.ok tokenAnswer, .ok (statusOK "rid-2" (.encoded (.array [])))])).2.2.sent =
      [] ++ [refreshRequest Context.Background (stubClient staleAuth)] ∧
    ∃ rest, (request (stubEnv 10) "GET" "https://api/sample/v1" "/projects" Body.nil
        (stubClient staleAuth)
        (World.init [.ok tokenAnswer, .ok (statusOK "rid-2" (.encoded (.array [])))])).2.2.sent =
      [] ++ refreshRequest Context.Background (stubClient staleAuth) ::
        apiRequest Context.Background "GET" ("https://api/sample/v1" ++ "/projects")
          freshAuth.AccessToken (.encoded .null) :: rest) :=
  ⟨⟨by decide, by decide⟩,
    (guard_refreshes_expired_access_token (stubEnv 10) Context.Background "GET"
      "https://api/sample/v1" "/projects" Body.nil (stubClient staleAuth)
      (World.init [.ok tokenAnswer, .ok (statusOK "rid-2" (.encoded (.array [])))])
      (.encoded .null) rfl rfl rfl (by decide) (by decide)).2.2.2.1 tokenAnswer
      (tokenBody "tok1" "ref1" 3600 7200) [.ok (statusOK "rid-2" (.encoded (.array [])))]
      freshAuth ⟨rfl, rfl⟩ (by decide) (by decide)⟩

/-! ## Refresh -/

/-- C7: when `RefreshTokenExpired()` is true, `RefreshToken` and
`RefreshTokenWithContext` return `ErrSessionExpired` at once: the transport is
not called (nothing sent, its state untouched) and the client, its Session
included, is unchanged. When it is false the expiry check lets the call through:
`refreshToken` calls the send function it was given with the refresh request,
and, the request to `{AuthURL}/token/refresh` being one that can be built, the
refresh request is handed to the transport. -/
theorem refresh_fails_fast_when_expired {τ : Type} (env : Env τ) (ctx : Context) (c : Client)
    (w : World τ) :
    (c.Auth.RefreshTokenExpiredAt (env.clock w.reads) = true →
      (RefreshToken env c w).1 = some GoError.ErrSessionExpired ∧
      (RefreshToken env c w).2.1 = c ∧
      (RefreshToken env c w).2.2.sent = w.sent ∧
      (RefreshToken env c w).2.2.transport = w.transport ∧
      (RefreshTokenWithContext env ctx c w).1 = some GoError.ErrSessionExpired ∧
      (RefreshTokenWithContext env ctx c w).2.1 = c ∧
      (RefreshTokenWithContext env ctx c w).2.2.sent = w.sent ∧
      (RefreshTokenWithContext env ctx c w).2.2.transport = w.transport) ∧
    (c.Auth.RefreshTokenExpiredAt (env.clock w.reads) = false →
      (∀ send : String → Body → World τ → Result × World τ,
        (refreshToken env send c w).2.2.sent =
          (send c.Options.AuthURL
            (Body.refreshReq c.Credentials.ClientID c.Auth.RefreshToken) w.tick).2.sent) ∧
      (env.checkRequest "POST" (c.Options.AuthURL ++ "/token/refresh") = none →
        (RefreshToken env c w).2.2.sent = w.sent ++ [refreshRequest Context.Background c] ∧
        (RefreshTokenWithContext env ctx c w).2.2.sent = w.sent ++ [refreshRequest ctx c])) := by
  constructor
  · intro he
    rw [RefreshToken_eq, RefreshTokenWithContext_expired env Context.Background c w he,
      RefreshTokenWithContext_expired env ctx c w he]
    exact ⟨rfl, rfl, rfl, rfl, rfl, rfl, rfl, rfl⟩
  · intro he
    refine ⟨fun send => refreshToken_calls_send env send c w he, fun hc => ⟨?_, ?_⟩⟩
    · rw [RefreshToken_eq]
      exact RefreshTokenWithContext_sent env Context.Background c w he hc
    · exact RefreshTokenWithContext_sent env ctx c w he hc

/-- C7 at a client that never acquired a Session (expired) and at a client with
a live refresh token whose Refresh the stub transport refuses. -/
theorem refresh_fails_fast_when_expired_witness :
    ((RefreshToken (stubEnv 10) (stubClient TokenResponse.zero)
        (World.init [.ok tokenAnswer])).1 = some GoError.ErrSessionExpired ∧
      (RefreshToken (stubEnv 10) (stubClient TokenResponse.zero)
        (World.init [.ok tokenAnswer])).2.1 = stubClient TokenResponse.zero ∧
      (RefreshToken (stubEnv 10) (stubClient TokenResponse.zero)
        (World.init [.ok tokenAnswer])).2.2.sent = [] ∧
      (RefreshToken (stubEnv 10) (stubClient TokenResponse.zero)
        (World.init [.ok tokenAnswer])).2.2.transport = [.ok tokenAnswer] ∧
      (RefreshTokenWithContext (stubEnv 10) (Context.user 7) (stubClient TokenResponse.zero)
        (World.init [.ok tokenAnswer])).1 = some GoError.ErrSessionExpired ∧
      (RefreshTokenWithContext (stubEnv 10) (Context.user 7) (stubClient TokenResponse.zero)
        (World.init [.ok tokenAnswer])).2.1 = stubClient TokenResponse.zero ∧
      (RefreshTokenWithContext (stubEnv 10) (Context.user 7) (stubClient TokenResponse.zero)
        (World.init [.ok tokenAnswer])).2.2.sent = [] ∧
      (RefreshTokenWithContext (stubEnv 10) (Context.user 7) (stubClient TokenResponse.zero)
        (World.init [.ok tokenAnswer])).2.2.transport = [.ok tokenAnswer]) ∧
    ((RefreshToken (stubEnv 10) (stubClient staleAuth)
        (World.init [.error (.other "connection refused")])).2.2.sent =
      [] ++ [refreshRequest Context.Background (stubClient staleAuth)] ∧
      (RefreshTokenWithContext (stubEnv 10) (Context.user 7) (stubClient staleAuth)
        (World.init [.error (.other "connection refused")])).2.2.sent =
      [] ++ [refreshRequest (Context.user 7) (stubClient staleAuth)]) :=
  ⟨(refresh_fails_fast_when_expired (stubEnv 10) (Context.user 7) (stubClient TokenResponse.zero)
      (World.init [.ok tokenAnswer])).1 (by decide),
    ((refresh_fails_fast_when_expired (stubEnv 10) (Context.user 7) (stubClient staleAuth)
      (World.init [.error (.other "connection refused")])).2 (by decide)).2 rfl⟩

/-! ## Token operations and the Session -/

/-- C9, the claim as stated fails: two clients that differ only in the refresh
token of their prior Session run the same successful credential Acquire, whose
response body supplies the access token alone; the resulting Sessions differ,
each keeping its prior refresh token. -/
theorem acquire_keeps_omitted_fields :
    (stubClient liveAuth).Credentials = (stubClient otherAuth).Credentials ∧
    (stubClient liveAuth).Options = (stubClient otherAuth).Options ∧
    (requestAndParseToken (stubEnv 10) (stubClient liveAuth)
      (World.init [.ok (statusOK "rid-auth" accessOnlyBody)])).1 = none ∧
    (requestAndParseToken (stubEnv 10) (stubClient otherAuth)
      (World.init [.ok (statusOK "rid-auth" accessOnlyBody)])).1 = none ∧
    (requestAndParseToken (stubEnv 10) (stubClient liveAuth)
      (World.init [.ok (statusOK "rid-auth" accessOnlyBody)])).2.1.Auth ≠
    (requestAndParseToken (stubEnv 10) (stubClient otherAuth)
      (World.init [.ok (statusOK "rid-auth" accessOnlyBody)])).2.1.Auth ∧
    (requestAndParseToken (stubEnv 10) (stubClient liveAuth)
      (World.init [.ok (statusOK "rid-auth" accessOnlyBody)])).2.1.Auth.RefreshToken = "ref0" ∧
    (requestAndParseToken (stubEnv 10) (stubClient otherAuth)
      (World.init [.ok (statusOK "rid-auth" accessOnlyBody)])).2.1.Auth.RefreshToken
        = "ref-other" := by
  decide

/-- C9, amended: a successful credential Acquire or Refresh sets `Acquired` to
the acquisition time together with the decoded fields, and every token and
expiry field is the one the response body supplies or, where the body does not
supply it, the prior one (the Session is the body's patch laid over the prior
Session, stamped); so when the body supplies all four fields the resulting
Session does not depend on the prior Session. -/
theorem token_success_patches_session {τ : Type} (env : Env τ) (ctx : Context) (c : Client)
    (w : World τ) :
    ((requestAndParseToken env c w).1 = none →
      ∃ ar, (acquireExchange env Context.Background c w.tick).1 = (some ar, none) ∧
        (requestAndParseToken env c w).2.1 =
          c.withAuth (stamped ((tokenPatch ar.Body).apply c.Auth) (env.clock w.reads))) ∧
    ((requestAndParseTokenWithContext env ctx c w).1 = none →
      ∃ ar, (acquireExchange env ctx c w).1 = (some ar, none) ∧
        (requestAndParseTokenWithContext env ctx c w).2.1 =
          c.withAuth (stamped ((tokenPatch ar.Body).apply c.Auth)
            (env.clock (acquireExchange env ctx c w).2.reads))) ∧
    ((RefreshToken env c w).1 = none →
      ∃ ar, (refreshExchange env Context.Background c w.tick).1 = (some ar, none) ∧
        (RefreshToken env c w).2.1 =
          c.withAuth (stamped ((tokenPatch ar.Body).apply c.Auth)
            (env.clock (refreshExchange env Context.Background c w.tick).2.reads))) ∧
    ((RefreshTokenWithContext env ctx c w).1 = none →
      ∃ ar, (refreshExchange env ctx c w.tick).1 = (some ar, none) ∧
        (RefreshTokenWithContext env ctx c w).2.1 =
          c.withAuth (stamped ((tokenPatch ar.Body).apply c.Auth)
            (env.clock (refreshExchange env ctx c w.tick).2.reads))) ∧
    (∀ (b : RawMessage) (old1 old2 : TokenResponse) (t : Nat), (tokenPatch b).full →
      stamped ((tokenPatch b).apply old1) t = stamped ((tokenPatch b).apply old2) t) := by
  refine ⟨requestAndParseToken_patch env c w, requestAndParseTokenWithContext_patch env ctx c w,
    ?_, RefreshTokenWithContext_patch env ctx c w, ?_⟩
  · rw [RefreshToken_eq]
    exact RefreshTokenWithContext_patch env Context.Background c w
  · intro b old1 old2 t h
    exact TokenPatch.apply_full (tokenPatch b) old1 old2 t h

/-- C9, amended, at the stub Acquire that supplies the access token alone, and
at a body that supplies all four fields. -/
theorem token_success_patches_session_witness :
    (∃ ar, (acquireExchange (stubEnv 10) Context.Background (stubClient liveAuth)
          (World.init [.ok (statusOK "rid-auth" accessOnlyBody)]).tick).1 = (some ar, none) ∧
        (requestAndParseToken (stubEnv 10) (stubClient liveAuth)
          (World.init [.ok (statusOK "rid-auth" accessOnlyBody)])).2.1 =
          (stubClient liveAuth).withAuth (stamped
            ((tokenPatch ar.Body).apply (stubClient liveAuth).Auth) ((stubEnv 10).clock 0))) ∧
    stamped ((tokenPatch (tokenBody "tok1" "ref1" 3600 7200)).apply liveAuth) 12 =
      stamped ((tokenPatch (tokenBody "tok1" "ref1" 3600 7200)).apply otherAuth) 12 :=
  ⟨(token_success_patches_session (stubEnv 10) Context.Background (stubClient liveAuth)
      (World.init [.ok (statusOK "rid-auth" accessOnlyBody)])).1 (by decide),
    (token_success_patches_session (stubEnv 10) Context.Background (stubClient liveAuth)
      (World.init [.ok (statusOK "rid-auth" accessOnlyBody)])).2.2.2.2
      (tokenBody "tok1" "ref1" 3600 7200) liveAuth otherAuth 12 ⟨rfl, rfl, rfl, rfl⟩⟩

/-- C8, the claim as stated fails: the credential Acquire gets a success
response whose body has a well-typed `accessToken` and a number for
`refreshToken`; `requestAndParseToken` (and `GetAuth`) returns the decode error,
and the access token of the Session has been overwritten. -/
theorem acquire_decode_error_overwrites_token :
    (requestAndParseToken (stubEnv 10) (stubClient liveAuth)
      (World.init [.ok (statusOK "rid-auth" mistypedBody)])).1
        = some (unmarshalTypeError TokenField.RefreshToken) ∧
    (GetAuth (stubEnv 10) (stubClient liveAuth)
      (World.init [.ok (statusOK "rid-auth" mistypedBody)])).1.2
        = some (unmarshalTypeError TokenField.RefreshToken) ∧
    (stubClient liveAuth).Auth.AccessToken = "tok0" ∧
    (requestAndParseToken (stubEnv 10) (stubClient liveAuth)
      (World.init [.ok (statusOK "rid-auth" mistypedBody)])).2.1.Auth.AccessToken = "tok1" ∧
    (requestAndParseToken (stubEnv 10) (stubClient liveAuth)
      (World.init [.ok (statusOK "rid-auth" mistypedBody)])).2.1.Auth
        ≠ (stubClient liveAuth).Auth ∧
    (GetAuth (stubEnv 10) (stubClient liveAuth)
      (World.init [.ok (statusOK "rid-auth" mistypedBody)])).2.1.Auth
        ≠ (stubClient liveAuth).Auth := by
  decide

/-- C8, amended: whenever a token operation (`requestAndParseToken`, `GetAuth`,
`RefreshToken` and their context variants) returns an error, the credentials,
the options and `Acquired` are those before the call, and the whole client is
the one before the call unless the error is the decode error of a success
response whose body is a JSON object: a transport failure, a status of 400 or
more, an expired refresh token, or a body that is no JSON object leave the
Session untouched, and in the remaining case the Session is the prior one with
the fields the body supplies stored. -/
theorem token_error_keeps_session {τ : Type} (env : Env τ) (ctx : Context) (c : Client)
    (w : World τ) :
    ((requestAndParseToken env c w).1 ≠ none →
      SessionKept c (requestAndParseToken env c w).2.1
        (acquireExchange env Context.Background c w.tick).1) ∧
    ((GetAuth env c w).1.2 ≠ none →
      SessionKept c (GetAuth env c w).2.1 (acquireExchange env Context.Background c w.tick).1) ∧
    ((requestAndParseTokenWithContext env ctx c w).1 ≠ none →
      SessionKept c (requestAndParseTokenWithContext env ctx c w).2.1
        (acquireExchange env ctx c w).1) ∧
    ((GetAuthWithContext env ctx c w).1.2 ≠ none →
      SessionKept c (GetAuthWithContext env ctx c w).2.1 (acquireExchange env ctx c w).1) ∧
    (c.Auth.RefreshTokenExpiredAt (env.clock w.reads) = true →
      (RefreshToken env c w).2.1 = c ∧ (RefreshTokenWithContext env ctx c w).2.1 = c) ∧
    (c.Auth.RefreshTokenExpiredAt (env.clock w.reads) = false →
      ((RefreshToken env c w).1 ≠ none →
        SessionKept c (RefreshToken env c w).2.1
          (refreshExchange env Context.Background c w.tick).1) ∧
      ((RefreshTokenWithContext env ctx c w).1 ≠ none →
        SessionKept c (RefreshTokenWithContext env ctx c w).2.1
          (refreshExchange env ctx c w.tick).1)) := by
  refine ⟨requestAndParseToken_error env c w, ?_, requestAndParseTokenWithContext_error env ctx c w,
    ?_, ?_, ?_⟩
  · intro h
    rw [(GetAuth_client env c w).1]
    exact requestAndParseToken_error env c w ((GetAuth_client env c w).2 h)
  · intro h
    rw [(GetAuthWithContext_client env ctx c w).1]
    exact requestAndParseTokenWithContext_error env ctx c w
      ((GetAuthWithContext_client env ctx c w).2 h)
  · intro he
    rw [RefreshToken_eq, RefreshTokenWithContext_expired env Context.Background c w he,
      RefreshTokenWithContext_expired env ctx c w he]
    exact ⟨rfl, rfl⟩
  · intro he
    refine ⟨?_, RefreshTokenWithContext_error env ctx c w he⟩
    rw [RefreshToken_eq]
    exact RefreshTokenWithContext_error env Context.Background c w he

/-- C8, amended, at a credential Acquire the stub transport answers with `503`:
the client is unchanged. -/
theorem token_error_keeps_session_witness :
    (requestAndParseToken (stubEnv 10) (stubClient liveAuth)
      (World.init [.ok (stubResponse 503 "503 Service Unavailable" "rid-auth"
        (.invalid ""))])).2.1 = stubClient liveAuth :=
  ((token_error_keeps_session (stubEnv 10) Context.Background (stubClient liveAuth)
    (World.init [.ok (stubResponse 503 "503 Service Unavailable" "rid-auth"
      (.invalid ""))])).1 (by decide)).2.2.2.1
    (by
      rintro ⟨ar, members, h, _⟩
      have h3 : (acquireExchange (stubEnv 10) Context.Background (stubClient liveAuth)
          (World.init [.ok (stubResponse 503 "503 Service Unavailable" "rid-auth"
            (.invalid ""))]).tick).1.2 ≠ none := by decide
      exact h3 (by rw [h]))

/-! ## The guard when both the Refresh and the Acquire fail -/

/-- C6, the claim as stated fails: the access token is expired, the Refresh
gets a success response whose body has a well-typed `accessToken` and a number
for `refreshToken` (a decode error), and the fallback Acquire fails in the
transport. `request` returns the Acquire's error with a nil response after two
transport calls, but the access token of the Session has been overwritten. -/
theorem failed_guard_overwrites_token :
    (stubClient staleAuth).Auth.AccessTokenExpiredAt ((stubEnv 10).clock 0) = true ∧
    (request (stubEnv 10) "GET" "https://api/sample/v1" "/projects" Body.nil
      (stubClient staleAuth)
      (World.init [.ok (statusOK "rid-auth" mistypedBody),
        .error (.other "connection refused")])).1.1.isNone = true ∧
    (request (stubEnv 10) "GET" "https://api/sample/v1" "/projects" Body.nil
      (stubClient staleAuth)
      (World.init [.ok (statusOK "rid-auth" mistypedBody),
        .error (.other "connection refused")])).1.2 = some (.other "connection refused") ∧
    (request (stubEnv 10) "GET" "https://api/sample/v1" "/projects" Body.nil
      (stubClient staleAuth)
      (World.init [.ok (statusOK "rid-auth" mistypedBody),
        .error (.other "connection refused")])).2.2.sent.length = 2 ∧
    (request (stubEnv 10) "GET" "https://api/sample/v1" "/projects" Body.nil
      (stubClient staleAuth)
      (World.init [.ok (statusOK "rid-auth" mistypedBody),
        .error (.other "connection refused")])).2.1.Auth.AccessToken = "tok1" ∧
    (request (stubEnv 10) "GET" "https://api/sample/v1" "/projects" Body.nil
      (stubClient staleAuth)
      (World.init [.ok (statusOK "rid-auth" mistypedBody),
        .error (.other "connection refused")])).2.1.Auth ≠ (stubClient staleAuth).Auth := by
  decide

/-- C6, amended: the access token is expired, the Refresh fails and the
fallback credential Acquire fails with `e2`. Then `request` (and
`requestWithContext`) returns `e2` with a nil `APIResponse` and stops where the
Acquire stopped: the transport has seen at most the Refresh and then the one
Acquire (the Acquire itself whenever its request can be built) and never the
API request; credentials, options and `Acquired` are those before the call;
and the client equals the client before the call provided neither failure is
the decode error of a success response whose body is a JSON object. -/
theorem failed_guard_aborts_request {τ : Type} (env : Env τ) (ctx : Context)
    (method host url : String) (body : Body) (c : Client) (w : World τ)
    (hacc : c.Auth.AccessTokenExpiredAt (env.clock w.reads) = true) :
    (∀ (r a : Option GoError × Client × World τ) (e2 : GoError),
      RefreshToken env c w.tick = r → requestAndParseToken env r.2.1 r.2.2 = a →
      r.1 ≠ none → a.1 = some e2 →
      request env method host url body c w = ((none, some e2), a.2) ∧
      (∃ l1 l2, a.2.2.sent = w.sent ++ l1 ++ l2 ∧
        (l1 = [] ∨ l1 = [refreshRequest Context.Background c]) ∧
        (l2 = [] ∨ l2 = [acquireRequest Context.Background c]) ∧
        (env.checkRequest "POST" (c.Options.AuthURL ++ "/token/password") = none →
          l2 = [acquireRequest Context.Background c])) ∧
      a.2.1.Credentials = c.Credentials ∧ a.2.1.Options = c.Options ∧
      a.2.1.Auth.Acquired = c.Auth.Acquired ∧
      ((c.Auth.RefreshTokenExpiredAt (env.clock (w.reads + 1)) = true ∨
          ¬ ObjectBody (refreshExchange env Context.Background c w.tick.tick).1) →
        ¬ ObjectBody (acquireExchange env Context.Background c r.2.2.tick).1 →
        a.2.1 = c)) ∧
    (∀ (r a : Option GoError × Client × World τ) (e2 : GoError),
      RefreshTokenWithContext env ctx c w.tick = r →
      requestAndParseTokenWithContext env ctx r.2.1 r.2.2 = a →
      r.1 ≠ none → a.1 = some e2 →
      requestWithContext env ctx method host url body c w = ((none, some e2), a.2) ∧
      (∃ l1 l2, a.2.2.sent = w.sent ++ l1 ++ l2 ∧
        (l1 = [] ∨ l1 = [refreshRequest ctx c]) ∧
        (l2 = [] ∨ l2 = [acquireRequest ctx c]) ∧
        (env.checkRequest "POST" (c.Options.AuthURL ++ "/token/password") = none →
          l2 = [acquireRequest ctx c])) ∧
      a.2.1.Credentials = c.Credentials ∧ a.2.1.Options = c.Options ∧
      a.2.1.Auth.Acquired = c.Auth.Acquired ∧
      ((c.Auth.RefreshTokenExpiredAt (env.clock (w.reads + 1)) = true ∨
          ¬ ObjectBody (refreshExchange env ctx c w.tick.tick).1) →
        ¬ ObjectBody (acquireExchange env ctx c r.2.2).1 →
        a.2.1 = c)) := by
  constructor
  · intro r a e2 hr ha hr1 ha1
    subst hr
    subst ha
    rw [RefreshToken_eq] at hr1 ha1 ⊢
    obtain ⟨k1, k2, k3, k4⟩ := RefreshTokenWithContext_failed_client env Context.Background c
      w.tick hr1
    have hne : (requestAndParseToken env
        (RefreshTokenWithContext env Context.Background c w.tick).2.1
        (RefreshTokenWithContext env Context.Background c w.tick).2.2).1 ≠ none := by
      rw [ha1]
      simp
    obtain ⟨j1, j2, j3, j4, _⟩ := requestAndParseToken_error env _ _ hne
    rw [acquireExchange_congr env Context.Background c _ _ k1 k2] at j4
    refine ⟨?_, ?_, j1.trans k1, j2.trans k2, j3.trans k3, ?_⟩
    · unfold request
      rw [validateTokens_both_fail env c w e2 hacc (by rw [RefreshToken_eq]; exact hr1)
        (by rw [RefreshToken_eq]; exact ha1)]
      simp only [RefreshToken_eq]
    · apply failed_guard_sent env Context.Background c _ w _ _ k1 k2
        (RefreshTokenWithContext_sent_cases env Context.Background c w.tick)
      rw [requestAndParseToken_world]
      exact acquireExchange_sent env Context.Background _ _
    · intro h1 h2
      rw [j4 h2]
      exact k4 h1
  · intro r a e2 hr ha hr1 ha1
    subst hr
    subst ha
    obtain ⟨k1, k2, k3, k4⟩ := RefreshTokenWithContext_failed_client env ctx c w.tick hr1
    have hne : (requestAndParseTokenWithContext env ctx
        (RefreshTokenWithContext env ctx c w.tick).2.1
        (RefreshTokenWithContext env ctx c w.tick).2.2).1 ≠ none := by
      rw [ha1]
      simp
    obtain ⟨j1, j2, j3, j4, _⟩ := requestAndParseTokenWithContext_error env ctx _ _ hne
    rw [acquireExchange_congr env ctx c _ _ k1 k2] at j4
    refine ⟨?_, ?_, j1.trans k1, j2.trans k2, j3.trans k3, ?_⟩
    · unfold requestWithContext
      rw [validateTokensWithContext_both_fail env ctx c w e2 hacc hr1 ha1]
    · apply failed_guard_sent env ctx c _ w _ _ k1 k2
        (RefreshTokenWithContext_sent_cases env ctx c w.tick)
      rw [requestAndParseTokenWithContext_world_sent]
      exact acquireExchange_sent env ctx _ _
    · intro h1 h2
      rw [j4 h2]
      exact k4 h1

/-- C6, amended, at a client with a lapsed access token and a stub transport
that answers the Refresh with `503` and refuses the Acquire. -/
theorem failed_guard_aborts_request_witness :
    (stubClient staleAuth).Auth.AccessTokenExpiredAt ((stubEnv 10).clock 0) = true ∧
    request (stubEnv 10) "GET" "https://api/sample/v1" "/projects" Body.nil
        (stubClient staleAuth)
        (World.init [.ok (stubResponse 503 "503 Service Unavailable" "rid-auth" (.invalid "")),
          .error (.other "connection refused")]) =
      ((none, some (.other "connection refused")),
        (requestAndParseToken (stubEnv 10)
          (RefreshToken (stubEnv 10) (stubClient staleAuth)
            (World.init [.ok (stubResponse 503 "503 Service Unavailable" "rid-auth"
              (.invalid "")), .error (.other "connection refused")]).tick).2.1
          (RefreshToken (stubEnv 10) (stubClient staleAuth)
            (World.init [.ok (stubResponse 503 "503 Service Unavailable" "rid-auth"
              (.invalid "")), .error (.other "connection refused")]).tick).2.2).2) :=
  ⟨by decide,
    ((failed_guard_aborts_request (stubEnv 10) Context.Background "GET" "https://api/sample/v1"
      "/projects" Body.nil (stubClient staleAuth)
      (World.init [.ok (stubResponse 503 "503 Service Unavailable" "rid-auth" (.invalid "")),
        .error (.other "connection refused")]) (by decide)).1 _ _ (.other "connection refused")
      rfl rfl (by decide) (by decide)).1⟩

/-! ## The dispatcher: serialization, headers, network failures -/

/-- C11: for every body whose JSON serialization fails, `sendRequest`,
`sendRequestWithContext` and `makeRequest` with any request constructor return a
nil `APIResponse` and the serialization error, and the world is the one before
the call: the transport's `Do` was not called (nothing sent, its state
untouched). -/
theorem marshal_failure_never_reaches_transport {τ : Type} (env : Env τ) (ctx : Context)
    (host method url accessToken : String) (body : Body) (w : World τ) (err : GoError)
    (hm : jsonMarshal body = .error err) :
    sendRequest env host method url accessToken body w = ((none, some err), w) ∧
    sendRequestWithContext env ctx host method url accessToken body w = ((none, some err), w) ∧
    (∀ (path : String) (newRequest : Option RawMessage → Except GoError Request),
      makeRequest env path newRequest accessToken body w = ((none, some err), w)) := by
  refine ⟨?_, ?_, fun path newRequest => makeRequest_marshal_error env path newRequest
    accessToken body w err hm⟩
  · exact makeRequest_marshal_error env _ _ accessToken body w err hm
  · exact makeRequest_marshal_error env _ _ accessToken body w err hm

/-- C11 at a body `json.Marshal` rejects. -/
theorem marshal_failure_never_reaches_transport_witness :
    sendRequest (stubEnv 10) "https://api/sample/v1" "POST" "/projects" "tok0"
        (Body.unsupported "json: unsupported type: chan int")
        (World.init [.ok (statusOK "rid-1" (.encoded .null))]) =
      ((none, some (.other "json: unsupported type: chan int")),
        World.init [.ok (statusOK "rid-1" (.encoded .null))]) ∧
    sendRequestWithContext (stubEnv 10) (Context.user 7) "https://api/sample/v1" "POST"
        "/projects" "tok0" (Body.unsupported "json: unsupported type: chan int")
        (World.init [.ok (statusOK "rid-1" (.encoded .null))]) =
      ((none, some (.other "json: unsupported type: chan int")),
        World.init [.ok (statusOK "rid-1" (.encoded .null))]) ∧
    (∀ (path : String) (newRequest : Option RawMessage → Except GoError Request),
      makeRequest (stubEnv 10) path newRequest "tok0"
          (Body.unsupported "json: unsupported type: chan int")
          (World.init [.ok (statusOK "rid-1" (.encoded .null))]) =
        ((none, some (.other "json: unsupported type: chan int")),
          World.init [.ok (statusOK "rid-1" (.encoded .null))])) :=
  marshal_failure_never_reaches_transport (stubEnv 10) (Context.user 7) "https://api/sample/v1"
    "POST" "/projects" "tok0" (Body.unsupported "json: unsupported type: chan int")
    (World.init [.ok (statusOK "rid-1" (.encoded .null))])
    (.other "json: unsupported type: chan int") rfl

/-- C13: every request `makeRequest` builds (as `sendRequest` and
`sendRequestWithContext` call it) and hands to the transport has the headers
`Accept: application/json` and `Content-Type: application/json`, followed by
`Authorization: Bearer <accessToken>` when `accessToken` is non-empty and by
nothing otherwise: an Authorization header is present exactly when
`accessToken` is non-empty, and its value is `"Bearer "` followed by the
token. -/
theorem dispatched_request_headers {τ : Type} (env : Env τ) (ctx : Context)
    (host method url accessToken : String) (body : Body) (w : World τ) :
    ∃ l, (sendRequestWithContext env ctx host method url accessToken body w).2.sent =
        w.sent ++ l ∧
      (sendRequest env host method url accessToken body w).2.sent =
        (sendRequestWithContext env Context.Background host method url accessToken body w).2.sent ∧
      l.length ≤ 1 ∧
      ∀ req ∈ l,
        req.Header =
          (if accessToken ≠ "" then
            [("Accept", "application/json"), ("Content-Type", "application/json"),
              ("Authorization", "Bearer " ++ accessToken)]
          else [("Accept", "application/json"), ("Content-Type", "application/json")]) ∧
        req.Header.Get "Accept" = "application/json" ∧
        req.Header.Get "Content-Type" = "application/json" ∧
        ((∃ v, ("Authorization", v) ∈ req.Header) ↔ accessToken ≠ "") ∧
        (∀ v, ("Authorization", v) ∈ req.Header → v = "Bearer " ++ accessToken) := by
  obtain ⟨l, hl, hcases⟩ := sendRequestWithContext_sent_cases env ctx host method url accessToken
    body w
  refine ⟨l, hl, rfl, ?_, ?_⟩
  · rcases hcases with h | ⟨data, _, h⟩ <;> simp [h]
  · intro req hreq
    rcases hcases with h | ⟨data, _, h⟩
    · simp [h] at hreq
    · rw [h, List.mem_singleton] at hreq
      subst hreq
      have hh : (apiRequest ctx method (host ++ url) accessToken data).Header =
          apiHeader accessToken := rfl
      rw [hh, apiHeader_eq]
      by_cases htok : accessToken = ""
      · subst htok
        simp only [ne_eq, not_true_eq_false, ↓reduceIte]
        refine ⟨trivial, by decide, by decide, ?_, ?_⟩
        · constructor
          · rintro ⟨v, hv⟩
            simp at hv
          · intro h
            exact h.elim
        · intro v hv
          simp at hv
      · simp only [ne_eq, htok, not_false_eq_true, ↓reduceIte]
        refine ⟨trivial, ?_, ?_, ?_, ?_⟩
        · simp [Header.Get, canonical_accept]
        · simp [Header.Get, canonical_content_type_fixed]
        · exact ⟨fun _ => trivial, fun _ => ⟨"Bearer " ++ accessToken, by simp⟩⟩
        · intro v hv
          simp at hv
          exact hv

/-- C13 at the stub request `GET {APIBaseURL}/projects` with the token `tok0`. -/
theorem dispatched_request_headers_witness :
    ∃ l, (sendRequestWithContext (stubEnv 10) (Context.user 7) "https://api/sample/v1" "GET"
          "/projects" "tok0" Body.nil
          (World.init [.ok (statusOK "rid-1" (.encoded .null))])).2.sent =
        [] ++ l ∧
      (sendRequest (stubEnv 10) "https://api/sample/v1" "GET" "/projects" "tok0" Body.nil
          (World.init [.ok (statusOK "rid-1" (.encoded .null))])).2.sent =
        (sendRequestWithContext (stubEnv 10) Context.Background "https://api/sample/v1" "GET"
          "/projects" "tok0" Body.nil
          (World.init [.ok (statusOK "rid-1" (.encoded .null))])).2.sent ∧
      l.length ≤ 1 ∧
      ∀ req ∈ l,
        req.Header =
          (if "tok0" ≠ "" then
            [("Accept", "application/json"), ("Content-Type", "application/json"),
              ("Authorization", "Bearer " ++ "tok0")]
          else [("Accept", "application/json"), ("Content-Type", "application/json")]) ∧
        req.Header.Get "Accept" = "application/json" ∧
        req.Header.Get "Content-Type" = "application/json" ∧
        ((∃ v, ("Authorization", v) ∈ req.Header) ↔ "tok0" ≠ "") ∧
        (∀ v, ("Authorization", v) ∈ req.Header → v = "Bearer " ++ "tok0") :=
  dispatched_request_headers (stubEnv 10) (Context.user 7) "https://api/sample/v1" "GET"
    "/projects" "tok0" Body.nil (World.init [.ok (statusOK "rid-1" (.encoded .null))])

/-- C15: a network-level failure in `makeRequest` returns a nil `APIResponse`
together with the very error that occurred: the error of the request
constructor when the request cannot be built (nothing is sent), the error of
the transport's `Do`, or the error of reading the response body. The error is
neither wrapped nor turned into an `ErrorResponse`. -/
theorem network_failure_returns_plain_error {τ : Type} (env : Env τ) (ctx : Context)
    (method path accessToken : String) (body : Body) (w : World τ) (data : RawMessage)
    (hm : jsonMarshal body = .ok data) :
    (∀ (newRequest : Option RawMessage → Except GoError Request) (err : GoError),
      newRequest (some data) = .error err →
      makeRequest env path newRequest accessToken body w = ((none, some err), w)) ∧
    (∀ err, env.checkRequest method path = some err →
      makeRequest env path (NewRequestWithContext env ctx method path) accessToken body w =
        ((none, some err), w)) ∧
    (∀ (err : GoError) (s : τ), env.checkRequest method path = none →
      env.Do (apiRequest ctx method path accessToken data) w.transport = (.error err, s) →
      makeRequest env path (NewRequestWithContext env ctx method path) accessToken body w =
        ((none, some err), w.afterDo (apiRequest ctx method path accessToken data) s)) ∧
    (∀ (resp : Response) (err : GoError) (s : τ), env.checkRequest method path = none →
      env.Do (apiRequest ctx method path accessToken data) w.transport = (.ok resp, s) →
      resp.Body = .error err →
      makeRequest env path (NewRequestWithContext env ctx method path) accessToken body w =
        ((none, some err), w.afterDo (apiRequest ctx method path accessToken data) s)) := by
  refine ⟨?_, ?_, ?_, ?_⟩
  · intro newRequest err hn
    unfold makeRequest
    simp only [hm, hn]
  · intro err hc
    exact makeRequestWithContext_check_error env ctx method path accessToken body w data err hm hc
  · intro err s hc hdo
    exact makeRequestWithContext_transport_error env ctx method path accessToken body w data err
      s hm hc hdo
  · intro resp err s hc hdo hb
    exact makeRequestWithContext_read_error env ctx method path accessToken body w data resp err
      s hm hc hdo hb

/-- C15 at a stub transport that refuses the connection, and at one whose
response body cannot be read. -/
theorem network_failure_returns_plain_error_witness :
    makeRequest (stubEnv 10) "https://api/sample/v1/projects"
        (NewRequestWithContext (stubEnv 10) Context.Background "GET"
          "https://api/sample/v1/projects") "tok0" Body.nil
        (World.init [.error (.other "connection refused")]) =
      ((none, some (.other "connection refused")),
        (World.init [.error (.other "connection refused")]).afterDo
          (apiRequest Context.Background "GET" "https://api/sample/v1/projects" "tok0"
            (.encoded .null)) []) ∧
    makeRequest (stubEnv 10) "https://api/sample/v1/projects"
        (NewRequestWithContext (stubEnv 10) Context.Background "GET"
          "https://api/sample/v1/projects") "tok0" Body.nil
        (World.init [.ok unreadableResponse]) =
      ((none, some (.other "unexpected EOF")),
        (World.init [.ok unreadableResponse]).afterDo
          (apiRequest Context.Background "GET" "https://api/sample/v1/projects" "tok0"
            (.encoded .null)) []) :=
  ⟨(network_failure_returns_plain_error (stubEnv 10) Context.Background "GET"
      "https://api/sample/v1/projects" "tok0" Body.nil
      (World.init [.error (.other "connection refused")]) (.encoded .null) rfl).2.2.1
      (.other "connection refused") [] rfl rfl,
    (network_failure_returns_plain_error (stubEnv 10) Context.Background "GET"
      "https://api/sample/v1/projects" "tok0" Body.nil
      (World.init [.ok unreadableResponse]) (.encoded .null) rfl).2.2.2
      unreadableResponse (.other "unexpected EOF") [] rfl rfl rfl⟩

/-! ## Validation before the request -/

/-- C19: for every operation that validates its arguments before calling its
request callback, if a validation step fails (`err` is the error of the first
step that fails) the operation returns a nil result with `err`, and it does so
for every callback, with the client and the world as they were: the callback
is not invoked, so no Refresh, no Acquire and no API request reaches the
transport and the Session is unchanged. -/
theorem validation_failure_skips_request {τ ρ α : Type} (v : Validators α) (zero : ρ)
    (c : Client) (w : World τ) (err : GoError) :
    (∀ (project : α) cb, firstError [v.Validate project] = some err →
      createProject v zero project cb c w = ((none, some err), c, w)) ∧
    (∀ (project : α) (id : String) (cb : Callback τ ρ),
      firstError [v.Validate project] = some err →
      updateProject v zero project id cb c w = ((none, some err), c, w)) ∧
    (∀ (id : String) (buy : α) (cb : Callback τ ρ),
      firstError [v.ValidateNotEmpty [id], v.Validate buy] = some err →
      buyProject v zero id buy cb c w = ((none, some err), c, w)) ∧
    (∀ (id : String) (cb : Callback τ ρ), firstError [v.ValidateNotEmpty [id]] = some err →
      closeProject v zero id cb c w = ((none, some err), c, w)) ∧
    (∀ (id : String) (cb : Callback τ ρ), firstError [v.ValidateNotEmpty [id]] = some err →
      getProjectBy v zero id cb c w = ((none, some err), c, w)) ∧
    (∀ (id : String) (cb : Callback τ ρ), firstError [v.ValidateNotEmpty [id]] = some err →
      getProjectReport v zero id cb c w = ((none, some err), c, w)) ∧
    (∀ (id : String) (lineItem : α) (cb : Callback τ ρ),
      firstError [v.ValidateNotEmpty [id], v.Validate lineItem, v.ValidateSchedule lineItem]
        = some err →
      addLineItem v zero id lineItem cb c w = ((none, some err), c, w)) ∧
    (∀ (id lid : String) (lineItem : α) (cb : Callback τ ρ),
      firstError [v.ValidateNotEmpty [id, lid], v.Validate lineItem, v.ValidateSchedule lineItem]
        = some err →
      updateLineItem v zero id lid lineItem cb c w = ((none, some err), c, w)) ∧
    (∀ (id lid action : String) (cb : Callback τ ρ),
      firstError [v.ValidateNotEmpty [id, lid], v.ValidateAction action] = some err →
      updateLineItemState v zero id lid action cb c w = ((none, some err), c, w)) ∧
    (∀ (id lid qid action : String) (cb : Callback τ ρ),
      firstError [v.ValidateNotEmpty [id, lid, qid], v.ValidateAction action] = some err →
      setQuotaCellStatus v zero id lid qid action cb c w = ((none, some err), c, w)) ∧
    (∀ (id query : String) (cb : Callback τ ρ),
      firstError [v.ValidateNotEmpty [id]] = some err →
      getAllLineItems v zero id query cb c w = ((none, some err), c, w)) ∧
    (∀ (id lid : String) (cb : Callback τ ρ),
      firstError [v.ValidateNotEmpty [id, lid]] = some err →
      getLineItemBy v zero id lid cb c w = ((none, some err), c, w)) ∧
    (∀ (id query : String) (cb : Callback τ ρ),
      firstError [v.ValidateNotEmpty [id]] = some err →
      getFeasibility v zero id query cb c w = ((none, some err), c, w)) ∧
    (∀ (country language query : String) (cb : Callback τ ρ),
      firstError [v.ValidateNotEmpty [country, language], v.IsCountryCodeOrEmpty country,
        v.IsLanguageCodeOrEmpty language] = some err →
      getAttributes v zero country language query cb c w = ((none, some err), c, w)) ∧
    (∀ (id : String) (cb : Callback τ ρ), firstError [v.ValidateNotEmpty [id]] = some err →
      getDetailedProjectReport v zero id cb c w = ((none, some err), c, w)) ∧
    (∀ (id lid : String) (cb : Callback τ ρ), firstError [v.ValidateNotEmpty [id]] = some err →
      getDetailedLineItemReport v zero id lid cb c w = ((none, some err), c, w)) ∧
    (∀ (id : String) (cb : Callback τ ρ), firstError [v.ValidateNotEmpty [id]] = some err →
      projectPermissions v zero id cb c w = ((none, some err), c, w)) ∧
    (∀ (permissions : α) (id : String) (cb : Callback τ ρ),
      firstError [v.Validate permissions] = some err →
      upsertProjectPermissions v zero permissions id cb c w = ((none, some err), c, w)) ∧
    (∀ (template : α) cb, firstError [v.Validate template] = some err →
      createTemplate v zero template cb c w = ((none, some err), c, w)) ∧
    (∀ (id : Int) (template : α) (cb : Callback τ ρ),
      firstError [v.Validate template] = some err →
      updateTemplate v zero id template cb c w = ((none, some err), c, w)) := by
  refine ⟨?_, ?_, ?_, ?_, ?_, ?_, ?_, ?_, ?_, ?_, ?_, ?_, ?_, ?_, ?_, ?_, ?_, ?_, ?_, ?_⟩
  · intro project cb h
    unfold createProject
    revert h
    cases v.Validate project <;> intro h <;> simp_all [firstError]
  · intro project id cb h
    unfold updateProject
    revert h
    cases v.Validate project <;> intro h <;> simp_all [firstError]
  · intro id buy cb h
    unfold buyProject
    revert h
    cases v.ValidateNotEmpty [id] <;> cases v.Validate buy <;> intro h <;>
      simp_all [firstError]
  · intro id cb h
    unfold closeProject
    revert h
    cases v.ValidateNotEmpty [id] <;> intro h <;> simp_all [firstError]
  · intro id cb h
    unfold getProjectBy
    revert h
    cases v.ValidateNotEmpty [id] <;> intro h <;> simp_all [firstError]
  · intro id cb h
    unfold getProjectReport
    revert h
    cases v.ValidateNotEmpty [id] <;> intro h <;> simp_all [firstError]
  · intro id lineItem cb h
    unfold addLineItem
    revert h
    cases v.ValidateNotEmpty [id] <;> cases v.Validate lineItem <;>
      cases v.ValidateSchedule lineItem <;> intro h <;> simp_all [firstError]
  · intro id lid lineItem cb h
    unfold updateLineItem
    revert h
    cases v.ValidateNotEmpty [id, lid] <;> cases v.Validate lineItem <;>
      cases v.ValidateSchedule lineItem <;> intro h <;> simp_all [firstError]
  · intro id lid action cb h
    unfold updateLineItemState
    revert h
    cases v.ValidateNotEmpty [id, lid] <;> cases v.ValidateAction action <;> intro h <;>
      simp_all [firstError]
  · intro id lid qid action cb h
    unfold setQuotaCellStatus
    revert h
    cases v.ValidateNotEmpty [id, lid, qid] <;> cases v.ValidateAction action <;> intro h <;>
      simp_all [firstError]
  · intro id query cb h
    unfold getAllLineItems
    revert h
    cases v.ValidateNotEmpty [id] <;> intro h <;> simp_all [firstError]
  · intro id lid cb h
    unfold getLineItemBy
    revert h
    cases v.ValidateNotEmpty [id, lid] <;> intro h <;> simp_all [firstError]
  · intro id query cb h
    unfold getFeasibility
    revert h
    cases v.ValidateNotEmpty [id] <;> intro h <;> simp_all [firstError]
  · intro country language query cb h
    unfold getAttributes
    revert h
    cases v.ValidateNotEmpty [country, language] <;> cases v.IsCountryCodeOrEmpty country <;>
      cases v.IsLanguageCodeOrEmpty language <;> intro h <;> simp_all [firstError]
  · intro id cb h
    unfold getDetailedProjectReport
    revert h
    cases v.ValidateNotEmpty [id] <;> intro h <;> simp_all [firstError]
  · intro id lid cb h
    unfold getDetailedLineItemReport
    revert h
    cases v.ValidateNotEmpty [id] <;> intro h <;> simp_all [firstError]
  · intro id cb h
    unfold projectPermissions
    revert h
    cases v.ValidateNotEmpty [id] <;> intro h <;> simp_all [firstError]
  · intro permissions id cb h
    unfold upsertProjectPermissions
    revert h
    cases v.Validate permissions <;> intro h <;> simp_all [firstError]
  · intro template cb h
    unfold createTemplate
    revert h
    cases v.Validate template <;> intro h <;> simp_all [firstError]
  · intro id template cb h
    unfold updateTemplate
    revert h
    cases v.Validate template <;> intro h <;> simp_all [firstError]

/-- C19 at `getProjectBy` with an empty project id and at `addLineItem` with
criteria that `Validate` rejects, for a callback that would dispatch through
the guard and a client that never acquired a Session. -/
theorem validation_failure_skips_request_witness :
    getProjectBy stubValidators (none : Option JSON) "" stubCallback
        (stubClient TokenResponse.zero) (World.init [.ok tokenAnswer]) =
      ((none, some (.other "validation: required field is empty")),
        stubClient TokenResponse.zero, World.init [.ok tokenAnswer]) ∧
    addLineItem stubValidators (none : Option JSON) "P1" Body.nil stubCallback
        (stubClient TokenResponse.zero) (World.init [.ok tokenAnswer]) =
      ((none, some (.other "validation: criteria is nil")),
        stubClient TokenResponse.zero, World.init [.ok tokenAnswer]) :=
  ⟨(validation_failure_skips_request stubValidators (none : Option JSON)
      (stubClient TokenResponse.zero) (World.init [.ok tokenAnswer])
      (.other "validation: required field is empty")).2.2.2.2.1 "" stubCallback (by decide),
    (validation_failure_skips_request stubValidators (none : Option JSON)
      (stubClient TokenResponse.zero) (World.init [.ok tokenAnswer])
      (.other "validation: criteria is nil")).2.2.2.2.2.2.1 "P1" Body.nil stubCallback
      (by decide)⟩

/-! ## Configuration -/

/-- C18: `SetOptions(env, timeout)` returns nil exactly when `env` is one of
`"dev"`, `"uat"`, `"prod"`, and then the client's options are the corresponding
preset, with the preset's four URLs; for every other name it returns
`ErrIncorrectEnvironemt` and leaves the client, the presets and the world as
they were (no request is sent), and `NewClientFromEnv` returns a nil client
together with that error. -/
theorem SetOptions_accepts_named_presets {τ : Type} (envName : String) (timeout : Int)
    (c : Client) (g : Presets) (w : World τ) :
    ((SetOptions envName timeout c g w).1 = none ↔
      envName = "dev" ∨ envName = "uat" ∨ envName = "prod") ∧
    (SetOptions envName timeout c g w).2.2.2 = w ∧
    (envName = "dev" →
      (SetOptions envName timeout c g w).2.1.Options = (SetOptions envName timeout c g w).2.2.1.Dev ∧
      (SetOptions envName timeout c g w).2.1.Options.APIBaseURL = g.Dev.APIBaseURL ∧
      (SetOptions envName timeout c g w).2.1.Options.AuthURL = g.Dev.AuthURL ∧
      (SetOptions envName timeout c g w).2.1.Options.StatusURL = g.Dev.StatusURL ∧
      (SetOptions envName timeout c g w).2.1.Options.GatewayURL = g.Dev.GatewayURL) ∧
    (envName = "uat" →
      (SetOptions envName timeout c g w).2.1.Options = (SetOptions envName timeout c g w).2.2.1.UAT ∧
      (SetOptions envName timeout c g w).2.1.Options.APIBaseURL = g.UAT.APIBaseURL ∧
      (SetOptions envName timeout c g w).2.1.Options.AuthURL = g.UAT.AuthURL ∧
      (SetOptions envName timeout c g w).2.1.Options.StatusURL = g.UAT.StatusURL ∧
      (SetOptions envName timeout c g w).2.1.Options.GatewayURL = g.UAT.GatewayURL) ∧
    (envName = "prod" →
      (SetOptions envName timeout c g w).2.1.Options =
        (SetOptions envName timeout c g w).2.2.1.Prod ∧
      (SetOptions envName timeout c g w).2.1.Options.APIBaseURL = g.Prod.APIBaseURL ∧
      (SetOptions envName timeout c g w).2.1.Options.AuthURL = g.Prod.AuthURL ∧
      (SetOptions envName timeout c g w).2.1.Options.StatusURL = g.Prod.StatusURL ∧
      (SetOptions envName timeout c g w).2.1.Options.GatewayURL = g.Prod.GatewayURL) ∧
    (¬ (envName = "dev" ∨ envName = "uat" ∨ envName = "prod") →
      SetOptions envName timeout c g w = (some GoError.ErrIncorrectEnvironemt, c, g, w) ∧
      ∀ clientID username passsword : String,
        NewClientFromEnv clientID username passsword envName timeout g w =
          ((none, some GoError.ErrIncorrectEnvironemt), g, w)) := by
  refine ⟨?_, ?_, ?_, ?_, ?_, ?_⟩
  · unfold SetOptions
    by_cases h1 : envName = "dev"
    · simp [h1]
    · by_cases h2 : envName = "uat"
      · simp [h2]
      · by_cases h3 : envName = "prod"
        · simp [h3]
        · simp [h1, h2, h3]
  · unfold SetOptions
    split
    · rfl
    · split
      · rfl
      · split <;> rfl
  · intro h
    subst h
    have hu := setTimeout_urls g.Dev timeout
    constructor
    · simp [SetOptions]
    · simpa [SetOptions] using hu
  · intro h
    subst h
    have hu := setTimeout_urls g.UAT timeout
    have hne : ¬ ("uat" = "dev") := by decide
    constructor
    · simp [SetOptions, hne]
    · simpa [SetOptions, hne] using hu
  · intro h
    subst h
    have hu := setTimeout_urls g.Prod timeout
    have hne : ¬ ("prod" = "dev") := by decide
    have hne2 : ¬ ("prod" = "uat") := by decide
    constructor
    · simp [SetOptions, hne, hne2]
    · simpa [SetOptions, hne, hne2] using hu
  · intro h
    have h1 : ¬ envName = "dev" := fun e => h (Or.inl e)
    have h2 : ¬ envName = "uat" := fun e => h (Or.inr (Or.inl e))
    have h3 : ¬ envName = "prod" := fun e => h (Or.inr (Or.inr e))
    refine ⟨?_, ?_⟩
    · simp only [SetOptions, h1, h2, h3, ↓reduceIte]
    · intro clientID username passsword
      simp only [NewClientFromEnv, SetOptions, h1, h2, h3, ↓reduceIte]

/-- C18 at the names `"staging"` and `"dev"`, on the presets as declared. -/
theorem SetOptions_accepts_named_presets_witness :
    (SetOptions "staging" 0 (stubClient liveAuth) Presets.declared
        stubWorld =
      (some GoError.ErrIncorrectEnvironemt, stubClient liveAuth, Presets.declared,
        stubWorld) ∧
      ∀ clientID username passsword : String,
        NewClientFromEnv clientID username passsword "staging" 0 Presets.declared
            stubWorld =
          ((none, some GoError.ErrIncorrectEnvironemt), Presets.declared,
            stubWorld)) ∧
    ((SetOptions "dev" 30 (stubClient liveAuth) Presets.declared
        stubWorld).2.1.Options =
      (SetOptions "dev" 30 (stubClient liveAuth) Presets.declared
        stubWorld).2.2.1.Dev ∧
      (SetOptions "dev" 30 (stubClient liveAuth) Presets.declared
        stubWorld).2.1.Options.APIBaseURL
          = Presets.declared.Dev.APIBaseURL ∧
      (SetOptions "dev" 30 (stubClient liveAuth) Presets.declared
        stubWorld).2.1.Options.AuthURL
          = Presets.declared.Dev.AuthURL ∧
      (SetOptions "dev" 30 (stubClient liveAuth) Presets.declared
        stubWorld).2.1.Options.StatusURL
          = Presets.declared.Dev.StatusURL ∧
      (SetOptions "dev" 30 (stubClient liveAuth) Presets.declared
        stubWorld).2.1.Options.GatewayURL
          = Presets.declared.Dev.GatewayURL) :=
  ⟨(SetOptions_accepts_named_presets "staging" 0 (stubClient liveAuth) Presets.declared
      stubWorld).2.2.2.2.2 (by decide),
    (SetOptions_accepts_named_presets "dev" 30 (stubClient liveAuth) Presets.declared
      stubWorld).2.2.1 rfl⟩

/-! ## Where the code departs from the specification -/

/-- C12, the code at a nil body: `json.Marshal(nil)` is the document `null`,
so `reqData` is not nil and the request handed to the transport carries the
four bytes `null` as its payload, whenever the request can be built. The
payload is not empty. -/
theorem nil_body_sends_null_payload {τ : Type} (env : Env τ) (ctx : Context)
    (host method url accessToken : String) (w : World τ)
    (hc : env.checkRequest method (host ++ url) = none) :
    jsonMarshal Body.nil = .ok (.encoded .null) ∧
    (sendRequestWithContext env ctx host method url accessToken Body.nil w).2.sent =
      w.sent ++ [apiRequest ctx method (host ++ url) accessToken (.encoded .null)] ∧
    (sendRequest env host method url accessToken Body.nil w).2.sent =
      w.sent ++ [apiRequest Context.Background method (host ++ url) accessToken (.encoded .null)] ∧
    (apiRequest ctx method (host ++ url) accessToken (.encoded .null)).Body =
      some (.encoded .null) :=
  ⟨rfl, sendRequestWithContext_sent env ctx host method url accessToken Body.nil w
      (.encoded .null) rfl hc,
    sendRequestWithContext_sent env Context.Background host method url accessToken Body.nil w
      (.encoded .null) rfl hc, rfl⟩

/-- C12 at `GET {APIBaseURL}/projects` with a nil body. -/
theorem nil_body_sends_null_payload_witness :
    (sendRequest (stubEnv 10) "https://api/sample/v1" "GET" "/projects" "tok0" Body.nil
      stubWorld).2.sent =
      stubWorld.sent ++ [apiRequest Context.Background "GET"
        ("https://api/sample/v1" ++ "/projects") "tok0" (.encoded .null)] :=
  (nil_body_sends_null_payload (stubEnv 10) Context.Background "https://api/sample/v1" "GET"
    "/projects" "tok0" stubWorld rfl).2.2.1

/-- C16, the code at a first dispatch answered `404` with a live access token:
`requestWithContext` returns the `ErrorResponse` with a nil `APIResponse`, the
body is lost; `request` returns the same error together with the
`APIResponse`. -/
theorem requestWithContext_drops_error_body :
    (requestWithContext (stubEnv 10) (Context.user 7) "GET" "https://api/sample/v1" "/projects"
      Body.nil (stubClient liveAuth) (World.init [.ok notFound])).1.1.isNone = true ∧
    (requestWithContext (stubEnv 10) (Context.user 7) "GET" "https://api/sample/v1" "/projects"
      Body.nil (stubClient liveAuth) (World.init [.ok notFound])).1.2 =
      some (.errorResponse (apiError notFound "https://api/sample/v1/projects" 11)) ∧
    (request (stubEnv 10) "GET" "https://api/sample/v1" "/projects"
      Body.nil (stubClient liveAuth) (World.init [.ok notFound])).1.1 =
      some (apiResponse notFound
        (.encoded (.object [("message", .string "no such project")]))) ∧
    (request (stubEnv 10) "GET" "https://api/sample/v1" "/projects"
      Body.nil (stubClient liveAuth) (World.init [.ok notFound])).1.2 =
      some (.errorResponse (apiError notFound "https://api/sample/v1/projects" 11)) :=
  ⟨by decide, by decide, rfl, by decide⟩

/-- C14, the code at a multipart upload with the token `tok0`: the request of
`sendFormData` carries `Authorization: Bearer tok0` and the multipart
`Content-Type` and no `Accept` header, while the request `sendRequest` builds
for the same call carries `Accept: application/json`; the response is
classified as `sendRequest` classifies it. -/
theorem multipart_request_lacks_accept :
    (sendFormData (stubEnv 10) "b0" "https://api/sample/v1" "POST" "/projects/P1/reconcile"
      "tok0" (.ok "id,status") "fix.csv" "please" (World.init [.ok notFound])).2.sent.map
        (fun req => req.Header) =
      [[("Authorization", "Bearer tok0"),
        ("Content-Type", "multipart/form-data; boundary=b0")]] ∧
    (sendFormData (stubEnv 10) "b0" "https://api/sample/v1" "POST" "/projects/P1/reconcile"
      "tok0" (.ok "id,status") "fix.csv" "please" (World.init [.ok notFound])).2.sent.map
        (fun req => req.Header.Get "Accept") = [""] ∧
    (sendFormDataWithContext (stubEnv 10) "b0" (Context.user 7) "https://api/sample/v1" "POST"
      "/projects/P1/reconcile" "tok0" (.ok "id,status") "fix.csv" "please"
      (World.init [.ok notFound])).2.sent.map (fun req => req.Header.Get "Accept") = [""] ∧
    (sendRequest (stubEnv 10) "https://api/sample/v1" "POST" "/projects/P1/reconcile"
      "tok0" Body.nil (World.init [.ok notFound])).2.sent.map
        (fun req => req.Header.Get "Accept") = ["application/json"] ∧
    (sendFormData (stubEnv 10) "b0" "https://api/sample/v1" "POST" "/projects/P1/reconcile"
      "tok0" (.ok "id,status") "fix.csv" "please" (World.init [.ok notFound])).1 =
    (sendRequest (stubEnv 10) "https://api/sample/v1" "POST" "/projects/P1/reconcile"
      "tok0" Body.nil (World.init [.ok notFound])).1 :=
  ⟨by decide, by decide, by decide, by decide, rfl⟩

/-- C17, the code at `UploadReconcile`: for a client without a Session, and
for one whose access token has expired, the upload is the only transport call,
made without the guard. The first carries no Authorization header, the second
the expired token; the `401` answer is returned as it is, nothing is acquired
and nothing is retried, and the Session is untouched. `GetInvoice` on the same
client starts with the credential Acquire. -/
theorem UploadReconcile_bypasses_guard :
    ((UploadReconcile (stubEnv 10) "b0" "P1" (.ok "id,status") "fix.csv" "please" newClient
      (World.init [.ok (unauthorized "rid-1"), .ok tokenAnswer])).2.2.sent.map
        (fun req => (req.Method, req.URL, req.Header.Get "Authorization")) =
      [("POST", "https://api/sample/v1/projects/P1/reconcile", "")] ∧
    (UploadReconcile (stubEnv 10) "b0" "P1" (.ok "id,status") "fix.csv" "please" newClient
      (World.init [.ok (unauthorized "rid-1"), .ok tokenAnswer])).1.2 =
      some (.errorResponse (apiError (unauthorized "rid-1")
        "https://api/sample/v1/projects/P1/reconcile" 10)) ∧
    (UploadReconcile (stubEnv 10) "b0" "P1" (.ok "id,status") "fix.csv" "please" newClient
      (World.init [.ok (unauthorized "rid-1"), .ok tokenAnswer])).2.1 = newClient) ∧
    ((stubClient staleAuth).Auth.AccessTokenExpiredAt ((stubEnv 10).clock 0) = true ∧
    (UploadReconcileWithContext (stubEnv 10) "b0" (Context.user 7) "P1" (.ok "id,status")
      "fix.csv" "please" (stubClient staleAuth)
      (World.init [.ok (unauthorized "rid-1"), .ok tokenAnswer])).2.2.sent.map
        (fun req => (req.Method, req.URL, req.Header.Get "Authorization")) =
      [("POST", "https://api/sample/v1/projects/P1/reconcile", "Bearer tok0")] ∧
    (UploadReconcileWithContext (stubEnv 10) "b0" (Context.user 7) "P1" (.ok "id,status")
      "fix.csv" "please" (stubClient staleAuth)
      (World.init [.ok (unauthorized "rid-1"), .ok tokenAnswer])).2.1 = stubClient staleAuth) ∧
    (GetInvoice (stubEnv 10) "P1" newClient
      (World.init [.ok tokenAnswer, .ok (statusOK "rid-2" (.encoded (.array [])))])).2.2.sent.map
        (fun req => (req.Method, req.URL, req.Header.Get "Authorization")) =
      [("POST", "https://api/auth/v1/token/password", ""),
        ("GET", "https://api/sample/v1/projects/P1/invoices", "Bearer tok1")] := by
  decide

/-- C20, the code at empty identifiers: `GetDetailedLineItemReport` with a
non-empty project id and an empty line item id, `GetInvoice` with an empty
project id and `GetEventBy` with an empty event id each pass without a
validation error and dispatch a request whose path has the empty segment. -/
theorem empty_identifier_is_dispatched :
    ((GetDetailedLineItemReport (stubEnv 10) stubValidators documentDecoder "P1" ""
      (stubClient liveAuth) (World.init [.ok (statusOK "rid-1" (.encoded (.object [])))])).1.2
        = none ∧
    (GetDetailedLineItemReport (stubEnv 10) stubValidators documentDecoder "P1" ""
      (stubClient liveAuth)
      (World.init [.ok (statusOK "rid-1" (.encoded (.object [])))])).2.2.sent.map
        (fun req => (req.Method, req.URL)) =
      [("GET", "https://api/sample/v1/projects/P1/lineItems//detailedReport")]) ∧
    ((GetInvoice (stubEnv 10) "" (stubClient liveAuth)
      (World.init [.ok (statusOK "rid-1" (.encoded (.object [])))])).1.2 = none ∧
    (GetInvoice (stubEnv 10) "" (stubClient liveAuth)
      (World.init [.ok (statusOK "rid-1" (.encoded (.object [])))])).2.2.sent.map
        (fun req => (req.Method, req.URL)) =
      [("GET", "https://api/sample/v1/projects//invoices")]) ∧
    ((GetEventBy (stubEnv 10) documentDecoder "" (stubClient liveAuth)
      (World.init [.ok (statusOK "rid-1" (.encoded (.object [])))])).1.2 = none ∧
    (GetEventBy (stubEnv 10) documentDecoder "" (stubClient liveAuth)
      (World.init [.ok (statusOK "rid-1" (.encoded (.object [])))])).2.2.sent.map
        (fun req => (req.Method, req.URL)) =
      [("GET", "https://api/sample/v1/events/")]) ∧
    ValidateNotEmpty ["P1", ""] = some (.other "validation: required field is empty") := by
  decide

/-- C21, the code at a `200` answer whose body is a user document, on a client
with a live access token: `GetUserInfo` and the getters of the same shape
(`GetSurveyTopics`, `GetSources`, `GetEvents`, `GetEventBy`, `TeamsInfo`,
`Roles`, `GetStudyMetadata`, `GetTemplateList`, `DeleteTemplate`) return the
zero value of their result type with a nil error, the body is not decoded into
the result; `CompanyUsers`, which hands `&res` on, returns the decoded
document. -/
theorem getters_return_zero_value :
    (GetUserInfo (stubEnv 10) documentDecoder (stubClient liveAuth) userWorld).1 =
      (some none, none) ∧
    (GetUserInfoWithContext (stubEnv 10) documentDecoder (Context.user 7) (stubClient liveAuth)
      userWorld).1 = (some none, none) ∧
    (GetSurveyTopics (stubEnv 10) documentDecoder "" (stubClient liveAuth) userWorld).1 =
      (some none, none) ∧
    (GetSources (stubEnv 10) documentDecoder "" (stubClient liveAuth) userWorld).1 =
      (some none, none) ∧
    (GetEvents (stubEnv 10) documentDecoder "" (stubClient liveAuth) userWorld).1 =
      (some none, none) ∧
    (GetEventBy (stubEnv 10) documentDecoder "E1" (stubClient liveAuth) userWorld).1 =
      (some none, none) ∧
    (TeamsInfo (stubEnv 10) documentDecoder (stubClient liveAuth) userWorld).1 =
      (some none, none) ∧
    (Roles (stubEnv 10) documentDecoder "" (stubClient liveAuth) userWorld).1 =
      (some none, none) ∧
    (GetStudyMetadata (stubEnv 10) documentDecoder (stubClient liveAuth) userWorld).1 =
      (some none, none) ∧
    (GetTemplateList (stubEnv 10) documentDecoder "US" "en" "" (stubClient liveAuth)
      userWorld).1 = (some none, none) ∧
    (DeleteTemplate (stubEnv 10) documentDecoder 5 (stubClient liveAuth) userWorld).1 =
      (some none, none) ∧
    (CompanyUsers (stubEnv 10) documentDecoder (stubClient liveAuth) userWorld).1 =
      (some (some userDocument), none) ∧
    (GetCountries (stubEnv 10) documentDecoder "" (stubClient liveAuth) userWorld).1 =
      (some (some userDocument), none) :=
  ⟨rfl, rfl, rfl, rfl, rfl, rfl, rfl, rfl, rfl, rfl, rfl, rfl, rfl⟩

/-! ## Round trip through the dispatcher -/

/-- C22, the claim as stated fails: the request body is the integer `1` (and
the map with the entry `count: 1`), serialization succeeds and the transport
answers `200` with the request payload as its body. `sendRequest` returns an
`APIResponse` whose `Body` is the serialization of the body, but decoding that
`Body` gives the `float64` `1`, a value that is not equal to the integer the
request was made with. -/
theorem echoed_integer_decodes_as_float64 :
    jsonMarshal (Body.ofValue (.int 1)) = .ok (.encoded (.number 1)) ∧
    (sendRequest (stubEnv 10) "https://api/sample/v1" "POST" "/echo" "tok0"
      (Body.ofValue (.int 1)) (echoWorld (.encoded (.number 1)))).2.sent.map (fun r => r.Body)
        = [] ++ [some (.encoded (.number 1))] ∧
    (∃ ar, (sendRequest (stubEnv 10) "https://api/sample/v1" "POST" "/echo" "tok0"
        (Body.ofValue (.int 1)) (echoWorld (.encoded (.number 1)))).1 = (some ar, none) ∧
      ar.Body = .encoded (.number 1) ∧
      jsonUnmarshalInterface ar.Body = .ok (.float64 1) ∧
      jsonUnmarshalInterface ar.Body ≠ .ok (.int 1)) ∧
    (∃ ar, (sendRequest (stubEnv 10) "https://api/sample/v1" "POST" "/echo" "tok0"
        (Body.ofValue (.map [("count", .int 1)]))
        (echoWorld (.encoded (.object [("count", .number 1)])))).1 = (some ar, none) ∧
      ar.Body = .encoded (.object [("count", .number 1)]) ∧
      jsonUnmarshalInterface ar.Body = .ok (.map [("count", .float64 1)]) ∧
      jsonUnmarshalInterface ar.Body ≠ .ok (.map [("count", .int 1)])) := by
  refine ⟨rfl, rfl, ⟨_, rfl, rfl, rfl, ?_⟩, ⟨_, rfl, rfl, rfl, ?_⟩⟩
  · intro h
    cases h
  · intro h
    cases h

/-- C22, amended: for every request body `b` whose serialization `data`
succeeds, if the transport answers the request with a status below 400 and a
response body that is the request payload `data`, `sendRequestWithContext` (and
`sendRequest`, at the background context) returns an `APIResponse` whose `Body`
is exactly `data`; and when `b` is a Go value of the form the decoder makes for
an `interface{}` (nil, booleans, strings, `float64` values holding an integer
of magnitude at most `2 ^ 53`, slices and maps of such values), decoding that
`Body` into an `interface{}` yields `b` again. -/
theorem echo_round_trip {τ : Type} (env : Env τ) (ctx : Context)
    (host method url accessToken : String) (b : Body) (w : World τ) (data : RawMessage)
    (resp : Response) (s : τ)
    (hm : jsonMarshal b = .ok data)
    (hc : env.checkRequest method (host ++ url) = none)
    (hdo : env.Do (apiRequest ctx method (host ++ url) accessToken data) w.transport
      = (.ok resp, s))
    (hecho : resp.Body = .ok data)
    (hs : resp.StatusCode < 400) :
    ∃ ar,
      (sendRequestWithContext env ctx host method url accessToken b w).1 = (some ar, none) ∧
      (ctx = Context.Background →
        (sendRequest env host method url accessToken b w).1 = (some ar, none)) ∧
      ar.Body = data ∧
      (∀ v : GoValue, v.generic = true → b = Body.ofValue v →
        jsonUnmarshalInterface ar.Body = .ok v) := by
  have e := sendRequestWithContext_ok env ctx host method url accessToken b w data resp data s
    hm hc ⟨hdo, hecho⟩ hs
  refine ⟨apiResponse resp data, by rw [e], ?_, rfl, ?_⟩
  · intro hctx
    subst hctx
    rw [sendRequest_eq, e]
  · intro v hv hb
    subst hb
    have hd : data = .encoded (encodeValue v) := by
      simp only [Body.ofValue, jsonMarshal, Except.ok.injEq] at hm
      exact hm.symm
    show jsonUnmarshalInterface data = .ok v
    rw [hd]
    simp only [jsonUnmarshalInterface, decodeValue_encodeValue v hv]

/-- C22, amended, at the body `userValue`, a map holding strings, a `float64`,
a slice and nil, and a stub transport that answers `200` with the payload of
the request: the `Body` returned is the serialization of `userValue` and
decodes to `userValue`. -/
theorem echo_round_trip_witness :
    ∃ ar,
      (sendRequest (stubEnv 10) "https://api/sample/v1" "POST" "/echo" "tok0"
        (Body.ofValue userValue) (echoWorld (.encoded (encodeValue userValue)))).1
          = (some ar, none) ∧
      ar.Body = .encoded (.object [("email", .string "ann@example.org"), ("logins", .number 3),
        ("roles", .array [.string "admin", .null]), ("userName", .string "ann")]) ∧
      jsonUnmarshalInterface ar.Body = .ok userValue :=
  (echo_round_trip (stubEnv 10) Context.Background "https://api/sample/v1" "POST" "/echo" "tok0"
    (Body.ofValue userValue) (echoWorld (.encoded (encodeValue userValue)))
    (.encoded (encodeValue userValue))
    (statusOK "rid-1" (.encoded (encodeValue userValue))) [] rfl rfl rfl rfl (by decide)).imp
    (fun _ h => ⟨h.2.1 rfl, h.2.2.1, h.2.2.2 userValue rfl rfl⟩)

/-! ## What a failed guard surfaces -/

/-- C23, the claim as stated fails: a client without a Session (both tokens
expired) makes a guarded request while the credential endpoint cannot be
reached. `RefreshToken` on that client gives `ErrSessionExpired`, but the
guarded request fails with the transport's error, not with
`ErrSessionExpired`. -/
theorem lapsed_session_error_is_not_surfaced :
    newClient.Auth.AccessTokenExpiredAt ((stubEnv 10).clock 0) = true ∧
    newClient.Auth.RefreshTokenExpiredAt ((stubEnv 10).clock 1) = true ∧
    (RefreshToken (stubEnv 10) newClient
      (World.init [.error (.other "connection refused")]).tick).1
        = some GoError.ErrSessionExpired ∧
    (request (stubEnv 10) "GET" "https://api/sample/v1" "/projects" Body.nil newClient
      (World.init [.error (.other "connection refused")])).1.2
        = some (.other "connection refused") ∧
    (request (stubEnv 10) "GET" "https://api/sample/v1" "/projects" Body.nil newClient
      (World.init [.error (.other "connection refused")])).1.2
        ≠ some GoError.ErrSessionExpired ∧
    (requestWithContext (stubEnv 10) (Context.user 7) "GET" "https://api/sample/v1" "/projects"
      Body.nil newClient (World.init [.error (.other "connection refused")])).1.2
        ≠ some GoError.ErrSessionExpired := by
  decide

/-- C23, amended: when the access token and the refresh token have both lapsed,
the Refresh of the guard fails with `ErrSessionExpired`, the guard drops that
error and falls back to the credential Acquire, and when the Acquire fails with
`e2` the guarded request fails with `e2` and a nil `APIResponse`: what the
caller receives is the Acquire's error. -/
theorem lapsed_session_surfaces_acquire_error {τ : Type} (env : Env τ) (ctx : Context)
    (method host url : String) (body : Body) (c : Client) (w : World τ)
    (hacc : c.Auth.AccessTokenExpiredAt (env.clock w.reads) = true)
    (href : c.Auth.RefreshTokenExpiredAt (env.clock (w.reads + 1)) = true) :
    (RefreshToken env c w.tick).1 = some GoError.ErrSessionExpired ∧
    (RefreshTokenWithContext env ctx c w.tick).1 = some GoError.ErrSessionExpired ∧
    (∀ e2, (requestAndParseToken env c w.tick.tick).1 = some e2 →
      request env method host url body c w =
        ((none, some e2), (requestAndParseToken env c w.tick.tick).2)) ∧
    (∀ e2, (requestAndParseTokenWithContext env ctx c w.tick.tick).1 = some e2 →
      requestWithContext env ctx method host url body c w =
        ((none, some e2), (requestAndParseTokenWithContext env ctx c w.tick.tick).2)) := by
  refine ⟨?_, ?_, ?_, ?_⟩
  · rw [RefreshToken_eq, RefreshTokenWithContext_expired env Context.Background c w.tick href]
  · rw [RefreshTokenWithContext_expired env ctx c w.tick href]
  · intro e2 h
    unfold request
    rw [validateTokens_both_expired env c w hacc href]
    simp only [h]
  · intro e2 h
    unfold requestWithContext
    rw [validateTokensWithContext_both_expired env ctx c w hacc href]
    simp only [h]

/-- C23, amended, at a client without a Session and a credential endpoint that
cannot be reached. -/
theorem lapsed_session_surfaces_acquire_error_witness :
    request (stubEnv 10) "GET" "https://api/sample/v1" "/projects" Body.nil newClient
        (World.init [.error (.other "connection refused")]) =
      ((none, some (.other "connection refused")),
        (requestAndParseToken (stubEnv 10) newClient
          (World.init [.error (.other "connection refused")]).tick.tick).2) :=
  (lapsed_session_surfaces_acquire_error (stubEnv 10) Context.Background "GET"
    "https://api/sample/v1" "/projects" Body.nil newClient
    (World.init [.error (.other "connection refused")]) (by decide) (by decide)).2.2.1
    (.other "connection refused") (by decide)

/-! ## Decoding after the guarded request -/

/-- C24: when the guarded request fails with `err`, `requestAndParseResponse`
(and its context variant) returns `err` itself; an `APIResponse` that comes
with the error is decoded into the result variable and the outcome of that
decode is ignored, without one the variable is left alone. When the guarded
request succeeds, an error of decoding the body is the error returned, and
without one the decoded result is returned with a nil error. -/
theorem parse_response_keeps_guard_error {τ ρ : Type} (env : Env τ) (dec : Decoder ρ)
    (ctx : Context) (method url : String) (body : Body) (how : ResObj) (res : ρ) (c : Client)
    (w : World τ) :
    (∀ err, (request env method c.Options.APIBaseURL url body c w).1.2 = some err →
      (requestAndParseResponse env dec method url body how res c w).1.1 = some err ∧
      (∀ ar, (request env method c.Options.APIBaseURL url body c w).1.1 = some ar →
        (requestAndParseResponse env dec method url body how res c w).1.2 =
          (unmarshalResObj dec how ar.Body res).1) ∧
      ((request env method c.Options.APIBaseURL url body c w).1.1 = none →
        (requestAndParseResponse env dec method url body how res c w).1.2 = res)) ∧
    (∀ ar, (request env method c.Options.APIBaseURL url body c w).1 = (some ar, none) →
      (requestAndParseResponse env dec method url body how res c w).1 =
        ((unmarshalResObj dec how ar.Body res).2, (unmarshalResObj dec how ar.Body res).1)) ∧
    (∀ err, (requestWithContext env ctx method c.Options.APIBaseURL url body c w).1.2 = some err →
      (requestAndParseResponseWithContext env dec ctx method url body how res c w).1.1
        = some err ∧
      (∀ ar, (requestWithContext env ctx method c.Options.APIBaseURL url body c w).1.1 = some ar →
        (requestAndParseResponseWithContext env dec ctx method url body how res c w).1.2 =
          (unmarshalResObj dec how ar.Body res).1) ∧
      ((requestWithContext env ctx method c.Options.APIBaseURL url body c w).1.1 = none →
        (requestAndParseResponseWithContext env dec ctx method url body how res c w).1.2
          = res)) ∧
    (∀ ar, (requestWithContext env ctx method c.Options.APIBaseURL url body c w).1
        = (some ar, none) →
      (requestAndParseResponseWithContext env dec ctx method url body how res c w).1 =
        ((unmarshalResObj dec how ar.Body res).2, (unmarshalResObj dec how ar.Body res).1)) := by
  refine ⟨?_, ?_, ?_, ?_⟩
  · intro err h
    unfold requestAndParseResponse
    simp only [h]
    refine ⟨?_, ?_, ?_⟩
    · split <;> rfl
    · intro ar har
      simp only [har]
    · intro hn
      simp only [hn]
  · intro ar h
    unfold requestAndParseResponse
    simp only [h]
    split
    · next e he => simp only [he]
    · next he => simp only [he]
  · intro err h
    unfold requestAndParseResponseWithContext
    simp only [h]
    refine ⟨?_, ?_, ?_⟩
    · split <;> rfl
    · intro ar har
      simp only [har]
    · intro hn
      simp only [hn]
  · intro ar h
    unfold requestAndParseResponseWithContext
    simp only [h]
    split
    · next e he => simp only [he]
    · next he => simp only [he]

/-- C24 at a `404` answer and at a `200` answer whose bodies are no JSON: the
first call returns the `ErrorResponse`, the second the decode error. -/
theorem parse_response_keeps_guard_error_witness :
    (requestAndParseResponse (stubEnv 10) documentDecoder "GET" "/projects" Body.nil
      ResObj.pointer none (stubClient liveAuth) (World.init [.ok notFoundText])).1.1 =
      some (.errorResponse (apiError notFoundText "https://api/sample/v1/projects" 11)) ∧
    (requestAndParseResponse (stubEnv 10) documentDecoder "GET" "/projects" Body.nil
      ResObj.pointer none (stubClient liveAuth) (World.init [.ok okText])).1 =
      ((unmarshalResObj documentDecoder ResObj.pointer (apiResponse okText
          (.invalid "done")).Body none).2,
        (unmarshalResObj documentDecoder ResObj.pointer (apiResponse okText
          (.invalid "done")).Body none).1) :=
  ⟨((parse_response_keeps_guard_error (stubEnv 10) documentDecoder Context.Background "GET"
      "/projects" Body.nil ResObj.pointer none (stubClient liveAuth)
      (World.init [.ok notFoundText])).1
      (.errorResponse (apiError notFoundText "https://api/sample/v1/projects" 11))
      (by decide)).1,
    (parse_response_keeps_guard_error (stubEnv 10) documentDecoder Context.Background "GET"
      "/projects" Body.nil ResObj.pointer none (stubClient liveAuth)
      (World.init [.ok okText])).2.1 (apiResponse okText (.invalid "done")) rfl⟩

/-! ## The context of the re-acquisition -/

/-- C25, the code at a `401` on the first dispatch: of the three requests
`requestWithContext` hands to the transport, the dispatch and the retry carry
the caller's context and the credential Acquire in between carries the
background context; with an expired access token the Refresh of the guard
carries the caller's context. -/
theorem reacquisition_ignores_context :
    (requestWithContext (stubEnv 10) (Context.user 7) "GET" "https://api/sample/v1" "/projects"
      Body.nil (stubClient liveAuth)
      (World.init [.ok (unauthorized "rid-1"), .ok tokenAnswer,
        .ok (statusOK "rid-2" (.encoded (.array [])))])).2.2.sent.map
        (fun req => (req.URL, req.ctx)) =
      [("https://api/sample/v1/projects", Context.user 7),
        ("https://api/auth/v1/token/password", Context.Background),
        ("https://api/sample/v1/projects", Context.user 7)] ∧
    (requestWithContext (stubEnv 10) (Context.user 7) "GET" "https://api/sample/v1" "/projects"
      Body.nil (stubClient staleAuth)
      (World.init [.ok tokenAnswer, .ok (unauthorized "rid-1"), .ok tokenAnswer,
        .ok (statusOK "rid-2" (.encoded (.array [])))])).2.2.sent.map
        (fun req => (req.URL, req.ctx)) =
      [("https://api/auth/v1/token/refresh", Context.user 7),
        ("https://api/sample/v1/projects", Context.user 7),
        ("https://api/auth/v1/token/password", Context.Background),
        ("https://api/sample/v1/projects", Context.user 7)] ∧
    (validateTokensWithContext (stubEnv 10) (Context.user 7) newClient
      (World.init [.ok tokenAnswer])).2.2.sent.map (fun req => (req.URL, req.ctx)) =
      [("https://api/auth/v1/token/password", Context.user 7)] := by
  decide

/-! ## Logout -/

/-- C28: with an expired access token `Logout` (and `LogoutWithContext`)
returns nil without a transport call. Otherwise it makes one call of the
dispatcher, `POST {AuthURL}/logout` with an empty access token, so that the
request has no Authorization header, and with the client id, the refresh token
and the access token in the payload; it returns the error of that call, and the
request reaches the transport whenever it can be built. In both cases the
client is the one before the call: the Session is not cleared. -/
theorem Logout_keeps_session {τ : Type} (env : Env τ) (ctx : Context) (c : Client)
    (w : World τ) :
    ((Logout env c w).2.1 = c ∧ (LogoutWithContext env ctx c w).2.1 = c) ∧
    (c.Auth.AccessTokenExpiredAt (env.clock w.reads) = true →
      Logout env c w = (none, c, w.tick) ∧ LogoutWithContext env ctx c w = (none, c, w.tick)) ∧
    (c.Auth.AccessTokenExpiredAt (env.clock w.reads) = false →
      (Logout env c w).1 =
        (sendRequest env c.Options.AuthURL "POST" "/logout" ""
          (Body.logoutReq c.Credentials.ClientID c.Auth.RefreshToken c.Auth.AccessToken)
          w.tick).1.2 ∧
      (LogoutWithContext env ctx c w).1 =
        (sendRequestWithContext env ctx c.Options.AuthURL "POST" "/logout" ""
          (Body.logoutReq c.Credentials.ClientID c.Auth.RefreshToken c.Auth.AccessToken)
          w.tick).1.2 ∧
      (env.checkRequest "POST" (c.Options.AuthURL ++ "/logout") = none →
        (Logout env c w).2.2.sent = w.sent ++ [logoutRequest Context.Background c] ∧
        (LogoutWithContext env ctx c w).2.2.sent = w.sent ++ [logoutRequest ctx c])) ∧
    ((logoutRequest ctx c).Method = "POST" ∧
      (logoutRequest ctx c).URL = c.Options.AuthURL ++ "/logout" ∧
      (logoutRequest ctx c).Header =
        [("Accept", "application/json"), ("Content-Type", "application/json")] ∧
      (logoutRequest ctx c).Body = some (.encoded (.object
        [("clientId", .string c.Credentials.ClientID),
          ("refreshToken", .string c.Auth.RefreshToken),
          ("accessToken", .string c.Auth.AccessToken)]))) := by
  refine ⟨⟨?_, ?_⟩, ?_, ?_, ⟨rfl, rfl, by simp only [logoutRequest, apiRequest]; decide, rfl⟩⟩
  · unfold Logout
    simp only []
    split <;> rfl
  · unfold LogoutWithContext
    simp only []
    split <;> rfl
  · intro he
    unfold Logout LogoutWithContext
    simp only [timeNow_eq, he, ↓reduceIte]
    exact ⟨trivial, trivial⟩
  · intro he
    unfold Logout LogoutWithContext
    simp only [timeNow_eq, he, Bool.false_eq_true, ↓reduceIte]
    refine ⟨trivial, trivial, ?_⟩
    intro hc
    constructor
    · rw [sendRequest_eq]
      exact sendRequestWithContext_sent env Context.Background c.Options.AuthURL "POST" "/logout"
        "" _ w.tick (logoutData c.Credentials.ClientID c.Auth.RefreshToken c.Auth.AccessToken)
        rfl hc
    · exact sendRequestWithContext_sent env ctx c.Options.AuthURL "POST" "/logout"
        "" _ w.tick (logoutData c.Credentials.ClientID c.Auth.RefreshToken c.Auth.AccessToken)
        rfl hc

/-- C28 at a client without a Session (expired: nothing is sent) and at a
client with a live access token whose logout the stub transport answers with
`200`: one request, the client unchanged. -/
theorem Logout_keeps_session_witness :
    (Logout (stubEnv 10) newClient stubWorld = (none, newClient, stubWorld.tick) ∧
      LogoutWithContext (stubEnv 10) (Context.user 7) newClient stubWorld =
        (none, newClient, stubWorld.tick)) ∧
    ((Logout (stubEnv 10) (stubClient liveAuth) userWorld).2.2.sent =
        userWorld.sent ++ [logoutRequest Context.Background (stubClient liveAuth)] ∧
      (LogoutWithContext (stubEnv 10) (Context.user 7) (stubClient liveAuth) userWorld).2.2.sent
        = userWorld.sent ++ [logoutRequest (Context.user 7) (stubClient liveAuth)]) ∧
    ((Logout (stubEnv 10) (stubClient liveAuth) userWorld).2.1 = stubClient liveAuth ∧
      (LogoutWithContext (stubEnv 10) (Context.user 7) (stubClient liveAuth) userWorld).2.1
        = stubClient liveAuth) :=
  ⟨(Logout_keeps_session (stubEnv 10) (Context.user 7) newClient stubWorld).2.1 (by decide),
    ((Logout_keeps_session (stubEnv 10) (Context.user 7) (stubClient liveAuth) userWorld).2.2.1
      (by decide)).2.2 rfl,
    (Logout_keeps_session (stubEnv 10) (Context.user 7) (stubClient liveAuth) userWorld).1⟩

/-! ## A re-acquisition that fails -/

/-- C27, the claim as stated fails: the access token is live, the dispatch is
answered `401` and the credential Acquire that follows gets a success response
whose body has a well-typed `accessToken` and a number for `refreshToken`.
`request` returns the decode error with a nil response after two transport
calls, but the access token of the Session is no longer the one before the
re-acquisition. -/
theorem failed_reacquisition_overwrites_token :
    (stubClient liveAuth).Auth.AccessTokenExpiredAt ((stubEnv 10).clock 0) = false ∧
    (request (stubEnv 10) "GET" "https://api/sample/v1" "/projects" Body.nil
      (stubClient liveAuth)
      (World.init [.ok (unauthorized "rid-1"),
        .ok (statusOK "rid-auth" mistypedBody)])).1.1.isNone = true ∧
    (request (stubEnv 10) "GET" "https://api/sample/v1" "/projects" Body.nil
      (stubClient liveAuth)
      (World.init [.ok (unauthorized "rid-1"),
        .ok (statusOK "rid-auth" mistypedBody)])).1.2
        = some (unmarshalTypeError TokenField.RefreshToken) ∧
    (request (stubEnv 10) "GET" "https://api/sample/v1" "/projects" Body.nil
      (stubClient liveAuth)
      (World.init [.ok (unauthorized "rid-1"),
        .ok (statusOK "rid-auth" mistypedBody)])).2.2.sent.length = 2 ∧
    (stubClient liveAuth).Auth.AccessToken = "tok0" ∧
    (request (stubEnv 10) "GET" "https://api/sample/v1" "/projects" Body.nil
      (stubClient liveAuth)
      (World.init [.ok (unauthorized "rid-1"),
        .ok (statusOK "rid-auth" mistypedBody)])).2.1.Auth.AccessToken = "tok1" ∧
    (requestWithContext (stubEnv 10) (Context.user 7) "GET" "https://api/sample/v1" "/projects"
      Body.nil (stubClient liveAuth)
      (World.init [.ok (unauthorized "rid-1"),
        .ok (statusOK "rid-auth" mistypedBody)])).2.1.Auth ≠ (stubClient liveAuth).Auth := by
  decide

/-- C27, amended: the guard lets the call through and leaves the client `c1`,
the first dispatch is answered `401` and the credential Acquire that follows
fails with `e2`. Then `requestWithContext` (and `request`, at the background
context) returns `e2` with a nil `APIResponse`: the `401` `ErrorResponse` and
its body are dropped and the dispatch is not retried, after the dispatch the
transport sees at most the one Acquire; credentials, options and `Acquired` are
those before the re-acquisition, and the whole client is the one before it
unless `e2` is the decode error of a success response whose body is a JSON
object. -/
theorem failed_reacquisition_aborts_request {τ : Type} (env : Env τ) (ctx : Context)
    (method host url : String) (body : Body) (c c1 : Client) (w w1 : World τ)
    (data : RawMessage) (resp1 : Response) (b1 : RawMessage) (s1 : τ) (e2 : GoError)
    (hm : jsonMarshal body = .ok data)
    (hc : env.checkRequest method (host ++ url) = none)
    (h1 : Answers env (apiRequest ctx method (host ++ url) c1.Auth.AccessToken data)
      w1.transport resp1 b1 s1)
    (h401 : resp1.StatusCode = 401)
    (ha : (requestAndParseToken env c1
      (w1.afterDo (apiRequest ctx method (host ++ url) c1.Auth.AccessToken data) s1).tick).1
        = some e2) :
    (validateTokensWithContext env ctx c w = (none, c1, w1) →
      requestWithContext env ctx method host url body c w =
        ((none, some e2), (requestAndParseToken env c1
          (w1.afterDo (apiRequest ctx method (host ++ url) c1.Auth.AccessToken data) s1).tick).2)) ∧
    (validateTokens env c w = (none, c1, w1) → ctx = Context.Background →
      request env method host url body c w =
        ((none, some e2), (requestAndParseToken env c1
          (w1.afterDo (apiRequest ctx method (host ++ url) c1.Auth.AccessToken data) s1).tick).2)) ∧
    (∃ l, (requestAndParseToken env c1
        (w1.afterDo (apiRequest ctx method (host ++ url) c1.Auth.AccessToken data) s1).tick).2.2.sent =
        w1.sent ++ [apiRequest ctx method (host ++ url) c1.Auth.AccessToken data] ++ l ∧
      (l = [] ∨ l = [acquireRequest Context.Background c1])) ∧
    SessionKept c1 (requestAndParseToken env c1
        (w1.afterDo (apiRequest ctx method (host ++ url) c1.Auth.AccessToken data) s1).tick).2.1
      (acquireExchange env Context.Background c1
        (w1.afterDo (apiRequest ctx method (host ++ url) c1.Auth.AccessToken data) s1).tick.tick).1 := by
  have h400 : (400 : Int) ≤ resp1.StatusCode := by omega
  have e1 := sendRequestWithContext_status env ctx host method url c1.Auth.AccessToken body
    w1 data resp1 b1 s1 hm hc h1 h400
  refine ⟨?_, ?_, ?_, ?_⟩
  · intro hv
    unfold requestWithContext
    simp only [hv, e1, errorsAs, apiError, h401, StatusUnauthorized, ha, ↓reduceIte]
  · intro hv hctx
    subst hctx
    unfold request
    simp only [hv, sendRequest_eq, e1, assertErrorResponse, apiError, h401, StatusUnauthorized,
      ha, ↓reduceIte]
  · rw [requestAndParseToken_world]
    obtain ⟨l, hl, hcases, _⟩ := acquireExchange_sent env Context.Background c1
      (w1.afterDo (apiRequest ctx method (host ++ url) c1.Auth.AccessToken data) s1).tick.tick
    exact ⟨l, hl, hcases⟩
  · apply requestAndParseToken_error
    rw [ha]
    simp

/-- C27, amended, at a client with a live access token and a stub transport that
answers `401` and then refuses the connection to the credential endpoint. -/
theorem failed_reacquisition_aborts_request_witness :
    requestWithContext (stubEnv 10) Context.Background "GET" "https://api/sample/v1" "/projects"
        Body.nil (stubClient liveAuth)
        (World.init [.ok (unauthorized "rid-1"), .error (.other "connection refused")]) =
      ((none, some (.other "connection refused")),
        (requestAndParseToken (stubEnv 10) (stubClient liveAuth)
          ((World.init [.ok (unauthorized "rid-1"), .error (.other "connection refused")]).tick.afterDo
            (apiRequest Context.Background "GET" ("https://api/sample/v1" ++ "/projects")
              (stubClient liveAuth).Auth.AccessToken (.encoded .null))
            [.error (.other "connection refused")]).tick).2) :=
  (failed_reacquisition_aborts_request (stubEnv 10) Context.Background "GET"
    "https://api/sample/v1" "/projects" Body.nil (stubClient liveAuth) (stubClient liveAuth)
    (World.init [Except.ok (unauthorized "rid-1"), Except.error (GoError.other "connection refused")])
    (World.init [Except.ok (unauthorized "rid-1"), Except.error (GoError.other "connection refused")]).tick
    (.encoded .null) (unauthorized "rid-1") (.invalid "")
    [.error (.other "connection refused")] (.other "connection refused")
    rfl rfl ⟨rfl, rfl⟩ rfl (by decide)).1 rfl

/-! ## How many requests a guarded call sends -/

/-- C26: one call of `request` or `requestWithContext` returns (both are total
functions without recursion) after handing the transport at most five
requests, in this order: at most one Refresh and one credential Acquire of the
guard, at most one dispatch, at most one Acquire after a `401` and at most one
retried dispatch. -/
theorem guarded_request_sends_at_most_five {τ : Type} (env : Env τ) (ctx : Context)
    (method host url : String) (body : Body) (c : Client) (w : World τ) :
    (∃ l, (request env method host url body c w).2.2.sent = w.sent ++ l ∧
        GuardedTrace c method (host ++ url) l ∧ l.length ≤ 5) ∧
    (∃ l, (requestWithContext env ctx method host url body c w).2.2.sent = w.sent ++ l ∧
        GuardedTrace c method (host ++ url) l ∧ l.length ≤ 5) := by
  have nil1 : ([] : List Request).length ≤ 1 := by simp
  have nilR : ∀ r ∈ ([] : List Request), IsRefresh c r := by simp
  have nilA : ∀ r ∈ ([] : List Request), IsAcquire c r := by simp
  have nilD : ∀ r ∈ ([] : List Request), IsDispatch method (host ++ url) r := by simp
  constructor
  · unfold request
    obtain ⟨l1, l2, hv, n1, n2, k1, k2, ov⟩ := validateTokens_sent_kind env c w
    simp only [sendRequest_eq]
    generalize validateTokens env c w = v at hv ov ⊢
    obtain ⟨verr, c1, w1⟩ := v
    simp only at hv ov ⊢
    cases verr with
    | some err =>
      exact ⟨l1 ++ l2 ++ [] ++ [] ++ [], by simp [hv],
        GuardedTrace.of_stages c method (host ++ url) l1 l2 [] [] [] n1 n2 nil1 nil1 nil1
          k1 k2 nilD nilA nilD⟩
    | none =>
      simp only
      obtain ⟨l3, h3, n3, k3⟩ := sendRequestWithContext_sent_kind env Context.Background host
        method url c1.Auth.AccessToken body w1
      generalize sendRequestWithContext env Context.Background host method url
        c1.Auth.AccessToken body w1 = r at h3 ⊢
      have short : ∃ l, r.2.sent = w.sent ++ l ∧ GuardedTrace c method (host ++ url) l ∧
          l.length ≤ 5 :=
        ⟨l1 ++ l2 ++ l3 ++ [] ++ [], by simp [h3, hv],
          GuardedTrace.of_stages c method (host ++ url) l1 l2 l3 [] [] n1 n2 n3 nil1 nil1
            k1 k2 k3 nilA nilD⟩
      split
      · split
        · obtain ⟨l4, h4, n4, k4⟩ := requestAndParseToken_sent_kind env c1 r.2
          have k4c : ∀ r ∈ l4, IsAcquire c r := fun r hr => IsAcquire_congr c c1 ov r (k4 r hr)
          split
          · exact ⟨l1 ++ l2 ++ l3 ++ l4 ++ [], by simp [h4, h3, hv],
              GuardedTrace.of_stages c method (host ++ url) l1 l2 l3 l4 [] n1 n2 n3 n4 nil1
                k1 k2 k3 k4c nilD⟩
          · obtain ⟨l5, h5, n5, k5⟩ := sendRequestWithContext_sent_kind env Context.Background
              host method url (requestAndParseToken env c1 r.2).2.1.Auth.AccessToken body
              (requestAndParseToken env c1 r.2).2.2
            exact ⟨l1 ++ l2 ++ l3 ++ l4 ++ l5, by simp [h5, h4, h3, hv],
              GuardedTrace.of_stages c method (host ++ url) l1 l2 l3 l4 l5 n1 n2 n3 n4 n5
                k1 k2 k3 k4c k5⟩
        · exact short
      · exact short
  · unfold requestWithContext
    obtain ⟨l1, l2, hv, n1, n2, k1, k2, ov⟩ := validateTokensWithContext_sent_kind env ctx c w
    generalize validateTokensWithContext env ctx c w = v at hv ov ⊢
    obtain ⟨verr, c1, w1⟩ := v
    simp only at hv ov ⊢
    cases verr with
    | some err =>
      exact ⟨l1 ++ l2 ++ [] ++ [] ++ [], by simp [hv],
        GuardedTrace.of_stages c method (host ++ url) l1 l2 [] [] [] n1 n2 nil1 nil1 nil1
          k1 k2 nilD nilA nilD⟩
    | none =>
      simp only
      obtain ⟨l3, h3, n3, k3⟩ := sendRequestWithContext_sent_kind env ctx host
        method url c1.Auth.AccessToken body w1
      generalize sendRequestWithContext env ctx host method url
        c1.Auth.AccessToken body w1 = r at h3 ⊢
      have short : ∃ l, r.2.sent = w.sent ++ l ∧ GuardedTrace c method (host ++ url) l ∧
          l.length ≤ 5 :=
        ⟨l1 ++ l2 ++ l3 ++ [] ++ [], by simp [h3, hv],
          GuardedTrace.of_stages c method (host ++ url) l1 l2 l3 [] [] n1 n2 n3 nil1 nil1
            k1 k2 k3 nilA nilD⟩
      split
      · split
        · split
          · obtain ⟨l4, h4, n4, k4⟩ := requestAndParseToken_sent_kind env c1 r.2
            have k4c : ∀ r ∈ l4, IsAcquire c r :=
              fun r hr => IsAcquire_congr c c1 ov r (k4 r hr)
            split
            · exact ⟨l1 ++ l2 ++ l3 ++ l4 ++ [], by simp [h4, h3, hv],
                GuardedTrace.of_stages c method (host ++ url) l1 l2 l3 l4 [] n1 n2 n3 n4 nil1
                  k1 k2 k3 k4c nilD⟩
            · obtain ⟨l5, h5, n5, k5⟩ := sendRequestWithContext_sent_kind env ctx
                host method url (requestAndParseToken env c1 r.2).2.1.Auth.AccessToken body
                (requestAndParseToken env c1 r.2).2.2
              exact ⟨l1 ++ l2 ++ l3 ++ l4 ++ l5, by simp [h5, h4, h3, hv],
                GuardedTrace.of_stages c method (host ++ url) l1 l2 l3 l4 l5 n1 n2 n3 n4 n5
                  k1 k2 k3 k4c k5⟩
          · exact short
        · exact short
      · exact short

/-- The bound of five is reached: with an expired access token, a Refresh that
fails, and a `401` on the first dispatch, `request` hands the transport a
Refresh, an Acquire, the dispatch, a second Acquire and the retried dispatch. -/
theorem five_requests_are_reached :
    (request (stubEnv 10) "GET" "https://api/sample/v1" "/projects" Body.nil
        (stubClient staleAuth) fiveCallWorld).2.2.sent.map (fun r => (r.Method, r.URL)) =
      [] ++ [("POST", "https://api/auth/v1/token/refresh"),
        ("POST", "https://api/auth/v1/token/password"),
        ("GET", "https://api/sample/v1/projects"),
        ("POST", "https://api/auth/v1/token/password"),
        ("GET", "https://api/sample/v1/projects")] := by
  decide

end Samplify
